import Mathlib

/-!
# CSMS: transaction pricing and settlement engine

A shallow embedding of `Product`, `Customer`, `TransactionItem` and
`Transaction` (files `Product.cpp`, `Customer.cpp`, `Transaction.cpp`).

Modelling conventions.

* C++ `double` values are exact rationals (`ℚ`); no rounding, NaN or infinity.
  The one place where rounding decides a branch, the loyalty balance between
  `finalizeTransaction` and `processRefund`, is given a second time with
  IEEE-754 binary64 rounding (`roundDouble`, namespace `Binary64`).
* C++ `int` values are integers (`Int`) in the range `INT_MIN .. INT_MAX` of a
  32-bit `int`.  Where the source adds to an `int` (`Product::addStock`) the
  sum wraps around modulo 2^32 (`wrapInt`), and where it converts a `double`
  (`static_cast<int>(std::ceil(x))`) an out-of-range value becomes `INT_MIN`
  (`ceilToInt`): both are undefined behaviour in C++ and are modelled as the
  x86-64 machine executes them.  `Product::reduceStock` subtracts only after
  its guard `0 < quantity <= currentStock`, so its difference needs no wrap.
* `Product*` and `Customer*` are `Option Nat`: `none` is `nullptr`, `some a`
  is the address `a` in a `Heap` that maps addresses to objects.  Methods that
  write through a pointer take a heap and return the new heap.
* Console output (`std::cout`) is not modelled.
-/

namespace CSMS

/-! ## Product.h / Product.cpp -/

/-- Product categories (`enum class ProductCategory`). -/
inductive ProductCategory
  | BEVERAGES | SNACKS | DAIRY | BAKERY | HOUSEHOLD | ELECTRONICS | HEALTH_BEAUTY | OTHER
  deriving DecidableEq, Repr

/-- The three concrete subclasses of `Product` with their own data members. -/
inductive ProductKind
  | regular (markupPercentage : ℚ)
  | perishable (expirationDate : String) (shelfLifeDays : Int) (discountRate : ℚ)
  | bulk (unit : String) (pricePerUnit : ℚ) (minimumQuantity : ℚ)
  deriving DecidableEq

/-- Data members of the base class `Product`, plus the subclass part `kind`. -/
structure Product where
  productId : String
  name : String
  description : String
  basePrice : ℚ
  currentStock : Int
  minStockLevel : Int
  maxStockLevel : Int
  category : ProductCategory
  supplier : String
  barcode : String
  costPrice : ℚ
  isActive : Bool
  tags : List String
  kind : ProductKind
  deriving DecidableEq

/-- The least value of the 32-bit `int` of the source. -/
def INT_MIN : Int := -2147483648

/-- The greatest value of the 32-bit `int` of the source. -/
def INT_MAX : Int := 2147483647

/-- The value that 32-bit `int` arithmetic leaves when the exact result is `z`:
`z` itself inside `INT_MIN .. INT_MAX`, and `z` shifted by a multiple of 2^32
into that range otherwise (two's-complement wrap-around). -/
def wrapInt (z : Int) : Int :=
  (z + 2147483648) % 4294967296 - 2147483648

/-- The conversion `static_cast<int>(std::ceil(x))`: the ceiling of `x` when it
is an `int`, and `INT_MIN` otherwise, which is what the x86-64 conversion
instruction returns for a value out of range. -/
def ceilToInt (x : ℚ) : Int :=
  if INT_MIN ≤ Int.ceil x ∧ Int.ceil x ≤ INT_MAX then Int.ceil x else INT_MIN

namespace Product

/-- Method `Product::reduceStock`: the returned flag and the product afterwards. -/
def reduceStock (p : Product) (quantity : Int) : Bool × Product :=
  if p.currentStock ≥ quantity ∧ quantity > 0 then
    (true, { p with currentStock := p.currentStock - quantity })
  else
    (false, p)

/-- Method `Product::addStock`. -/
def addStock (p : Product) (quantity : Int) : Product :=
  if quantity > 0 then
    let p1 := { p with currentStock := wrapInt (p.currentStock + quantity) }
    if p1.currentStock > p1.maxStockLevel then
      { p1 with currentStock := p1.maxStockLevel }
    else p1
  else p

/-- Method `PerishableProduct::getDaysUntilExpiration`: the source returns the
placeholder 5 whatever the stored date is. -/
def getDaysUntilExpiration (_p : Product) : Int := 5

/-- Method `PerishableProduct::isNearExpiration` for a shelf life of `shelfLifeDays`. -/
def isNearExpiration (p : Product) (shelfLifeDays : Int) : Bool :=
  decide ((p.getDaysUntilExpiration : ℚ) ≤ (shelfLifeDays : ℚ) * (2 / 10))

/-- The virtual `calculateSellingPrice`, dispatched on the subclass. -/
def calculateSellingPrice (p : Product) : ℚ :=
  match p.kind with
  | .regular markupPercentage => p.costPrice * (1 + markupPercentage)
  | .perishable _ shelfLifeDays discountRate =>
      if p.isNearExpiration shelfLifeDays then p.basePrice * (1 - discountRate)
      else p.basePrice
  | .bulk _ pricePerUnit _ => pricePerUnit

/-- Method `BulkProduct::calculatePriceForQuantity`, given the bulk data members. -/
def calculatePriceForQuantity (pricePerUnit minimumQuantity quantity : ℚ) : ℚ :=
  let quantity := if quantity < minimumQuantity then minimumQuantity else quantity
  pricePerUnit * quantity

end Product

/-! ## Customer.h / Customer.cpp -/

/-- Customer tiers (`enum class CustomerType`). -/
inductive CustomerType
  | REGULAR | PREMIUM | VIP | EMPLOYEE
  deriving DecidableEq, Repr

/-- Data members of `Customer`. -/
structure Customer where
  customerId : String
  firstName : String
  lastName : String
  email : String
  phone : String
  type : CustomerType
  totalSpent : ℚ
  transactionCount : Int
  loyaltyPoints : ℚ
  membershipDate : String
  isActive : Bool
  deriving DecidableEq

namespace Customer

/-- Method `Customer::addLoyaltyPoints`. -/
def addLoyaltyPoints (c : Customer) (points : ℚ) : Customer :=
  { c with loyaltyPoints := c.loyaltyPoints + points }

/-- Method `Customer::redeemLoyaltyPoints`: the returned flag and the customer afterwards. -/
def redeemLoyaltyPoints (c : Customer) (points : ℚ) : Bool × Customer :=
  if c.loyaltyPoints ≥ points then
    (true, { c with loyaltyPoints := c.loyaltyPoints - points })
  else
    (false, c)

/-- The local `pointsMultiplier` of `Customer::addPurchase`. -/
def pointsMultiplier (c : Customer) : ℚ :=
  match c.type with
  | .PREMIUM => 3 / 2
  | .VIP => 2
  | .EMPLOYEE => 3
  | _ => 1

/-- Method `Customer::addPurchase`. -/
def addPurchase (c : Customer) (amount : ℚ) : Customer :=
  let c1 := { c with totalSpent := c.totalSpent + amount }
  let c2 := { c1 with transactionCount := c1.transactionCount + 1 }
  c2.addLoyaltyPoints (amount * (1 / 100) * c2.pointsMultiplier)

/-- Method `Customer::getDiscountRate`. -/
def getDiscountRate (c : Customer) : ℚ :=
  match c.type with
  | .PREMIUM => 5 / 100
  | .VIP => 10 / 100
  | .EMPLOYEE => 15 / 100
  | _ => 0

end Customer

/-! ## The heap of shared objects -/

/-- The objects that transactions point to: the catalog's products and the
directory's customers, by address. -/
structure Heap where
  products : Nat → Product
  customers : Nat → Customer

/-! ## Transaction.h / Transaction.cpp -/

/-- Payment methods (`enum class PaymentMethod`). -/
inductive PaymentMethod
  | CASH | CREDIT_CARD | DEBIT_CARD | MOBILE_PAYMENT | LOYALTY_POINTS | GIFT_CARD
  deriving DecidableEq, Repr

/-- Transaction states (`enum class TransactionStatus`). -/
inductive TransactionStatus
  | PENDING | COMPLETED | CANCELLED | REFUNDED | PARTIALLY_REFUNDED
  deriving DecidableEq, Repr

/-- Data members of `TransactionItem`. -/
structure TransactionItem where
  product : Option Nat
  quantity : ℚ
  unitPrice : ℚ
  discount : ℚ
  subtotal : ℚ
  notes : String
  deriving DecidableEq

namespace TransactionItem

/-- Method `TransactionItem::calculateSubtotal`; the `dynamic_cast<BulkProduct*>` is
the match on the product's kind. -/
def calculateSubtotal (h : Heap) (it : TransactionItem) : TransactionItem :=
  match it.product with
  | some a =>
      let it1 :=
        match (h.products a).kind with
        | .bulk _ pricePerUnit minimumQuantity =>
            { it with subtotal :=
                Product.calculatePriceForQuantity pricePerUnit minimumQuantity it.quantity }
        | _ => { it with subtotal := it.unitPrice * it.quantity }
      { it1 with subtotal := it1.subtotal * (1 - it1.discount) }
  | none => it

/-- The constructor `TransactionItem::TransactionItem`. -/
def new (h : Heap) (prod : Option Nat) (qty discount : ℚ) (notes : String) :
    TransactionItem :=
  match prod with
  | some a =>
      calculateSubtotal h
        { product := prod, quantity := qty, discount := discount, notes := notes,
          unitPrice := (h.products a).calculateSellingPrice, subtotal := 0 }
  | none =>
      { product := prod, quantity := qty, discount := discount, notes := notes,
        unitPrice := 0, subtotal := 0 }

end TransactionItem

/-- Data members of `Transaction`. -/
structure Transaction where
  transactionId : Int
  items : List TransactionItem
  customer : Option Nat
  subtotal : ℚ
  tax : ℚ
  totalDiscount : ℚ
  loyaltyPointsUsed : ℚ
  loyaltyPointsEarned : ℚ
  finalTotal : ℚ
  paymentMethod : PaymentMethod
  status : TransactionStatus
  timestamp : Int
  cashierId : String
  notes : String
  deriving DecidableEq

namespace Transaction

/-- The constructor `Transaction::Transaction`; the id drawn from the static
counter and the clock reading are arguments. -/
def new (transactionId : Int) (customer : Option Nat) (cashierId : String)
    (timestamp : Int) : Transaction :=
  { transactionId := transactionId, items := [], customer := customer, subtotal := 0,
    tax := 0, totalDiscount := 0, loyaltyPointsUsed := 0, loyaltyPointsEarned := 0,
    finalTotal := 0, paymentMethod := .CASH, status := .PENDING,
    timestamp := timestamp, cashierId := cashierId, notes := "" }

/-- Whether the object at address `a` is a `BulkProduct` ordered below its
minimum quantity (the second rejection test of `addItem`). -/
def belowBulkMinimum (h : Heap) (a : Nat) (quantity : ℚ) : Bool :=
  match (h.products a).kind with
  | .bulk _ _ minimumQuantity => decide (quantity < minimumQuantity)
  | _ => false

/-- Method `Transaction::addItem`: the returned flag and the transaction afterwards. -/
def addItem (h : Heap) (tx : Transaction) (product : Option Nat)
    (quantity discount : ℚ) (notes : String) : Bool × Transaction :=
  match product with
  | none => (false, tx)
  | some a =>
      if !(h.products a).isActive || decide (quantity ≤ 0) then (false, tx)
      else if (h.products a).currentStock < ceilToInt quantity then (false, tx)
      else if belowBulkMinimum h a quantity then (false, tx)
      else
        (true, { tx with items :=
                  tx.items ++ [TransactionItem.new h product quantity discount notes] })

/-- Method `Transaction::removeItem`. -/
def removeItem (tx : Transaction) (itemIndex : Int) : Bool × Transaction :=
  if itemIndex ≥ 0 ∧ itemIndex < (tx.items.length : Int) then
    (true, { tx with items := tx.items.eraseIdx itemIndex.toNat })
  else
    (false, tx)

/-- Method `Transaction::clearItems`. -/
def clearItems (tx : Transaction) : Transaction :=
  { tx with items := [] }

/-- One iteration of the loop of `calculateTotals` over the running pair
`(subtotal, totalDiscount)`. -/
def totalsStep (h : Heap) (acc : ℚ × ℚ) (item : TransactionItem) : ℚ × ℚ :=
  let subtotal := acc.1 + item.subtotal
  match item.product with
  | some a =>
      if item.discount > 0 then
        let originalPrice := (h.products a).calculateSellingPrice * item.quantity
        (subtotal, acc.2 + (originalPrice - item.subtotal))
      else (subtotal, acc.2)
  | none => (subtotal, acc.2)

/-- Method `Transaction::calculateTotals`. -/
def calculateTotals (h : Heap) (tx : Transaction) (taxRate : ℚ) : Transaction :=
  let acc := tx.items.foldl (totalsStep h) (0, 0)
  let tx1 := { tx with subtotal := acc.1, totalDiscount := acc.2 }
  let tx2 :=
    match tx1.customer with
    | some c =>
        let customerDiscount := tx1.subtotal * (h.customers c).getDiscountRate
        { tx1 with totalDiscount := tx1.totalDiscount + customerDiscount,
                   subtotal := tx1.subtotal - customerDiscount }
    | none => tx1
  let tx3 := { tx2 with subtotal := tx2.subtotal - tx2.loyaltyPointsUsed }
  let tx4 := { tx3 with tax := tx3.subtotal * taxRate }
  let tx5 := { tx4 with finalTotal := tx4.subtotal + tx4.tax }
  match tx5.customer with
  | some c =>
      let tx6 := { tx5 with loyaltyPointsEarned := tx5.finalTotal * (1 / 100) }
      if (h.customers c).type = .PREMIUM then
        { tx6 with loyaltyPointsEarned := tx6.loyaltyPointsEarned * (3 / 2) }
      else if (h.customers c).type = .VIP then
        { tx6 with loyaltyPointsEarned := tx6.loyaltyPointsEarned * 2 }
      else tx6
  | none => tx5

/-- Method `Transaction::processPayment`. -/
def processPayment (tx : Transaction) (method : PaymentMethod) (amountPaid : ℚ) :
    Bool × Transaction :=
  if tx.finalTotal ≤ 0 then (false, tx)
  else
    let tx1 := { tx with paymentMethod := method }
    if method = .CASH ∧ amountPaid < tx1.finalTotal then (false, tx1)
    else (true, tx1)

/-- Method `Transaction::applyLoyaltyPoints`. -/
def applyLoyaltyPoints (h : Heap) (tx : Transaction) (points : ℚ) : Bool × Transaction :=
  match tx.customer with
  | none => (false, tx)
  | some c =>
      if (h.customers c).loyaltyPoints < points then (false, tx)
      else (true, { tx with loyaltyPointsUsed := points })

/-- The body of the first loop of `finalizeTransaction` for one line.  The
quantity is passed as `Int.ceil item.quantity`: for a stock that is an `int`,
`reduceStock` refuses an out-of-range ceiling and its conversion `INT_MIN`
alike (lemma `reduceStock_ceilToInt`). -/
def reduceStep (h : Heap) (item : TransactionItem) : Heap :=
  match item.product with
  | some a =>
      let p1 := ((h.products a).reduceStock (Int.ceil item.quantity)).2
      { h with products := Function.update h.products a p1 }
  | none => h

/-- The body of the restocking loop of `processRefund` for one line. -/
def restockStep (h : Heap) (item : TransactionItem) : Heap :=
  match item.product with
  | some a =>
      let p1 := (h.products a).addStock (ceilToInt item.quantity)
      { h with products := Function.update h.products a p1 }
  | none => h

/-- Method `Transaction::finalizeTransaction`: the heap and the transaction afterwards. -/
def finalizeTransaction (h : Heap) (tx : Transaction) : Heap × Transaction :=
  if tx.status ≠ .PENDING then (h, tx)
  else
    let h1 := tx.items.foldl reduceStep h
    let h2 :=
      match tx.customer with
      | some c =>
          let c1 := (h1.customers c).addPurchase tx.finalTotal
          let c2 :=
            if tx.loyaltyPointsUsed > 0 then (c1.redeemLoyaltyPoints tx.loyaltyPointsUsed).2
            else c1
          let c3 := c2.addLoyaltyPoints tx.loyaltyPointsEarned
          { h1 with customers := Function.update h1.customers c c3 }
      | none => h1
    (h2, { tx with status := .COMPLETED })

/-- Method `Transaction::processRefund`: the returned flag, the heap and the
transaction afterwards.  The default argument of the source is `-1.0`. -/
def processRefund (h : Heap) (tx : Transaction) (amount : ℚ) :
    Bool × Heap × Transaction :=
  if tx.status ≠ .COMPLETED then (false, h, tx)
  else
    let amount := if amount = -1 then tx.finalTotal else amount
    if amount > tx.finalTotal then (false, h, tx)
    else
      let h1 := tx.items.foldl restockStep h
      let h2 :=
        match tx.customer with
        | some c =>
            let c1 := (h1.customers c).addPurchase (-amount)
            let c2 :=
              if tx.loyaltyPointsEarned > 0 then
                (c1.redeemLoyaltyPoints tx.loyaltyPointsEarned).2
              else c1
            { h1 with customers := Function.update h1.customers c c2 }
        | none => h1
      if amount ≥ tx.finalTotal then (true, h2, { tx with status := .REFUNDED })
      else (true, h2, { tx with status := .PARTIALLY_REFUNDED })

end Transaction


/-! ## The loyalty chain in `double` arithmetic

Above, a `double` is a rational number and its operations are exact.  For the
loyalty balance the result of a comparison (`loyaltyPoints >= points` in
`redeemLoyaltyPoints`) can depend on the rounding of the operations before it,
so the methods on the path from `calculateTotals` to `processRefund` are given
here a second time with every `double` operation rounded as IEEE-754 binary64
does it: one rounding per operation, to the nearest value with a 53-bit
significand, ties to the even significand.  The exponent range is not bounded
(no overflow, no subnormal numbers); comparisons and negation are exact; the
`int` parts are those of the exact model. -/

/-- Rounding of a rational to the nearest integer, ties to the even one. -/
def roundHalfEven (x : ℚ) : Int :=
  let f := Int.floor x
  if x - f < 1 / 2 then f
  else if x - f > 1 / 2 then f + 1
  else if f % 2 = 0 then f else f + 1

/-- The binary64 value nearest to `x`: with `2 ^ e <= |x| < 2 ^ (e + 1)`, the
nearest multiple of `2 ^ (e - 52)`, ties to the even multiple. -/
def roundDouble (x : ℚ) : ℚ :=
  if x = 0 then 0
  else
    let ulp : ℚ := 2 ^ (Int.log 2 |x| - 52)
    (roundHalfEven (x / ulp) : ℚ) * ulp

namespace Binary64

/-- Method `Customer::addLoyaltyPoints` (`loyaltyPoints += points`). -/
def addLoyaltyPoints (c : Customer) (points : ℚ) : Customer :=
  { c with loyaltyPoints := roundDouble (c.loyaltyPoints + points) }

/-- Method `Customer::redeemLoyaltyPoints`: the returned flag and the customer afterwards. -/
def redeemLoyaltyPoints (c : Customer) (points : ℚ) : Bool × Customer :=
  if c.loyaltyPoints ≥ points then
    (true, { c with loyaltyPoints := roundDouble (c.loyaltyPoints - points) })
  else
    (false, c)

/-- Method `Customer::addPurchase`; the multipliers 1.0, 1.5, 2.0 and 3.0 are
binary64 values, the literal `0.01` is rounded. -/
def addPurchase (c : Customer) (amount : ℚ) : Customer :=
  let c1 := { c with totalSpent := roundDouble (c.totalSpent + amount) }
  let c2 := { c1 with transactionCount := c1.transactionCount + 1 }
  addLoyaltyPoints c2
    (roundDouble (roundDouble (amount * roundDouble (1 / 100)) * c2.pointsMultiplier))

/-- Method `Customer::getDiscountRate` with its literals rounded. -/
def getDiscountRate (c : Customer) : ℚ :=
  match c.type with
  | .PREMIUM => roundDouble (5 / 100)
  | .VIP => roundDouble (10 / 100)
  | .EMPLOYEE => roundDouble (15 / 100)
  | _ => 0

/-- The virtual `calculateSellingPrice`, dispatched on the subclass. -/
def calculateSellingPrice (p : Product) : ℚ :=
  match p.kind with
  | .regular markupPercentage =>
      roundDouble (p.costPrice * roundDouble (1 + markupPercentage))
  | .perishable _ shelfLifeDays discountRate =>
      if p.isNearExpiration shelfLifeDays then
        roundDouble (p.basePrice * roundDouble (1 - discountRate))
      else p.basePrice
  | .bulk _ pricePerUnit _ => pricePerUnit

/-- One iteration of the loop of `calculateTotals` over the running pair
`(subtotal, totalDiscount)`. -/
def totalsStep (h : Heap) (acc : ℚ × ℚ) (item : TransactionItem) : ℚ × ℚ :=
  let subtotal := roundDouble (acc.1 + item.subtotal)
  match item.product with
  | some a =>
      if item.discount > 0 then
        let originalPrice := roundDouble (calculateSellingPrice (h.products a) * item.quantity)
        (subtotal, roundDouble (acc.2 + roundDouble (originalPrice - item.subtotal)))
      else (subtotal, acc.2)
  | none => (subtotal, acc.2)

/-- Method `Transaction::calculateTotals`. -/
def calculateTotals (h : Heap) (tx : Transaction) (taxRate : ℚ) : Transaction :=
  let acc := tx.items.foldl (totalsStep h) (0, 0)
  let tx1 := { tx with subtotal := acc.1, totalDiscount := acc.2 }
  let tx2 :=
    match tx1.customer with
    | some c =>
        let customerDiscount := roundDouble (tx1.subtotal * getDiscountRate (h.customers c))
        { tx1 with totalDiscount := roundDouble (tx1.totalDiscount + customerDiscount),
                   subtotal := roundDouble (tx1.subtotal - customerDiscount) }
    | none => tx1
  let tx3 := { tx2 with subtotal := roundDouble (tx2.subtotal - tx2.loyaltyPointsUsed) }
  let tx4 := { tx3 with tax := roundDouble (tx3.subtotal * taxRate) }
  let tx5 := { tx4 with finalTotal := roundDouble (tx4.subtotal + tx4.tax) }
  match tx5.customer with
  | some c =>
      let tx6 :=
        { tx5 with loyaltyPointsEarned := roundDouble (tx5.finalTotal * roundDouble (1 / 100)) }
      if (h.customers c).type = .PREMIUM then
        { tx6 with loyaltyPointsEarned := roundDouble (tx6.loyaltyPointsEarned * (3 / 2)) }
      else if (h.customers c).type = .VIP then
        { tx6 with loyaltyPointsEarned := roundDouble (tx6.loyaltyPointsEarned * 2) }
      else tx6
  | none => tx5

/-- Method `Transaction::finalizeTransaction`: the heap and the transaction afterwards. -/
def finalizeTransaction (h : Heap) (tx : Transaction) : Heap × Transaction :=
  if tx.status ≠ .PENDING then (h, tx)
  else
    let h1 := tx.items.foldl Transaction.reduceStep h
    let h2 :=
      match tx.customer with
      | some c =>
          let c1 := addPurchase (h1.customers c) tx.finalTotal
          let c2 :=
            if tx.loyaltyPointsUsed > 0 then (redeemLoyaltyPoints c1 tx.loyaltyPointsUsed).2
            else c1
          let c3 := addLoyaltyPoints c2 tx.loyaltyPointsEarned
          { h1 with customers := Function.update h1.customers c c3 }
      | none => h1
    (h2, { tx with status := .COMPLETED })

/-- Method `Transaction::processRefund`: the returned flag, the heap and the
transaction afterwards.  The default argument of the source is `-1.0`. -/
def processRefund (h : Heap) (tx : Transaction) (amount : ℚ) :
    Bool × Heap × Transaction :=
  if tx.status ≠ .COMPLETED then (false, h, tx)
  else
    let amount := if amount = -1 then tx.finalTotal else amount
    if amount > tx.finalTotal then (false, h, tx)
    else
      let h1 := tx.items.foldl Transaction.restockStep h
      let h2 :=
        match tx.customer with
        | some c =>
            let c1 := addPurchase (h1.customers c) (-amount)
            let c2 :=
              if tx.loyaltyPointsEarned > 0 then
                (redeemLoyaltyPoints c1 tx.loyaltyPointsEarned).2
              else c1
            { h1 with customers := Function.update h1.customers c c2 }
        | none => h1
      if amount ≥ tx.finalTotal then (true, h2, { tx with status := .REFUNDED })
      else (true, h2, { tx with status := .PARTIALLY_REFUNDED })

end Binary64

/-! ## Concrete objects used in the worked examples -/

/-- A Regular product with cost 8 and markup 25%, hence selling price 10, with
the given stock and a ceiling of 1000. -/
def exampleRegular (stock : Int) : Product :=
  { productId := "P001", name := "Cola", description := "", basePrice := 10,
    currentStock := stock, minStockLevel := 10, maxStockLevel := 1000,
    category := .BEVERAGES, supplier := "", barcode := "BARP001", costPrice := 8,
    isActive := true, tags := [], kind := .regular (1 / 4) }

/-- A Bulk product priced 4 per kg with minimum quantity 1/2. -/
def exampleBulk (stock : Int) : Product :=
  { productId := "P002", name := "Rice", description := "", basePrice := 4,
    currentStock := stock, minStockLevel := 10, maxStockLevel := 1000,
    category := .OTHER, supplier := "", barcode := "BARP002", costPrice := 3,
    isActive := true, tags := [], kind := .bulk "kg" 4 (1 / 2) }

/-- A customer of the given tier with the given loyalty balance. -/
def exampleCustomer (type : CustomerType) (points : ℚ) : Customer :=
  { customerId := "C1001", firstName := "Ada", lastName := "Byron", email := "",
    phone := "", type := type, totalSpent := 0, transactionCount := 0,
    loyaltyPoints := points, membershipDate := "2025-08-14", isActive := true }

/-- A heap whose products are all `p` and whose customers are all `c`. -/
def exampleHeap (p : Product) (c : Customer) : Heap :=
  { products := fun _ => p, customers := fun _ => c }

/-- The cart of the worked examples: a new transaction for `customer` to which
one line of `quantity` units of the product at address 0 has been added. -/
def exampleCart (h : Heap) (customer : Option Nat) (quantity : ℚ) : Transaction :=
  (Transaction.addItem h (Transaction.new 10001 customer "CASHIER01" 0)
    (some 0) quantity 0 "").2

/-! ## Specification-side tables -/

/-- The tier discount table as the specification words it
(0% / 5% / 10% / 15%). -/
def specTierDiscount : CustomerType → ℚ
  | .REGULAR => 0
  | .PREMIUM => 5 / 100
  | .VIP => 10 / 100
  | .EMPLOYEE => 15 / 100

/-- The discount rate `d` that the specification attaches to a transaction:
the tier rate of its customer, and 0 when no customer is attached. -/
def specCustomerDiscount (h : Heap) (tx : Transaction) : ℚ :=
  match tx.customer with
  | some c => specTierDiscount (h.customers c).type
  | none => 0

/-- The loyalty multiplier table as the specification words it
(1.0 / 1.5 / 2.0 / 3.0). -/
def specTierMultiplier : CustomerType → ℚ
  | .REGULAR => 1
  | .PREMIUM => 3 / 2
  | .VIP => 2
  | .EMPLOYEE => 3

/-- The sum `S` of the line subtotals of a transaction. -/
def lineSubtotalSum (tx : Transaction) : ℚ :=
  (tx.items.map TransactionItem.subtotal).sum

/-! ## Per-product views of the stock loops -/

/-- What the stock-reduction loop of `finalizeTransaction` does, for one line,
to the product stored at address `a`. -/
def reduceAt (a : Nat) (p : Product) (item : TransactionItem) : Product :=
  if item.product = some a then (p.reduceStock (Int.ceil item.quantity)).2 else p

/-- What the restocking loop of `processRefund` does, for one line, to the
product stored at address `a`. -/
def restockAt (a : Nat) (p : Product) (item : TransactionItem) : Product :=
  if item.product = some a then p.addStock (ceilToInt item.quantity) else p

/-- The sum of `ceil(quantity)` over the lines that reference address `a`. -/
def committedQuantity (items : List TransactionItem) (a : Nat) : Int :=
  (items.map fun item => if item.product = some a then Int.ceil item.quantity else 0).sum

/-- The cart of the stock examples: two lines, each of `quantity` units of the
product at address 0, both offered to `addItem` against the same heap. -/
def exampleTwoLineCart (h : Heap) (quantity : ℚ) : Transaction :=
  (Transaction.addItem h (exampleCart h none quantity) (some 0) quantity 0 "").2

/-! ## Specification-side line and discount amounts -/

/-- The undiscounted price of a new line as the specification words it:
`bulk ? computePriceForQuantity(quantity) : unitPrice * quantity`. -/
def specLinePrice (p : Product) (unitPrice quantity : ℚ) : ℚ :=
  match p.kind with
  | .bulk _ pricePerUnit minimumQuantity =>
      Product.calculatePriceForQuantity pricePerUnit minimumQuantity quantity
  | _ => unitPrice * quantity

/-- The loop of `calculateTotals` seen per line: the amount that one iteration
adds to the running `totalDiscount`. -/
def lineDiscountDelta (h : Heap) (item : TransactionItem) : ℚ :=
  (Transaction.totalsStep h (0, 0) item).2

/-- The delta of one stored line as the specification words it: the
undiscounted line price (`computePriceForQuantity(quantity)` for a Bulk product,
the captured `unitPrice` times the quantity otherwise) minus the discounted
line subtotal. -/
def specLineDelta (h : Heap) (item : TransactionItem) : ℚ :=
  match item.product with
  | some a => specLinePrice (h.products a) item.unitPrice item.quantity - item.subtotal
  | none => 0

/-- The value of `totalDiscount` as the specification words it: the line
deltas, plus the tier discount on the post-line-discount subtotal, plus the
loyalty points applied. -/
def specTotalDiscount (h : Heap) (tx : Transaction) : ℚ :=
  (tx.items.map (specLineDelta h)).sum
    + lineSubtotalSum tx * specCustomerDiscount h tx
    + tx.loyaltyPointsUsed

/-- The cart of the discount examples: a new transaction for `customer` to
which one line of 2 units of the product at address 0 with the line discount
`discount` has been added. -/
def exampleDiscountCart (h : Heap) (customer : Option Nat) (discount : ℚ) : Transaction :=
  (Transaction.addItem h (Transaction.new 10001 customer "CASHIER01" 0)
    (some 0) 2 discount "").2

/-- The cart of the discount example with points: the customer at address 0
buys 2 units of the product at address 0 with the line discount `discount`, and
`applyLoyaltyPoints(points)` is then called. -/
def exampleDiscountLoyaltyCart (h : Heap) (discount points : ℚ) : Transaction :=
  ((exampleDiscountCart h (some 0) discount).applyLoyaltyPoints h points).2

/-- The cart of the loyalty example: a new transaction for the customer at
address 0 with one line of 2 units of the product at address 0, on which
`applyLoyaltyPoints(points)` has then been called. -/
def exampleLoyaltyCart (h : Heap) (points : ℚ) : Transaction :=
  ((exampleCart h (some 0) 2).applyLoyaltyPoints h points).2

/-- The refunded amount `a` as the specification words it: `finalTotal` for the
default (full) request, which the source encodes as the argument `-1.0`, and
the given amount otherwise. -/
def specRefundAmount (tx : Transaction) (amount : ℚ) : ℚ :=
  if amount = -1 then tx.finalTotal else amount

/-! ## Scenarios of the worked examples -/

/-- The store of the worked examples: every product address holds the Regular
product of price 10 with the given stock, every customer address a customer of
the given tier and loyalty balance. -/
def exampleStore (stock : Int) (type : CustomerType) (points : ℚ) : Heap :=
  exampleHeap (exampleRegular stock) (exampleCustomer type points)

/-- The store of the Bulk example: every product address holds the Bulk product
with stock 50. -/
def exampleBulkStore : Heap :=
  exampleHeap (exampleBulk 50) (exampleCustomer .REGULAR 0)

/-- The cart of one line of 2 units after `calculateTotals(0.08)`. -/
def exampleTotals (h : Heap) (customer : Option Nat) : Transaction :=
  (exampleCart h customer 2).calculateTotals h (8 / 100)

/-- The result of `finalizeTransaction` followed by a full `processRefund()`. -/
def exampleRefunded (h : Heap) (tx : Transaction) : Bool × Heap × Transaction :=
  (tx.finalizeTransaction h).2.processRefund (tx.finalizeTransaction h).1 (-1)

/-- The cart with totals on which `processPayment(CREDIT_CARD, 0)` has run. -/
def examplePaid (h : Heap) : Transaction :=
  ((exampleTotals h none).processPayment .CREDIT_CARD 0).2

/-- The cart with totals after `finalizeTransaction`. -/
def exampleCompleted (h : Heap) : Heap × Transaction :=
  (exampleTotals h none).finalizeTransaction h

/-! ## Sequences of operations -/

/-- The public operations of `Transaction` that the settlement engine offers,
with their arguments. -/
inductive TransactionOp
  | addItem (product : Option Nat) (quantity discount : ℚ) (notes : String)
  | removeItem (itemIndex : Int)
  | clearItems
  | calculateTotals (taxRate : ℚ)
  | applyLoyaltyPoints (points : ℚ)
  | processPayment (method : PaymentMethod) (amountPaid : ℚ)
  | finalizeTransaction
  | processRefund (amount : ℚ)

/-- One call of an operation on a transaction: the heap and the transaction
afterwards (the returned flag, where there is one, is dropped). -/
def applyOp (s : Heap × Transaction) : TransactionOp → Heap × Transaction
  | .addItem product quantity discount notes =>
      (s.1, (s.2.addItem s.1 product quantity discount notes).2)
  | .removeItem itemIndex => (s.1, (s.2.removeItem itemIndex).2)
  | .clearItems => (s.1, s.2.clearItems)
  | .calculateTotals taxRate => (s.1, s.2.calculateTotals s.1 taxRate)
  | .applyLoyaltyPoints points => (s.1, (s.2.applyLoyaltyPoints s.1 points).2)
  | .processPayment method amountPaid => (s.1, (s.2.processPayment method amountPaid).2)
  | .finalizeTransaction => s.2.finalizeTransaction s.1
  | .processRefund amount => (s.2.processRefund s.1 amount).2

/-- A sequence of operations, called one after the other. -/
def runOps (s : Heap × Transaction) (ops : List TransactionOp) : Heap × Transaction :=
  ops.foldl applyOp s

/-- A call of one of the two stock mutators of `Product`. -/
inductive StockCall
  | addStock (quantity : Int)
  | reduceStock (quantity : Int)

/-- One stock call on a product. -/
def applyStockCall (p : Product) : StockCall → Product
  | .addStock quantity => p.addStock quantity
  | .reduceStock quantity => (p.reduceStock quantity).2

/-- A sequence of stock calls, one after the other. -/
def runStockCalls (p : Product) (calls : List StockCall) : Product :=
  calls.foldl applyStockCall p

/-! ## Price setters of Product.h -/

namespace Product

/-- Setter `Product::setBasePrice`. -/
def setBasePrice (p : Product) (price : ℚ) : Product :=
  { p with basePrice := price }

/-- Setter `Product::setCostPrice`. -/
def setCostPrice (p : Product) (cost : ℚ) : Product :=
  { p with costPrice := cost }

/-- Setter `RegularProduct::setMarkupPercentage`; other subclasses do not have it. -/
def setMarkupPercentage (p : Product) (markup : ℚ) : Product :=
  match p.kind with
  | .regular _ => { p with kind := .regular markup }
  | _ => p

/-- Setter `PerishableProduct::setDiscountRate`; other subclasses do not have it. -/
def setDiscountRate (p : Product) (rate : ℚ) : Product :=
  match p.kind with
  | .perishable expirationDate shelfLifeDays _ =>
      { p with kind := .perishable expirationDate shelfLifeDays rate }
  | _ => p

/-- Setter `BulkProduct::setPricePerUnit`; other subclasses do not have it. -/
def setPricePerUnit (p : Product) (price : ℚ) : Product :=
  match p.kind with
  | .bulk unit _ minimumQuantity => { p with kind := .bulk unit price minimumQuantity }
  | _ => p

end Product

/-- The cart of the loyalty example after `calculateTotals(0.08)`. -/
def exampleLoyaltyTotals (h : Heap) (points : ℚ) : Transaction :=
  (exampleLoyaltyCart h points).calculateTotals h (8 / 100)

/-- Whether an operation is one of the two that write through the product and
customer pointers (`finalizeTransaction`, `processRefund`). -/
def TransactionOp.touchesHeap : TransactionOp → Bool
  | .finalizeTransaction => true
  | .processRefund _ => true
  | _ => false

/-- A change of the product stored at address `a` made outside the transaction
(for instance by one of the price setters). -/
def updateProduct (h : Heap) (a : Nat) (f : Product → Product) : Heap :=
  { h with products := Function.update h.products a (f (h.products a)) }

/-- The five price setters of Product.h with the new value `x`:
`setCostPrice`, `setBasePrice`, `setMarkupPercentage`, `setPricePerUnit` and
`setDiscountRate`. -/
def priceSetters (x : ℚ) : List (Product → Product) :=
  [fun p => p.setCostPrice x, fun p => p.setBasePrice x,
   fun p => p.setMarkupPercentage x, fun p => p.setPricePerUnit x,
   fun p => p.setDiscountRate x]

/-- The store of the worked examples after `setCostPrice(16)` on the product at
address 0, which doubles its selling price to 20. -/
def examplePriceChanged : Heap :=
  updateProduct (exampleStore 50 .REGULAR 0) 0 (fun p => p.setCostPrice 16)

/-! ## Scenario of two purchases and a refund for one customer -/

/-- First purchase: a Regular-tier customer with balance 0 buys 2 units at
price 10, totals are computed, and the transaction is finalized. -/
def exampleFirstSale : Heap × Transaction :=
  (exampleTotals (exampleStore 50 .REGULAR 0) (some 0)).finalizeTransaction
    (exampleStore 50 .REGULAR 0)

/-- The cart of the second purchase, built on the heap `h`: 1 unit, with
`applyLoyaltyPoints(points)` called before `calculateTotals(0.08)`. -/
def exampleSecondCart (h : Heap) (points : ℚ) : Transaction :=
  (((exampleCart h (some 0) 1).applyLoyaltyPoints h points).2).calculateTotals h (8 / 100)

/-- Second purchase: the same customer spends the 0.432 points earned so far
on 1 unit, and the transaction is finalized. -/
def exampleSecondSale : Heap × Transaction :=
  (exampleSecondCart exampleFirstSale.1 (432 / 1000)).finalizeTransaction exampleFirstSale.1

/-- The full refund of the first purchase, after the second purchase. -/
def exampleFirstRefund : Bool × Heap × Transaction :=
  exampleFirstSale.2.processRefund exampleSecondSale.1 (-1)

/-- The stock calls of the worked example: a restock beyond the ceiling, a
sale, a sale beyond the stock and a restock by a negative number. -/
def exampleStockCalls : List StockCall :=
  [.addStock 2000, .reduceStock 7, .reduceStock 5000, .addStock (-3)]

/-- A change of the product at address `a` seen from a transaction: the heap
changes, the transaction object (which holds its lines by value) does not. -/
def changeProduct (s : Heap × Transaction) (a : Nat) (f : Product → Product) :
    Heap × Transaction :=
  (updateProduct s.1 a f, s.2)

/-! ## Scenarios for the last claims -/

/-- The cart of one line of 2 units for `customer`, with totals computed, after
`finalizeTransaction`. -/
def exampleCompletedFor (h : Heap) (customer : Option Nat) : Heap × Transaction :=
  (exampleTotals h customer).finalizeTransaction h

/-- A Perishable product with base price 5, near-expiry discount 20% and the
given shelf life. -/
def examplePerishable (shelfLifeDays : Int) : Product :=
  { productId := "P003", name := "Milk", description := "", basePrice := 5,
    currentStock := 20, minStockLevel := 5, maxStockLevel := 500,
    category := .DAIRY, supplier := "", barcode := "BARP003", costPrice := 3,
    isActive := true, tags := [],
    kind := .perishable "2025-09-01" shelfLifeDays (2 / 10) }

/-! ## Scenarios beyond the range of `int` -/

/-- The quantity 2^31 = 2147483648, the least whose ceiling is no `int`. -/
def exampleHugeQuantity : ℚ := 2147483648

/-- The cart of the out-of-range example: one line of 2^31 units of the product
at address 0, offered to `addItem` on the heap `h`, with totals computed. -/
def exampleHugeTotals (h : Heap) : Transaction :=
  (exampleCart h none exampleHugeQuantity).calculateTotals h (8 / 100)

/-- The out-of-range cart after `finalizeTransaction`. -/
def exampleHugeCompleted (h : Heap) : Heap × Transaction :=
  (exampleHugeTotals h).finalizeTransaction h

/-! ## Scenario of a purchase paid with all points, in `double` arithmetic -/

/-- The cart of the loyalty example (Regular-tier customer with balance 5, one
line of 2 units at price 10, `applyLoyaltyPoints(5)`) after `calculateTotals(0.08)`
in `double` arithmetic. -/
def exampleDoubleTotals : Transaction :=
  Binary64.calculateTotals (exampleStore 50 .REGULAR 5)
    (exampleLoyaltyCart (exampleStore 50 .REGULAR 5) 5) (roundDouble (8 / 100))

/-- The same purchase after `finalizeTransaction`, in `double` arithmetic. -/
def exampleDoubleCompleted : Heap × Transaction :=
  Binary64.finalizeTransaction (exampleStore 50 .REGULAR 5) exampleDoubleTotals

/-- The same purchase after the full `processRefund()`, in `double` arithmetic. -/
def exampleDoubleRefunded : Bool × Heap × Transaction :=
  Binary64.processRefund exampleDoubleCompleted.1 exampleDoubleCompleted.2 (-1)

/-! # Theorems -/

/-! ## Lemmas on the totals loop -/

theorem totalsStep_fst (h : Heap) (acc : ℚ × ℚ) (item : TransactionItem) :
    (Transaction.totalsStep h acc item).1 = acc.1 + item.subtotal := by
  unfold Transaction.totalsStep
  cases item.product with
  | none => rfl
  | some a =>
    by_cases hd : item.discount > 0
    · simp [hd]
    · simp [hd]

theorem foldl_totalsStep_fst (h : Heap) (items : List TransactionItem) (acc : ℚ × ℚ) :
    (items.foldl (Transaction.totalsStep h) acc).1
      = acc.1 + (items.map TransactionItem.subtotal).sum := by
  induction items generalizing acc with
  | nil => simp
  | cons x xs ih =>
    simp only [List.foldl_cons, List.map_cons, List.sum_cons]
    rw [ih, totalsStep_fst]
    ring

theorem getDiscountRate_eq_spec (c : Customer) :
    c.getDiscountRate = specTierDiscount c.type := by
  unfold Customer.getDiscountRate specTierDiscount
  cases c.type <;> rfl

theorem calculateTotals_subtotal (h : Heap) (tx : Transaction) (t : ℚ) :
    (tx.calculateTotals h t).subtotal
      = lineSubtotalSum tx * (1 - specCustomerDiscount h tx) - tx.loyaltyPointsUsed := by
  unfold Transaction.calculateTotals specCustomerDiscount lineSubtotalSum
  cases hc : tx.customer with
  | none =>
    simp only [foldl_totalsStep_fst]
    ring
  | some c =>
    simp only [foldl_totalsStep_fst, getDiscountRate_eq_spec]
    split_ifs <;> simp only [] <;> ring

theorem calculateTotals_tax (h : Heap) (tx : Transaction) (t : ℚ) :
    (tx.calculateTotals h t).tax = (tx.calculateTotals h t).subtotal * t := by
  unfold Transaction.calculateTotals
  cases hc : tx.customer with
  | none => simp only []
  | some c => simp only []; split_ifs <;> rfl

theorem calculateTotals_finalTotal (h : Heap) (tx : Transaction) (t : ℚ) :
    (tx.calculateTotals h t).finalTotal
      = (tx.calculateTotals h t).subtotal + (tx.calculateTotals h t).tax := by
  unfold Transaction.calculateTotals
  cases hc : tx.customer with
  | none => simp only []
  | some c => simp only []; split_ifs <;> rfl

/-! ## C1 -/

/-- C1: for every heap, transaction and tax rate `t`, `calculateTotals` sets
`subtotal = S * (1 - d) - L`, `tax = subtotal * t` and
`finalTotal = subtotal + tax`, where `S` is the sum of the line subtotals, `d`
the tier discount of the attached customer (0 without customer) and `L` the
recorded `loyaltyPointsUsed`.  Worked example: one Regular line of quantity 2
at unit price 10 with `t = 0.08` gives 20 / 1.60 / 21.60 without customer and
18 / 1.44 / 19.44 with a VIP customer. -/
theorem C1_calculateTotals_amounts :
    (∀ (h : Heap) (tx : Transaction) (t : ℚ),
      (tx.calculateTotals h t).subtotal
          = lineSubtotalSum tx * (1 - specCustomerDiscount h tx) - tx.loyaltyPointsUsed
        ∧ (tx.calculateTotals h t).tax = (tx.calculateTotals h t).subtotal * t
        ∧ (tx.calculateTotals h t).finalTotal
            = (tx.calculateTotals h t).subtotal + (tx.calculateTotals h t).tax)
    ∧ ((exampleCart (exampleStore 50 .VIP 0) none 2).items.map TransactionItem.unitPrice
          = [10]
        ∧ (exampleTotals (exampleStore 50 .VIP 0) none).subtotal = 20
        ∧ (exampleTotals (exampleStore 50 .VIP 0) none).tax = 160 / 100
        ∧ (exampleTotals (exampleStore 50 .VIP 0) none).finalTotal = 2160 / 100)
    ∧ ((exampleTotals (exampleStore 50 .VIP 0) (some 0)).subtotal = 18
        ∧ (exampleTotals (exampleStore 50 .VIP 0) (some 0)).tax = 144 / 100
        ∧ (exampleTotals (exampleStore 50 .VIP 0) (some 0)).finalTotal = 1944 / 100) := by
  refine ⟨fun h tx t => ⟨calculateTotals_subtotal h tx t, calculateTotals_tax h tx t,
    calculateTotals_finalTotal h tx t⟩, ?_, ?_⟩
  · simp +decide [exampleTotals, exampleStore, exampleCart, Transaction.calculateTotals,
      Transaction.addItem,
      Transaction.new, exampleHeap, exampleRegular, Transaction.belowBulkMinimum,
      TransactionItem.new, TransactionItem.calculateSubtotal, Transaction.totalsStep,
      Product.calculateSellingPrice]
    norm_num
  · simp +decide [exampleTotals, exampleStore, exampleCart, Transaction.calculateTotals,
      Transaction.addItem,
      Transaction.new, exampleHeap, exampleRegular, Transaction.belowBulkMinimum,
      TransactionItem.new, TransactionItem.calculateSubtotal, Transaction.totalsStep,
      Product.calculateSellingPrice, exampleCustomer, Customer.getDiscountRate]
    norm_num

/-! ## C2 -/

theorem calculateTotals_loyaltyPointsEarned (h : Heap) (tx : Transaction) (t : ℚ) (c : Nat)
    (hc : tx.customer = some c) :
    (tx.calculateTotals h t).loyaltyPointsEarned
      = (tx.calculateTotals h t).finalTotal * (1 / 100)
          * (if (h.customers c).type = .PREMIUM then 3 / 2
             else if (h.customers c).type = .VIP then 2 else 1) := by
  unfold Transaction.calculateTotals
  simp only [hc]
  split_ifs <;> simp

/-- C2 (the code at the failing input): for an Employee customer and the cart
of one Regular line of quantity 2 at unit price 10 with tax rate 0.08,
`calculateTotals` yields `finalTotal = 18.36` and
`loyaltyPointsEarned = 0.1836 = finalTotal * 0.01`, not
`finalTotal * 0.01 * 3.0`, although `addPurchase` uses the multiplier 3 for the
same customer. -/
theorem C2_employee_points_earned :
    (exampleTotals (exampleStore 50 .EMPLOYEE 0) (some 0)).customer = some 0
      ∧ ((exampleStore 50 .EMPLOYEE 0).customers 0).type = .EMPLOYEE
      ∧ (exampleTotals (exampleStore 50 .EMPLOYEE 0) (some 0)).finalTotal = 1836 / 100
      ∧ (exampleTotals (exampleStore 50 .EMPLOYEE 0) (some 0)).loyaltyPointsEarned
          = 1836 / 10000
      ∧ (exampleTotals (exampleStore 50 .EMPLOYEE 0) (some 0)).finalTotal * (1 / 100)
          * specTierMultiplier .EMPLOYEE = 5508 / 10000
      ∧ (exampleTotals (exampleStore 50 .EMPLOYEE 0) (some 0)).loyaltyPointsEarned
          ≠ (exampleTotals (exampleStore 50 .EMPLOYEE 0) (some 0)).finalTotal * (1 / 100)
              * specTierMultiplier .EMPLOYEE
      ∧ ((exampleStore 50 .EMPLOYEE 0).customers 0).pointsMultiplier
          = specTierMultiplier .EMPLOYEE := by
  simp +decide [exampleTotals, exampleStore, exampleCart, Transaction.calculateTotals,
    Transaction.addItem,
    Transaction.new, exampleHeap, exampleRegular, Transaction.belowBulkMinimum,
    TransactionItem.new, TransactionItem.calculateSubtotal, Transaction.totalsStep,
    Product.calculateSellingPrice, exampleCustomer, Customer.getDiscountRate,
    specTierMultiplier, Customer.pointsMultiplier]
  norm_num

/-! ## Lemmas on 32-bit `int` values -/

theorem wrapInt_of_range (z : Int) (h0 : INT_MIN ≤ z) (h1 : z ≤ INT_MAX) : wrapInt z = z := by
  unfold INT_MIN at h0
  unfold INT_MAX at h1
  unfold wrapInt
  omega

theorem ceilToInt_of_range (x : ℚ) (h0 : INT_MIN ≤ Int.ceil x) (h1 : Int.ceil x ≤ INT_MAX) :
    ceilToInt x = Int.ceil x := by
  unfold ceilToInt
  simp only [h0, h1, and_self, if_true]

theorem ceilToInt_of_gt (x : ℚ) (h1 : INT_MAX < Int.ceil x) : ceilToInt x = INT_MIN := by
  unfold ceilToInt
  have hn : ¬ (INT_MIN ≤ Int.ceil x ∧ Int.ceil x ≤ INT_MAX) := fun h => absurd h.2 (not_le.mpr h1)
  simp only [hn, if_false]

/-- For a stock that is an `int`, `reduceStock` does the same with the
converted quantity `static_cast<int>(std::ceil(x))` as with the exact ceiling:
it refuses an out-of-range ceiling and its conversion `INT_MIN` alike. -/
theorem reduceStock_ceilToInt (p : Product) (x : ℚ) (hs : p.currentStock ≤ INT_MAX) :
    p.reduceStock (ceilToInt x) = p.reduceStock (Int.ceil x) := by
  by_cases hr : INT_MIN ≤ Int.ceil x ∧ Int.ceil x ≤ INT_MAX
  · rw [ceilToInt_of_range x hr.1 hr.2]
  · have hc : ceilToInt x = INT_MIN := by
      unfold ceilToInt
      simp only [hr, if_false]
    rw [hc]
    unfold Product.reduceStock
    have h1 : ¬ (p.currentStock ≥ INT_MIN ∧ INT_MIN > 0) := by
      intro h
      exact absurd h.2 (by decide)
    have h2 : ¬ (p.currentStock ≥ Int.ceil x ∧ Int.ceil x > 0) := by
      intro h
      apply hr
      unfold INT_MIN INT_MAX at *
      omega
    simp only [h1, h2, if_false]

/-! ## Lemmas on the stock loops -/

theorem reduceStep_customers (h : Heap) (item : TransactionItem) :
    (Transaction.reduceStep h item).customers = h.customers := by
  unfold Transaction.reduceStep
  cases item.product <;> rfl

theorem restockStep_customers (h : Heap) (item : TransactionItem) :
    (Transaction.restockStep h item).customers = h.customers := by
  unfold Transaction.restockStep
  cases item.product <;> rfl

theorem foldl_reduceStep_customers (items : List TransactionItem) (h : Heap) :
    (items.foldl Transaction.reduceStep h).customers = h.customers := by
  induction items generalizing h with
  | nil => rfl
  | cons x xs ih => rw [List.foldl_cons, ih, reduceStep_customers]

theorem foldl_restockStep_customers (items : List TransactionItem) (h : Heap) :
    (items.foldl Transaction.restockStep h).customers = h.customers := by
  induction items generalizing h with
  | nil => rfl
  | cons x xs ih => rw [List.foldl_cons, ih, restockStep_customers]

theorem reduceStep_products (h : Heap) (item : TransactionItem) (a : Nat) :
    (Transaction.reduceStep h item).products a = reduceAt a (h.products a) item := by
  unfold Transaction.reduceStep reduceAt
  cases hp : item.product with
  | none => simp
  | some b =>
    by_cases hab : b = a
    · subst hab; simp
    · have hba : a ≠ b := fun e => hab e.symm
      simp [hab, Function.update_noteq hba]

theorem restockStep_products (h : Heap) (item : TransactionItem) (a : Nat) :
    (Transaction.restockStep h item).products a = restockAt a (h.products a) item := by
  unfold Transaction.restockStep restockAt
  cases hp : item.product with
  | none => simp
  | some b =>
    by_cases hab : b = a
    · subst hab; simp
    · have hba : a ≠ b := fun e => hab e.symm
      simp [hab, Function.update_noteq hba]

theorem foldl_reduceStep_products (items : List TransactionItem) (h : Heap) (a : Nat) :
    (items.foldl Transaction.reduceStep h).products a
      = items.foldl (reduceAt a) (h.products a) := by
  induction items generalizing h with
  | nil => rfl
  | cons x xs ih => rw [List.foldl_cons, ih, reduceStep_products, List.foldl_cons]

theorem foldl_restockStep_products (items : List TransactionItem) (h : Heap) (a : Nat) :
    (items.foldl Transaction.restockStep h).products a
      = items.foldl (restockAt a) (h.products a) := by
  induction items generalizing h with
  | nil => rfl
  | cons x xs ih => rw [List.foldl_cons, ih, restockStep_products, List.foldl_cons]

theorem committedQuantity_cons (x : TransactionItem) (xs : List TransactionItem) (a : Nat) :
    committedQuantity (x :: xs) a
      = (if x.product = some a then Int.ceil x.quantity else 0) + committedQuantity xs a := by
  simp [committedQuantity]

theorem committedQuantity_nonneg (items : List TransactionItem) (a : Nat)
    (hq : ∀ it ∈ items, it.product = some a → 0 < it.quantity) :
    0 ≤ committedQuantity items a := by
  induction items with
  | nil => simp [committedQuantity]
  | cons x xs ih =>
    rw [committedQuantity_cons]
    have h1 := ih (fun it hit => hq it (List.mem_cons_of_mem _ hit))
    by_cases hx : x.product = some a
    · have h2 : 0 < Int.ceil x.quantity := Int.ceil_pos.mpr (hq x (List.mem_cons_self _ _) hx)
      simp only [hx, if_true]
      omega
    · simp only [hx, if_false]
      omega

/-- When the stock covers the sum of `ceil(quantity)` over the lines of `a`, the
reduction loop lowers it by exactly that sum. -/
theorem foldl_reduceAt_currentStock (items : List TransactionItem) (a : Nat) (p : Product)
    (hq : ∀ it ∈ items, it.product = some a → 0 < it.quantity)
    (hs : committedQuantity items a ≤ p.currentStock) :
    (items.foldl (reduceAt a) p).currentStock = p.currentStock - committedQuantity items a := by
  induction items generalizing p with
  | nil => simp [committedQuantity]
  | cons x xs ih =>
    rw [committedQuantity_cons] at hs ⊢
    have hq1 : ∀ it ∈ xs, it.product = some a → 0 < it.quantity :=
      fun it hit => hq it (List.mem_cons_of_mem _ hit)
    have hnn := committedQuantity_nonneg xs a hq1
    rw [List.foldl_cons]
    by_cases hx : x.product = some a
    · have h2 : 0 < Int.ceil x.quantity := Int.ceil_pos.mpr (hq x (List.mem_cons_self _ _) hx)
      simp only [hx, if_true] at hs ⊢
      have hstep : (reduceAt a p x).currentStock = p.currentStock - Int.ceil x.quantity := by
        unfold reduceAt Product.reduceStock
        have hc : p.currentStock ≥ Int.ceil x.quantity ∧ Int.ceil x.quantity > 0 :=
          ⟨by omega, h2⟩
        simp only [hx, if_true, hc, and_self]
      rw [ih _ hq1 (by rw [hstep]; omega), hstep]
      omega
    · simp only [hx, if_false] at hs ⊢
      have hstep : reduceAt a p x = p := by
        unfold reduceAt
        simp only [hx, if_false]
      rw [hstep, ih _ hq1 (by omega)]
      omega

theorem finalizeTransaction_products (h : Heap) (tx : Transaction) (a : Nat)
    (hp : tx.status = .PENDING) :
    (tx.finalizeTransaction h).1.products a = tx.items.foldl (reduceAt a) (h.products a) := by
  unfold Transaction.finalizeTransaction
  simp only [hp, ne_eq, not_true_eq_false, if_false]
  cases tx.customer with
  | none => exact foldl_reduceStep_products _ _ _
  | some c => exact foldl_reduceStep_products _ _ _

theorem finalizeTransaction_snd (h : Heap) (tx : Transaction) (hp : tx.status = .PENDING) :
    (tx.finalizeTransaction h).2 = { tx with status := .COMPLETED } := by
  unfold Transaction.finalizeTransaction
  simp only [hp, ne_eq, not_true_eq_false, if_false]

/-- C3 (counterexample): with stock 5, two lines of quantity 3 on the same
product are both accepted by `addItem`; the transaction is PENDING, and
`finalizeTransaction` leaves the stock at 2, not at `5 - (3 + 3)`: the second
`reduceStock(3)` is refused. -/
theorem C3_counterexample_two_lines :
    (Transaction.addItem (exampleStore 5 .REGULAR 0)
          (Transaction.new 10001 none "CASHIER01" 0) (some 0) 3 0 "").1 = true
      ∧ (Transaction.addItem (exampleStore 5 .REGULAR 0)
          (exampleCart (exampleStore 5 .REGULAR 0) none 3) (some 0) 3 0 "").1 = true
      ∧ (exampleTwoLineCart (exampleStore 5 .REGULAR 0) 3).status = .PENDING
      ∧ (exampleTwoLineCart (exampleStore 5 .REGULAR 0) 3).items.map TransactionItem.product
          = [some 0, some 0]
      ∧ ((exampleStore 5 .REGULAR 0).products 0).currentStock = 5
      ∧ committedQuantity (exampleTwoLineCart (exampleStore 5 .REGULAR 0) 3).items 0 = 6
      ∧ (((exampleTwoLineCart (exampleStore 5 .REGULAR 0) 3).finalizeTransaction
            (exampleStore 5 .REGULAR 0)).1.products 0).currentStock = 2
      ∧ (((exampleTwoLineCart (exampleStore 5 .REGULAR 0) 3).finalizeTransaction
            (exampleStore 5 .REGULAR 0)).1.products 0).currentStock
          ≠ ((exampleStore 5 .REGULAR 0).products 0).currentStock
              - committedQuantity (exampleTwoLineCart (exampleStore 5 .REGULAR 0) 3).items 0 := by
  simp +decide [exampleStore, exampleTwoLineCart, exampleCart, Transaction.addItem,
    Transaction.new,
    exampleHeap, exampleRegular, Transaction.belowBulkMinimum, TransactionItem.new,
    TransactionItem.calculateSubtotal, Product.calculateSellingPrice,
    Transaction.finalizeTransaction, Transaction.reduceStep, Product.reduceStock,
    committedQuantity]

/-- C3 (amended): for every PENDING transaction `finalizeTransaction` sets the
status to COMPLETED, and for every product whose lines all have a positive
quantity and whose stock is at least the sum of `ceil(quantity)` over the lines
that reference it, the stock is lowered by exactly that sum. -/
theorem C3_finalize_commits_stock (h : Heap) (tx : Transaction)
    (hp : tx.status = .PENDING) :
    (tx.finalizeTransaction h).2.status = .COMPLETED
      ∧ ∀ a : Nat,
          (∀ it ∈ tx.items, it.product = some a → 0 < it.quantity) →
          committedQuantity tx.items a ≤ (h.products a).currentStock →
          ((tx.finalizeTransaction h).1.products a).currentStock
            = (h.products a).currentStock - committedQuantity tx.items a := by
  refine ⟨by rw [finalizeTransaction_snd h tx hp], fun a hq hs => ?_⟩
  rw [finalizeTransaction_products h tx a hp]
  exact foldl_reduceAt_currentStock tx.items a (h.products a) hq hs

/-- C3 (worked example): one line of quantity 3 on a product with stock 50
leaves the stock at 47 and the status COMPLETED. -/
theorem C3_finalize_commits_stock_witness :
    (exampleCart (exampleHeap (exampleRegular 50) (exampleCustomer .REGULAR 0)) none 3).status
        = .PENDING
      ∧ (((exampleCart (exampleHeap (exampleRegular 50) (exampleCustomer .REGULAR 0))
            none 3).finalizeTransaction
          (exampleHeap (exampleRegular 50) (exampleCustomer .REGULAR 0))).1.products 0).currentStock
          = 47
      ∧ ((exampleCart (exampleHeap (exampleRegular 50) (exampleCustomer .REGULAR 0))
            none 3).finalizeTransaction
          (exampleHeap (exampleRegular 50) (exampleCustomer .REGULAR 0))).2.status
          = .COMPLETED := by
  have hp : (exampleCart (exampleHeap (exampleRegular 50) (exampleCustomer .REGULAR 0))
      none 3).status = .PENDING := by
    simp +decide [exampleCart, Transaction.addItem, Transaction.new, exampleHeap,
      exampleRegular, Transaction.belowBulkMinimum]
  have hitems : (exampleCart (exampleHeap (exampleRegular 50) (exampleCustomer .REGULAR 0))
      none 3).items =
        [{ product := some 0, quantity := 3, unitPrice := 10, discount := 0,
           subtotal := 30, notes := "" }] := by
    simp +decide [exampleCart, Transaction.addItem, Transaction.new, exampleHeap,
      exampleRegular, Transaction.belowBulkMinimum, TransactionItem.new,
      TransactionItem.calculateSubtotal, Product.calculateSellingPrice]
    norm_num
  have key := C3_finalize_commits_stock
    (exampleHeap (exampleRegular 50) (exampleCustomer .REGULAR 0))
    (exampleCart (exampleHeap (exampleRegular 50) (exampleCustomer .REGULAR 0)) none 3) hp
  refine ⟨hp, ?_, key.1⟩
  have hstock := key.2 0
    (by rw [hitems]; intro it hit _; simp at hit; rw [hit]; norm_num)
    (by rw [hitems]; simp [committedQuantity, exampleHeap, exampleRegular])
  rw [hstock, hitems]
  simp [committedQuantity, exampleHeap, exampleRegular]

/-! ## C4 -/

theorem processRefund_full_fst (h : Heap) (tx : Transaction) (hc : tx.status = .COMPLETED) :
    (tx.processRefund h (-1)).1 = true := by
  unfold Transaction.processRefund
  simp [hc]

theorem processRefund_not_completed (h : Heap) (tx : Transaction) (amount : ℚ)
    (hc : tx.status ≠ .COMPLETED) :
    tx.processRefund h amount = (false, h, tx) := by
  unfold Transaction.processRefund
  simp [hc]

theorem belowBulkMinimum_iff (h : Heap) (a : Nat) (quantity : ℚ) :
    Transaction.belowBulkMinimum h a quantity = true
      ↔ ∃ u ppu m, (h.products a).kind = .bulk u ppu m ∧ quantity < m := by
  unfold Transaction.belowBulkMinimum
  cases hk : (h.products a).kind with
  | regular mk => simp
  | perishable e s d => simp
  | bulk u ppu m =>
    simp only [decide_eq_true_eq, ProductKind.bulk.injEq]
    constructor
    · intro hq
      exact ⟨u, ppu, m, ⟨rfl, rfl, rfl⟩, hq⟩
    · rintro ⟨u1, p1, m1, ⟨-, -, hm⟩, hq⟩
      rw [hm]
      exact hq

/-- The result of `addItem` in every case: false for a null product; for a
product at address `a`, false exactly when the product is inactive, or
`quantity <= 0`, or `currentStock < static_cast<int>(ceil(quantity))`, or the
product is a Bulk product and `quantity < minimumQuantity`; a false result
leaves the transaction unchanged. -/
theorem addItem_result :
    (∀ (h : Heap) (tx : Transaction) (quantity discount : ℚ) (notes : String),
        tx.addItem h none quantity discount notes = (false, tx))
    ∧ (∀ (h : Heap) (tx : Transaction) (a : Nat) (quantity discount : ℚ) (notes : String),
        ((tx.addItem h (some a) quantity discount notes).1 = false
          ↔ ((h.products a).isActive = false
              ∨ quantity ≤ 0
              ∨ (h.products a).currentStock < ceilToInt quantity
              ∨ ∃ u ppu m, (h.products a).kind = .bulk u ppu m ∧ quantity < m)))
    ∧ (∀ (h : Heap) (tx : Transaction) (product : Option Nat) (quantity discount : ℚ)
        (notes : String),
        (tx.addItem h product quantity discount notes).1 = false →
          (tx.addItem h product quantity discount notes).2 = tx
            ∧ (tx.addItem h product quantity discount notes).2.items = tx.items) := by
  refine ⟨fun h tx quantity discount notes => rfl, ?_, ?_⟩
  · intro h tx a quantity discount notes
    rw [← belowBulkMinimum_iff]
    unfold Transaction.addItem
    by_cases h1 : (h.products a).isActive = false
    · simp [h1]
    · by_cases h2 : quantity ≤ 0
      · simp [h2]
      · by_cases h3 : (h.products a).currentStock < ceilToInt quantity
        · simp [h3]
        · by_cases h4 : Transaction.belowBulkMinimum h a quantity = true
          · simp [h4]
          · simp [h1, h2, h3, h4]
  · intro h tx product quantity discount notes
    unfold Transaction.addItem
    cases product with
    | none => simp
    | some a =>
      simp only []
      split_ifs <;> simp

/-- For a quantity whose ceiling is an `int`, `addItem` on a product returns
false exactly in the four cases that the specification lists, with the exact
ceiling in the stock test. -/
theorem addItem_false_iff_of_range (h : Heap) (tx : Transaction) (a : Nat)
    (quantity discount : ℚ) (notes : String) (hr : Int.ceil quantity ≤ INT_MAX) :
    (tx.addItem h (some a) quantity discount notes).1 = false
      ↔ ((h.products a).isActive = false
          ∨ quantity ≤ 0
          ∨ (h.products a).currentStock < Int.ceil quantity
          ∨ ∃ u ppu m, (h.products a).kind = .bulk u ppu m ∧ quantity < m) := by
  rw [addItem_result.2.1 h tx a quantity discount notes]
  by_cases hq : quantity ≤ 0
  · simp [hq]
  · have hpos : 0 < Int.ceil quantity := Int.ceil_pos.mpr (not_le.mp hq)
    rw [ceilToInt_of_range quantity (by unfold INT_MIN; omega) hr]

/-- The worked example of the specification for `addItem`: a Bulk product with
`minimumQuantity = 0.5` rejects the quantity 0.3 although
`calculatePriceForQuantity(0.3)` prices it like 0.5. -/
theorem addItem_bulk_below_minimum :
    (exampleBulkStore.products 0).kind = .bulk "kg" 4 (1 / 2)
      ∧ (exampleBulkStore.products 0).isActive = true
      ∧ ¬ ((exampleBulkStore.products 0).currentStock < Int.ceil (3 / 10 : ℚ))
      ∧ ((Transaction.new 10001 none "CASHIER01" 0).addItem exampleBulkStore
          (some 0) (3 / 10) 0 "").1 = false
      ∧ ((Transaction.new 10001 none "CASHIER01" 0).addItem exampleBulkStore
          (some 0) (3 / 10) 0 "").2.items = (Transaction.new 10001 none "CASHIER01" 0).items
      ∧ Product.calculatePriceForQuantity 4 (1 / 2) (3 / 10)
          = Product.calculatePriceForQuantity 4 (1 / 2) (1 / 2)
      ∧ Product.calculatePriceForQuantity 4 (1 / 2) (3 / 10) = 4 * (1 / 2) := by
  have hceil : Int.ceil (3 / 10 : ℚ) = 1 := by
    rw [Int.ceil_eq_iff]; norm_num
  simp +decide [exampleBulkStore, Transaction.addItem, Transaction.new, exampleHeap,
    exampleBulk, Transaction.belowBulkMinimum, Product.calculatePriceForQuantity, hceil,
    ceilToInt, INT_MIN, INT_MAX]
  norm_num

/-- C5 (the code at the failing input): on an active Regular product with
stock 50, `addItem` is called with the quantity 2147483648 (2^31).  The stock is
below `ceil(quantity)`, so the call should return false; but
`static_cast<int>(std::ceil(quantity))` is `INT_MIN`, the test
`currentStock < INT_MIN` fails, and `addItem` returns true and appends a line
of 2147483648 units. -/
theorem C5_addItem_accepts_quantity_beyond_int :
    ((exampleStore 50 .REGULAR 0).products 0).isActive = true
      ∧ ((exampleStore 50 .REGULAR 0).products 0).currentStock = 50
      ∧ Int.ceil exampleHugeQuantity = 2147483648
      ∧ ((exampleStore 50 .REGULAR 0).products 0).currentStock < Int.ceil exampleHugeQuantity
      ∧ ceilToInt exampleHugeQuantity = INT_MIN
      ∧ ((Transaction.new 10001 none "CASHIER01" 0).addItem (exampleStore 50 .REGULAR 0)
          (some 0) exampleHugeQuantity 0 "").1 = true
      ∧ ((Transaction.new 10001 none "CASHIER01" 0).addItem (exampleStore 50 .REGULAR 0)
          (some 0) exampleHugeQuantity 0 "").2.items.map TransactionItem.quantity
          = [2147483648] := by
  have hceil : Int.ceil exampleHugeQuantity = 2147483648 := by
    unfold exampleHugeQuantity
    exact Int.ceil_ofNat _
  have hcast : ceilToInt exampleHugeQuantity = INT_MIN := by
    apply ceilToInt_of_gt
    rw [hceil]
    decide
  refine ⟨rfl, rfl, hceil, ?_, hcast, ?_, ?_⟩
  · rw [hceil]
    decide
  · simp +decide [Transaction.addItem, hcast, exampleStore, exampleHeap, exampleRegular,
      Transaction.belowBulkMinimum, INT_MIN, exampleHugeQuantity]
  · simp +decide [Transaction.addItem, hcast, exampleStore, exampleHeap, exampleRegular,
      Transaction.belowBulkMinimum, INT_MIN, TransactionItem.new,
      TransactionItem.calculateSubtotal, Transaction.new]

/-! ## C6 -/

theorem new_some (h : Heap) (a : Nat) (quantity discount : ℚ) (notes : String) :
    TransactionItem.new h (some a) quantity discount notes
      = { product := some a, quantity := quantity,
          unitPrice := (h.products a).calculateSellingPrice, discount := discount,
          subtotal :=
            specLinePrice (h.products a) (h.products a).calculateSellingPrice quantity
              * (1 - discount),
          notes := notes } := by
  unfold TransactionItem.new TransactionItem.calculateSubtotal specLinePrice
  cases hk : (h.products a).kind <;> simp [hk]

/-- C6: whenever `addItem` returns true, the product is not null and the line
list is the previous list with exactly one line appended at the end; that line
records the product, quantity, discount and notes given, its `unitPrice` is the
product's `calculateSellingPrice()` on the heap of the call, and its `subtotal`
is `(calculatePriceForQuantity(quantity)` for a Bulk product,
`unitPrice * quantity` otherwise`) * (1 - discount)`. -/
theorem C6_addItem_appends_line (h : Heap) (tx : Transaction) (product : Option Nat)
    (quantity discount : ℚ) (notes : String)
    (hok : (tx.addItem h product quantity discount notes).1 = true) :
    ∃ (a : Nat) (line : TransactionItem),
      product = some a
        ∧ (tx.addItem h product quantity discount notes).2.items = tx.items ++ [line]
        ∧ line.product = some a ∧ line.quantity = quantity ∧ line.discount = discount
        ∧ line.notes = notes
        ∧ line.unitPrice = (h.products a).calculateSellingPrice
        ∧ line.subtotal
            = specLinePrice (h.products a) line.unitPrice quantity * (1 - discount) := by
  cases product with
  | none => simp [Transaction.addItem] at hok
  | some a =>
    refine ⟨a, TransactionItem.new h (some a) quantity discount notes, rfl, ?_, ?_⟩
    · unfold Transaction.addItem at hok ⊢
      simp only [] at hok ⊢
      split_ifs at hok ⊢
      simp_all
    · rw [new_some]
      exact ⟨rfl, rfl, rfl, rfl, rfl, rfl⟩

/-- C6 (worked example): adding 2 units of the Regular product of price 10 with
a 10% line discount to an empty transaction is accepted and yields the single
line with `unitPrice = 10` and `subtotal = 18`; adding 3/4 kg of the Bulk
product priced 4 per kg is accepted with `subtotal = 3`. -/
theorem C6_addItem_appends_line_witness :
    (∃ (a : Nat) (line : TransactionItem),
      some 0 = some a
        ∧ ((Transaction.new 10001 none "CASHIER01" 0).addItem
              (exampleHeap (exampleRegular 50) (exampleCustomer .REGULAR 0))
              (some 0) 2 (1 / 10) "promo").2.items
            = (Transaction.new 10001 none "CASHIER01" 0).items ++ [line]
        ∧ line.product = some a ∧ line.quantity = 2 ∧ line.discount = 1 / 10
        ∧ line.notes = "promo"
        ∧ line.unitPrice
            = ((exampleHeap (exampleRegular 50) (exampleCustomer .REGULAR 0)).products
                a).calculateSellingPrice
        ∧ line.subtotal
            = specLinePrice
                ((exampleHeap (exampleRegular 50) (exampleCustomer .REGULAR 0)).products a)
                line.unitPrice 2 * (1 - 1 / 10))
      ∧ ((Transaction.new 10001 none "CASHIER01" 0).addItem
            (exampleHeap (exampleRegular 50) (exampleCustomer .REGULAR 0))
            (some 0) 2 (1 / 10) "promo").2.items.map
          (fun l => (l.unitPrice, l.subtotal)) = [(10, 18)]
      ∧ ((Transaction.new 10001 none "CASHIER01" 0).addItem
            (exampleHeap (exampleBulk 50) (exampleCustomer .REGULAR 0))
            (some 0) (3 / 4) 0 "").2.items.map
          (fun l => (l.unitPrice, l.subtotal)) = [(4, 3)] := by
  refine ⟨C6_addItem_appends_line
      (exampleHeap (exampleRegular 50) (exampleCustomer .REGULAR 0))
      (Transaction.new 10001 none "CASHIER01" 0) (some 0) 2 (1 / 10) "promo" ?_, ?_, ?_⟩
  · simp +decide [Transaction.addItem, exampleHeap, exampleRegular,
      Transaction.belowBulkMinimum]
  · simp +decide [Transaction.addItem, Transaction.new, exampleHeap, exampleRegular,
      Transaction.belowBulkMinimum, TransactionItem.new, TransactionItem.calculateSubtotal,
      Product.calculateSellingPrice]
    norm_num
  · have hceil : Int.ceil (3 / 4 : ℚ) = 1 := by
      rw [Int.ceil_eq_iff]; norm_num
    simp +decide [Transaction.addItem, Transaction.new, exampleHeap, exampleBulk,
      Transaction.belowBulkMinimum, TransactionItem.new, TransactionItem.calculateSubtotal,
      Product.calculateSellingPrice, Product.calculatePriceForQuantity, hceil,
      ceilToInt, INT_MIN, INT_MAX]
    norm_num

/-! ## C7 -/

theorem totalsStep_snd (h : Heap) (acc : ℚ × ℚ) (item : TransactionItem) :
    (Transaction.totalsStep h acc item).2 = acc.2 + lineDiscountDelta h item := by
  unfold lineDiscountDelta Transaction.totalsStep
  cases item.product with
  | none => simp
  | some a =>
    by_cases hd : item.discount > 0
    · simp [hd]
    · simp [hd]

theorem foldl_totalsStep_snd (h : Heap) (items : List TransactionItem) (acc : ℚ × ℚ) :
    (items.foldl (Transaction.totalsStep h) acc).2
      = acc.2 + (items.map (lineDiscountDelta h)).sum := by
  induction items generalizing acc with
  | nil => simp
  | cons x xs ih =>
    simp only [List.foldl_cons, List.map_cons, List.sum_cons]
    rw [ih, totalsStep_snd]
    ring

/-- The undiscounted price of a line whose product still has the selling price
captured in the line and whose quantity is not below a Bulk minimum is the
product's current selling price times the quantity. -/
theorem specLinePrice_of_unchanged (h : Heap) (a : Nat) (item : TransactionItem)
    (hp : (h.products a).calculateSellingPrice = item.unitPrice)
    (hb : Transaction.belowBulkMinimum h a item.quantity = false) :
    specLinePrice (h.products a) item.unitPrice item.quantity
      = (h.products a).calculateSellingPrice * item.quantity := by
  unfold specLinePrice
  unfold Transaction.belowBulkMinimum at hb
  unfold Product.calculateSellingPrice at hp ⊢
  cases hk : (h.products a).kind with
  | regular m => simp only [hk] at hp ⊢; rw [hp]
  | perishable e s d => simp only [hk] at hp ⊢; rw [hp]
  | bulk u ppu mq =>
    simp only [hk, decide_eq_false_iff_not] at hb ⊢
    simp [Product.calculatePriceForQuantity, hb]

/-- The loop of `calculateTotals` adds the specification's line delta for the
lines with a positive discount, and nothing for the others, when the products
of the discounted lines are unchanged since the lines were made. -/
theorem sum_lineDiscountDelta_of_unchanged (h : Heap) (items : List TransactionItem)
    (hu : ∀ item ∈ items, item.discount > 0 → ∀ a, item.product = some a →
      (h.products a).calculateSellingPrice = item.unitPrice
        ∧ Transaction.belowBulkMinimum h a item.quantity = false) :
    (items.map (lineDiscountDelta h)).sum
      = ((items.filter (fun item => decide (item.discount > 0))).map
          (specLineDelta h)).sum := by
  induction items with
  | nil => rfl
  | cons x xs ih =>
    have ih1 := ih (fun item hi => hu item (List.mem_cons_of_mem _ hi))
    have hx := hu x (List.mem_cons_self _ _)
    simp only [List.map_cons, List.sum_cons, ih1, List.filter_cons]
    by_cases hd : x.discount > 0
    · simp only [hd, decide_True, if_true, List.map_cons, List.sum_cons]
      congr 1
      unfold lineDiscountDelta Transaction.totalsStep specLineDelta
      cases hprod : x.product with
      | none => simp
      | some a =>
        have hxa := hx hd a hprod
        simp only [hd, if_true, zero_add]
        rw [specLinePrice_of_unchanged h a x hxa.1 hxa.2]
    · have h0 : lineDiscountDelta h x = 0 := by
        unfold lineDiscountDelta Transaction.totalsStep
        cases x.product with
        | none => simp
        | some a => simp [hd]
      simp [hd, h0]

/-- C7 (counterexample): three inputs on which `totalDiscount` is not the sum
the claim words.  (1) A Regular-tier customer with 5 loyalty points buys 2 units
at price 10 without line discount and applies the 5 points: `totalDiscount` is
0, the claimed sum is 5.  (2) A line of 2 units at price 10 with the line
discount -0.1 has subtotal 22: `totalDiscount` is 0, the claimed sum is -2.
(3) A line of 2 units at price 10 with the line discount 0.1 has subtotal 18;
after `setCostPrice(16)` on the product the line still holds unit price 10, but
`totalDiscount` is 22, the claimed sum is 2. -/
theorem C7_counterexample_points_negative_discount_price_change :
    (((exampleCart (exampleStore 50 .REGULAR 5) (some 0) 2).applyLoyaltyPoints
          (exampleStore 50 .REGULAR 5) 5).1 = true
      ∧ (exampleLoyaltyCart (exampleStore 50 .REGULAR 5) 5).loyaltyPointsUsed = 5
      ∧ ((exampleLoyaltyCart (exampleStore 50 .REGULAR 5) 5).calculateTotals
          (exampleStore 50 .REGULAR 5) (8 / 100)).totalDiscount = 0
      ∧ specTotalDiscount (exampleStore 50 .REGULAR 5)
          (exampleLoyaltyCart (exampleStore 50 .REGULAR 5) 5) = 5)
      ∧ ((Transaction.addItem (exampleStore 50 .REGULAR 0)
            (Transaction.new 10001 none "CASHIER01" 0) (some 0) 2 (-1 / 10) "").1 = true
        ∧ (exampleDiscountCart (exampleStore 50 .REGULAR 0) none (-1 / 10)).items.map
            (fun l => (l.unitPrice, l.quantity, l.discount, l.subtotal))
            = [(10, 2, -1 / 10, 22)]
        ∧ ((exampleDiscountCart (exampleStore 50 .REGULAR 0) none (-1 / 10)).calculateTotals
            (exampleStore 50 .REGULAR 0) (8 / 100)).totalDiscount = 0
        ∧ specTotalDiscount (exampleStore 50 .REGULAR 0)
            (exampleDiscountCart (exampleStore 50 .REGULAR 0) none (-1 / 10)) = -2)
      ∧ ((exampleDiscountCart (exampleStore 50 .REGULAR 0) none (1 / 10)).items.map
            (fun l => (l.unitPrice, l.quantity, l.discount, l.subtotal))
            = [(10, 2, 1 / 10, 18)]
        ∧ (examplePriceChanged.products 0).calculateSellingPrice = 20
        ∧ ((exampleDiscountCart (exampleStore 50 .REGULAR 0) none (1 / 10)).calculateTotals
            examplePriceChanged (8 / 100)).totalDiscount = 22
        ∧ specTotalDiscount examplePriceChanged
            (exampleDiscountCart (exampleStore 50 .REGULAR 0) none (1 / 10)) = 2) := by
  refine ⟨?_, ?_, ?_⟩
  · simp +decide [exampleStore, exampleLoyaltyCart, exampleCart,
      Transaction.applyLoyaltyPoints,
      Transaction.calculateTotals, Transaction.addItem, Transaction.new, exampleHeap,
      exampleRegular, Transaction.belowBulkMinimum, TransactionItem.new,
      TransactionItem.calculateSubtotal, Transaction.totalsStep,
      Product.calculateSellingPrice, exampleCustomer, Customer.getDiscountRate,
      specTotalDiscount, specLineDelta, specLinePrice, lineSubtotalSum,
      specCustomerDiscount, specTierDiscount, ceilToInt, INT_MIN, INT_MAX]
  · simp +decide [exampleStore, exampleDiscountCart,
      Transaction.calculateTotals, Transaction.addItem, Transaction.new, exampleHeap,
      exampleRegular, Transaction.belowBulkMinimum, TransactionItem.new,
      TransactionItem.calculateSubtotal, Transaction.totalsStep,
      Product.calculateSellingPrice, exampleCustomer,
      specTotalDiscount, specLineDelta, specLinePrice, lineSubtotalSum,
      specCustomerDiscount, ceilToInt, INT_MIN, INT_MAX]
    norm_num
  · simp +decide [exampleStore, exampleDiscountCart, examplePriceChanged, updateProduct,
      Product.setCostPrice,
      Transaction.calculateTotals, Transaction.addItem, Transaction.new, exampleHeap,
      exampleRegular, Transaction.belowBulkMinimum, TransactionItem.new,
      TransactionItem.calculateSubtotal, Transaction.totalsStep,
      Product.calculateSellingPrice, exampleCustomer,
      specTotalDiscount, specLineDelta, specLinePrice, lineSubtotalSum,
      specCustomerDiscount, ceilToInt, INT_MIN, INT_MAX]
    norm_num

/-- C7 (amended): for every transaction in which each line with a positive
discount refers to a product that still has the selling price captured as the
line's unit price and, if it is a Bulk product, a minimum quantity not above
the line's quantity (so it is for every line `addItem` accepted, until the
product is changed), `totalDiscount` after `calculateTotals` equals the sum,
over the lines with a positive discount, of (undiscounted line price minus
discounted line subtotal), plus the customer-tier discount amount (sum of the
line subtotals times the tier rate); the loyalty points applied are not part
of it. -/
theorem C7_totalDiscount_of_discounted_lines_and_tier (h : Heap) (tx : Transaction) (t : ℚ)
    (hu : ∀ item ∈ tx.items, item.discount > 0 → ∀ a, item.product = some a →
      (h.products a).calculateSellingPrice = item.unitPrice
        ∧ Transaction.belowBulkMinimum h a item.quantity = false) :
    (tx.calculateTotals h t).totalDiscount
      = ((tx.items.filter (fun item => decide (item.discount > 0))).map
            (specLineDelta h)).sum
          + lineSubtotalSum tx * specCustomerDiscount h tx := by
  rw [← sum_lineDiscountDelta_of_unchanged h tx.items hu]
  unfold Transaction.calculateTotals specCustomerDiscount lineSubtotalSum
  cases hc : tx.customer with
  | none =>
    simp only [foldl_totalsStep_snd]
    ring
  | some c =>
    simp only [foldl_totalsStep_fst, foldl_totalsStep_snd, getDiscountRate_eq_spec]
    split_ifs <;> simp only [] <;> ring

/-- C7 (amended, worked example): a VIP customer buys 2 units at price 10 with
the line discount 0.1 and applies 5 loyalty points; the line subtotal is 18,
the line delta is 20 - 18 = 2, the tier discount is 18 * 0.1 = 1.8, and
`totalDiscount` is 3.8, the 5 points not being part of it. -/
theorem C7_totalDiscount_of_discounted_lines_and_tier_witness :
    (exampleDiscountLoyaltyCart (exampleStore 50 .VIP 5) (1 / 10) 5).loyaltyPointsUsed = 5
      ∧ (exampleDiscountLoyaltyCart (exampleStore 50 .VIP 5) (1 / 10) 5).items.map
          (fun l => (l.unitPrice, l.quantity, l.discount, l.subtotal))
          = [(10, 2, 1 / 10, 18)]
      ∧ ((exampleDiscountLoyaltyCart (exampleStore 50 .VIP 5) (1 / 10) 5).calculateTotals
          (exampleStore 50 .VIP 5) (8 / 100)).totalDiscount = 38 / 10 := by
  have hitems : (exampleDiscountLoyaltyCart (exampleStore 50 .VIP 5) (1 / 10) 5).items
      = [{ product := some 0, quantity := 2, unitPrice := 10, discount := 1 / 10,
           subtotal := 18, notes := "" }] := by
    simp +decide [exampleDiscountLoyaltyCart, exampleStore, exampleDiscountCart,
      Transaction.applyLoyaltyPoints,
      Transaction.addItem, Transaction.new, exampleHeap, exampleCustomer,
      exampleRegular, Transaction.belowBulkMinimum, TransactionItem.new,
      TransactionItem.calculateSubtotal, Product.calculateSellingPrice,
      ceilToInt, INT_MIN, INT_MAX]
    norm_num
  have hcust : (exampleDiscountLoyaltyCart (exampleStore 50 .VIP 5) (1 / 10) 5).customer
      = some 0 := by
    simp +decide [exampleDiscountLoyaltyCart, exampleStore, exampleDiscountCart,
      Transaction.applyLoyaltyPoints,
      Transaction.addItem, Transaction.new, exampleHeap, exampleCustomer]
  refine ⟨?_, ?_, ?_⟩
  · simp +decide [exampleDiscountLoyaltyCart, exampleStore, exampleDiscountCart,
      Transaction.applyLoyaltyPoints,
      Transaction.addItem, Transaction.new, exampleHeap, exampleCustomer]
  · rw [hitems]
    rfl
  · rw [C7_totalDiscount_of_discounted_lines_and_tier (exampleStore 50 .VIP 5) _ (8 / 100)
      (by
        rw [hitems]
        intro item hi hd a ha
        simp only [List.mem_singleton] at hi
        subst hi
        simp only [Option.some.injEq] at ha
        subst ha
        simp +decide [exampleStore, exampleHeap, exampleRegular,
          Product.calculateSellingPrice, Transaction.belowBulkMinimum]
        norm_num)]
    unfold lineSubtotalSum specCustomerDiscount
    rw [hitems, hcust]
    simp +decide [specLineDelta, specLinePrice, specTierDiscount, exampleStore, exampleHeap,
      exampleRegular, exampleCustomer]
    norm_num

/-! ## C8 -/

/-- C8: `processPayment(method, amountPaid)` returns false exactly when
`finalTotal <= 0`, or `method` is CASH and `amountPaid < finalTotal`; it returns
true otherwise, in particular for every non-CASH method with a positive
`finalTotal` whatever `amountPaid` is; the status is unchanged in every case. -/
theorem C8_processPayment_result (tx : Transaction) (method : PaymentMethod)
    (amountPaid : ℚ) :
    ((tx.processPayment method amountPaid).1 = false
        ↔ (tx.finalTotal ≤ 0 ∨ (method = .CASH ∧ amountPaid < tx.finalTotal)))
      ∧ ((tx.processPayment method amountPaid).1 = true
        ↔ (0 < tx.finalTotal ∧ (method ≠ .CASH ∨ tx.finalTotal ≤ amountPaid)))
      ∧ (tx.processPayment method amountPaid).2.status = tx.status := by
  unfold Transaction.processPayment
  by_cases h1 : tx.finalTotal ≤ 0
  · have h1' : ¬ (0 < tx.finalTotal) := not_lt.mpr h1
    simp [h1, h1']
  · have h1' : 0 < tx.finalTotal := not_le.mp h1
    by_cases h2 : method = .CASH ∧ amountPaid < tx.finalTotal
    · have h3 : ¬ (tx.finalTotal ≤ amountPaid) := not_le.mpr h2.2
      simp [h1, h2, h3, h2.1]
    · have h3 : method ≠ .CASH ∨ tx.finalTotal ≤ amountPaid := by
        by_cases hm : method = .CASH
        · right
          exact not_lt.mp (fun hlt => h2 ⟨hm, hlt⟩)
        · left
          exact hm
      simp [h1, h2, h1', h3]

/-! ## C9 -/

/-- C9 (the code at the failing input): on the cart of one Regular line of
quantity 2 at unit price 10 with totals computed (`finalTotal = 21.60`), a card
payment is accepted and recorded; a following cash payment of 10 is rejected,
yet the recorded `paymentMethod` has changed from CREDIT_CARD to CASH. -/
theorem C9_rejected_cash_overwrites_method :
    (exampleTotals (exampleStore 50 .REGULAR 0) none).finalTotal = 2160 / 100
      ∧ ((exampleTotals (exampleStore 50 .REGULAR 0) none).processPayment
          .CREDIT_CARD 0).1 = true
      ∧ (examplePaid (exampleStore 50 .REGULAR 0)).paymentMethod = .CREDIT_CARD
      ∧ ((examplePaid (exampleStore 50 .REGULAR 0)).processPayment .CASH 10).1 = false
      ∧ ((examplePaid (exampleStore 50 .REGULAR 0)).processPayment .CASH 10).2.paymentMethod
          = .CASH
      ∧ ((examplePaid (exampleStore 50 .REGULAR 0)).processPayment .CASH 10).2
          ≠ examplePaid (exampleStore 50 .REGULAR 0) := by
  simp +decide [examplePaid, exampleTotals, exampleStore, exampleCart,
    Transaction.calculateTotals, Transaction.addItem,
    Transaction.new, exampleHeap, exampleRegular, Transaction.belowBulkMinimum,
    TransactionItem.new, TransactionItem.calculateSubtotal, Transaction.totalsStep,
    Product.calculateSellingPrice, Transaction.processPayment]
  norm_num
  decide

/-! ## C10 -/

theorem addItem_status (h : Heap) (tx : Transaction) (product : Option Nat)
    (quantity discount : ℚ) (notes : String) :
    (tx.addItem h product quantity discount notes).2.status = tx.status := by
  unfold Transaction.addItem
  cases product with
  | none => rfl
  | some a =>
    simp only []
    split_ifs <;> rfl

theorem removeItem_status (tx : Transaction) (i : Int) :
    (tx.removeItem i).2.status = tx.status := by
  unfold Transaction.removeItem
  split_ifs <;> rfl

theorem calculateTotals_status (h : Heap) (tx : Transaction) (t : ℚ) :
    (tx.calculateTotals h t).status = tx.status := by
  unfold Transaction.calculateTotals
  cases hc : tx.customer with
  | none => simp only []
  | some c => simp only []; split_ifs <;> rfl

theorem applyLoyaltyPoints_status (h : Heap) (tx : Transaction) (points : ℚ) :
    (tx.applyLoyaltyPoints h points).2.status = tx.status := by
  unfold Transaction.applyLoyaltyPoints
  cases tx.customer with
  | none => rfl
  | some c =>
    simp only []
    split_ifs <;> rfl

theorem processPayment_status (tx : Transaction) (method : PaymentMethod) (amountPaid : ℚ) :
    (tx.processPayment method amountPaid).2.status = tx.status := by
  unfold Transaction.processPayment
  by_cases h1 : tx.finalTotal ≤ 0
  · simp [h1]
  · by_cases h2 : method = .CASH ∧ amountPaid < tx.finalTotal
    · simp [h1, h2]
    · simp [h1, h2]

theorem finalizeTransaction_status (h : Heap) (tx : Transaction) :
    (tx.finalizeTransaction h).2.status = tx.status
      ∨ (tx.status = .PENDING ∧ (tx.finalizeTransaction h).2.status = .COMPLETED) := by
  by_cases hp : tx.status = .PENDING
  · right
    exact ⟨hp, by rw [finalizeTransaction_snd h tx hp]⟩
  · left
    unfold Transaction.finalizeTransaction
    simp [hp]

theorem processRefund_status (h : Heap) (tx : Transaction) (amount : ℚ) :
    (tx.processRefund h amount).2.2.status = tx.status
      ∨ (tx.status = .COMPLETED
          ∧ ((tx.processRefund h amount).2.2.status = .REFUNDED
              ∨ (tx.processRefund h amount).2.2.status = .PARTIALLY_REFUNDED)) := by
  by_cases hc : tx.status = .COMPLETED
  · unfold Transaction.processRefund
    simp only [hc, ne_eq, not_true_eq_false, if_false]
    split_ifs <;> simp [hc]
  · left
    rw [processRefund_not_completed h tx amount hc]

/-- The status after one operation: unchanged, or one of the three transitions. -/
theorem applyOp_status (s : Heap × Transaction) (op : TransactionOp) :
    (applyOp s op).2.status = s.2.status
      ∨ (op = .finalizeTransaction ∧ s.2.status = .PENDING
          ∧ (applyOp s op).2.status = .COMPLETED)
      ∨ ((∃ amount, op = .processRefund amount) ∧ s.2.status = .COMPLETED
          ∧ ((applyOp s op).2.status = .REFUNDED
              ∨ (applyOp s op).2.status = .PARTIALLY_REFUNDED)) := by
  cases op with
  | addItem product quantity discount notes => exact Or.inl (addItem_status _ _ _ _ _ _)
  | removeItem i => exact Or.inl (removeItem_status _ _)
  | clearItems => exact Or.inl rfl
  | calculateTotals t => exact Or.inl (calculateTotals_status _ _ _)
  | applyLoyaltyPoints points => exact Or.inl (applyLoyaltyPoints_status _ _ _)
  | processPayment method amountPaid => exact Or.inl (processPayment_status _ _ _)
  | finalizeTransaction =>
    rcases finalizeTransaction_status s.1 s.2 with h1 | h1
    · exact Or.inl h1
    · exact Or.inr (Or.inl ⟨rfl, h1⟩)
  | processRefund amount =>
    rcases processRefund_status s.1 s.2 amount with h1 | h1
    · exact Or.inl h1
    · exact Or.inr (Or.inr ⟨⟨amount, rfl⟩, h1⟩)

theorem runOps_cons (s : Heap × Transaction) (op : TransactionOp) (ops : List TransactionOp) :
    runOps s (op :: ops) = runOps (applyOp s op) ops := rfl

theorem runOps_append_singleton (s : Heap × Transaction) (ops : List TransactionOp)
    (op : TransactionOp) :
    runOps s (ops ++ [op]) = applyOp (runOps s ops) op := by
  unfold runOps
  rw [List.foldl_append]
  rfl

theorem runOps_status_ne_cancelled (s : Heap × Transaction) (ops : List TransactionOp)
    (hs : s.2.status ≠ .CANCELLED) : (runOps s ops).2.status ≠ .CANCELLED := by
  induction ops generalizing s with
  | nil => exact hs
  | cons op ops ih =>
    rw [runOps_cons]
    apply ih
    rcases applyOp_status s op with h1 | ⟨_, _, h1⟩ | ⟨_, _, h1 | h1⟩
    · rw [h1]; exact hs
    · rw [h1]; decide
    · rw [h1]; decide
    · rw [h1]; decide

theorem runOps_status_refunded (s : Heap × Transaction) (ops : List TransactionOp)
    (hs : s.2.status = .REFUNDED ∨ s.2.status = .PARTIALLY_REFUNDED) :
    (runOps s ops).2.status = s.2.status := by
  induction ops generalizing s with
  | nil => rfl
  | cons op ops ih =>
    rw [runOps_cons]
    have hstep : (applyOp s op).2.status = s.2.status := by
      rcases applyOp_status s op with h1 | ⟨_, h2, _⟩ | ⟨_, h2, _⟩
      · exact h1
      · rcases hs with hs | hs <;> rw [hs] at h2 <;> exact absurd h2 (by decide)
      · rcases hs with hs | hs <;> rw [hs] at h2 <;> exact absurd h2 (by decide)
    rw [ih _ (by rw [hstep]; exact hs), hstep]

/-- C11: over every sequence of Transaction operations the status changes only
by PENDING -> COMPLETED (in `finalizeTransaction`) and by COMPLETED -> REFUNDED
or PARTIALLY_REFUNDED (in `processRefund`): every single operation, in every
state reached from a new transaction, either keeps the status or makes one of
these transitions; CANCELLED is never reached from a new transaction; and once
the status is REFUNDED or PARTIALLY_REFUNDED no further sequence of operations
changes it. -/
theorem C11_status_state_machine :
    (∀ (h : Heap) (transactionId : Int) (customer : Option Nat) (cashierId : String)
        (timestamp : Int) (ops : List TransactionOp) (op : TransactionOp),
        (runOps (h, Transaction.new transactionId customer cashierId timestamp)
            (ops ++ [op])).2.status
          = (runOps (h, Transaction.new transactionId customer cashierId timestamp)
              ops).2.status
        ∨ (op = .finalizeTransaction
            ∧ (runOps (h, Transaction.new transactionId customer cashierId timestamp)
                ops).2.status = .PENDING
            ∧ (runOps (h, Transaction.new transactionId customer cashierId timestamp)
                (ops ++ [op])).2.status = .COMPLETED)
        ∨ ((∃ amount, op = .processRefund amount)
            ∧ (runOps (h, Transaction.new transactionId customer cashierId timestamp)
                ops).2.status = .COMPLETED
            ∧ ((runOps (h, Transaction.new transactionId customer cashierId timestamp)
                  (ops ++ [op])).2.status = .REFUNDED
                ∨ (runOps (h, Transaction.new transactionId customer cashierId timestamp)
                  (ops ++ [op])).2.status = .PARTIALLY_REFUNDED)))
    ∧ (∀ (h : Heap) (transactionId : Int) (customer : Option Nat) (cashierId : String)
        (timestamp : Int) (ops : List TransactionOp),
        (runOps (h, Transaction.new transactionId customer cashierId timestamp)
            ops).2.status ≠ .CANCELLED)
    ∧ (∀ (s : Heap × Transaction) (ops : List TransactionOp),
        (s.2.status = .REFUNDED ∨ s.2.status = .PARTIALLY_REFUNDED) →
          (runOps s ops).2.status = s.2.status) := by
  refine ⟨?_, ?_, runOps_status_refunded⟩
  · intro h transactionId customer cashierId timestamp ops op
    rw [runOps_append_singleton]
    exact applyOp_status _ op
  · intro h transactionId customer cashierId timestamp ops
    exact runOps_status_ne_cancelled _ ops (by simp [Transaction.new])

/-! ## C12 -/

theorem finalizeTransaction_not_pending (h : Heap) (tx : Transaction)
    (hne : tx.status ≠ .PENDING) : tx.finalizeTransaction h = (h, tx) := by
  unfold Transaction.finalizeTransaction
  simp [hne]

/-- C12: `finalizeTransaction` on a transaction whose status is not PENDING
returns the heap (every product, every customer) and the transaction
unchanged; hence calling it twice has the same effect as calling it once. -/
theorem C12_finalize_noop_unless_pending (h : Heap) (tx : Transaction) :
    (tx.status ≠ .PENDING →
        tx.finalizeTransaction h = (h, tx)
          ∧ (∀ a : Nat, ((tx.finalizeTransaction h).1.products a).currentStock
              = (h.products a).currentStock)
          ∧ (∀ c : Nat, (tx.finalizeTransaction h).1.customers c = h.customers c))
      ∧ (tx.finalizeTransaction h).2.finalizeTransaction (tx.finalizeTransaction h).1
          = tx.finalizeTransaction h := by
  have hnoop : tx.status ≠ .PENDING → tx.finalizeTransaction h = (h, tx) :=
    finalizeTransaction_not_pending h tx
  refine ⟨fun hne => ?_, ?_⟩
  · rw [hnoop hne]
    exact ⟨rfl, fun _ => rfl, fun _ => rfl⟩
  · by_cases hp : tx.status = .PENDING
    · apply finalizeTransaction_not_pending
      rw [finalizeTransaction_snd h tx hp]
      simp
    · rw [hnoop hp]
      exact hnoop hp

/-- C12 (worked example): one line of quantity 3 on a product with stock 50;
the first `finalizeTransaction` leaves the stock at 47 and the status
COMPLETED, the second changes nothing (the stock stays 47). -/
theorem C12_finalize_noop_unless_pending_witness :
    (((exampleCart (exampleStore 50 .REGULAR 0) none 3).finalizeTransaction
          (exampleStore 50 .REGULAR 0)).1.products 0).currentStock = 47
      ∧ ((exampleCart (exampleStore 50 .REGULAR 0) none 3).finalizeTransaction
          (exampleStore 50 .REGULAR 0)).2.status = .COMPLETED
      ∧ (((exampleCart (exampleStore 50 .REGULAR 0) none 3).finalizeTransaction
            (exampleStore 50 .REGULAR 0)).2.finalizeTransaction
          ((exampleCart (exampleStore 50 .REGULAR 0) none 3).finalizeTransaction
            (exampleStore 50 .REGULAR 0)).1)
          = (exampleCart (exampleStore 50 .REGULAR 0) none 3).finalizeTransaction
              (exampleStore 50 .REGULAR 0)
      ∧ ((((exampleCart (exampleStore 50 .REGULAR 0) none 3).finalizeTransaction
            (exampleStore 50 .REGULAR 0)).2.finalizeTransaction
          ((exampleCart (exampleStore 50 .REGULAR 0) none 3).finalizeTransaction
            (exampleStore 50 .REGULAR 0)).1).1.products 0).currentStock = 47 := by
  have h47 : (((exampleCart (exampleStore 50 .REGULAR 0) none 3).finalizeTransaction
      (exampleStore 50 .REGULAR 0)).1.products 0).currentStock = 47 := by
    simp +decide [exampleStore, exampleCart, Transaction.addItem, Transaction.new,
      exampleHeap, exampleRegular, Transaction.belowBulkMinimum, TransactionItem.new,
      TransactionItem.calculateSubtotal, Product.calculateSellingPrice,
      Transaction.finalizeTransaction, Transaction.reduceStep, Product.reduceStock]
  have hc : ((exampleCart (exampleStore 50 .REGULAR 0) none 3).finalizeTransaction
      (exampleStore 50 .REGULAR 0)).2.status = .COMPLETED := by
    simp +decide [exampleStore, exampleCart, Transaction.addItem, Transaction.new,
      exampleHeap, exampleRegular, Transaction.belowBulkMinimum,
      Transaction.finalizeTransaction]
  have key := C12_finalize_noop_unless_pending
    ((exampleCart (exampleStore 50 .REGULAR 0) none 3).finalizeTransaction
      (exampleStore 50 .REGULAR 0)).1
    ((exampleCart (exampleStore 50 .REGULAR 0) none 3).finalizeTransaction
      (exampleStore 50 .REGULAR 0)).2
  have hne : ((exampleCart (exampleStore 50 .REGULAR 0) none 3).finalizeTransaction
      (exampleStore 50 .REGULAR 0)).2.status ≠ .PENDING := by
    rw [hc]; decide
  refine ⟨h47, hc, (key.1 hne).1, ?_⟩
  rw [(key.1 hne).2.1 0]
  exact h47

/-! ## C13 -/

theorem pointsMultiplier_eq_spec (c : Customer) :
    c.pointsMultiplier = specTierMultiplier c.type := by
  unfold Customer.pointsMultiplier specTierMultiplier
  cases c.type <;> rfl

theorem finalizeTransaction_customer (h : Heap) (tx : Transaction) (c : Nat)
    (hp : tx.status = .PENDING) (hc : tx.customer = some c) :
    (tx.finalizeTransaction h).1.customers c
      = ((if tx.loyaltyPointsUsed > 0 then
            (((h.customers c).addPurchase tx.finalTotal).redeemLoyaltyPoints
              tx.loyaltyPointsUsed).2
          else (h.customers c).addPurchase tx.finalTotal).addLoyaltyPoints
            tx.loyaltyPointsEarned) := by
  unfold Transaction.finalizeTransaction
  simp only [hp, ne_eq, not_true_eq_false, if_false, hc, foldl_reduceStep_customers,
    Function.update_same]

/-- C13: for every PENDING transaction with an attached customer of tier
multiplier `m` and balance `b`, with `finalTotal >= 0` and
`0 <= loyaltyPointsUsed <= b`, `finalizeTransaction` raises the customer's
`totalSpent` by `finalTotal`, raises `transactionCount` by 1 and leaves the
loyalty balance at
`b + finalTotal * 0.01 * m - loyaltyPointsUsed + loyaltyPointsEarned`. -/
theorem C13_finalize_customer_effects (h : Heap) (tx : Transaction) (c : Nat)
    (hp : tx.status = .PENDING) (hc : tx.customer = some c)
    (hft : 0 ≤ tx.finalTotal) (hu0 : 0 ≤ tx.loyaltyPointsUsed)
    (hub : tx.loyaltyPointsUsed ≤ (h.customers c).loyaltyPoints) :
    ((tx.finalizeTransaction h).1.customers c).totalSpent
        = (h.customers c).totalSpent + tx.finalTotal
      ∧ ((tx.finalizeTransaction h).1.customers c).transactionCount
        = (h.customers c).transactionCount + 1
      ∧ ((tx.finalizeTransaction h).1.customers c).loyaltyPoints
        = (h.customers c).loyaltyPoints
            + tx.finalTotal * (1 / 100) * specTierMultiplier (h.customers c).type
            - tx.loyaltyPointsUsed + tx.loyaltyPointsEarned := by
  rw [finalizeTransaction_customer h tx c hp hc]
  have hm : 0 ≤ specTierMultiplier (h.customers c).type := by
    unfold specTierMultiplier
    cases (h.customers c).type <;> norm_num
  have hacc : 0 ≤ tx.finalTotal * (1 / 100) * specTierMultiplier (h.customers c).type :=
    mul_nonneg (mul_nonneg hft (by norm_num)) hm
  by_cases hu : tx.loyaltyPointsUsed > 0
  · have hge : ((h.customers c).addPurchase tx.finalTotal).loyaltyPoints
        ≥ tx.loyaltyPointsUsed := by
      simp only [Customer.addPurchase, Customer.addLoyaltyPoints, pointsMultiplier_eq_spec]
      linarith
    simp only [hu, if_true, Customer.redeemLoyaltyPoints, hge]
    simp [Customer.addPurchase, Customer.addLoyaltyPoints, pointsMultiplier_eq_spec]
  · have hz : tx.loyaltyPointsUsed = 0 := le_antisymm (not_lt.mp hu) hu0
    simp only [hu, if_false]
    simp [Customer.addPurchase, Customer.addLoyaltyPoints, pointsMultiplier_eq_spec, hz]

/-- C13 (worked example): a VIP customer with balance 5 buys 2 units at price
10, applies the 5 points and has totals computed (`finalTotal = 14.04`,
`loyaltyPointsEarned = 0.2808`); `finalizeTransaction` leaves `totalSpent` at
14.04, `transactionCount` at 1 and the balance at
`5 + 0.2808 - 5 + 0.2808 = 0.5616`. -/
theorem C13_finalize_customer_effects_witness :
    (exampleLoyaltyTotals (exampleStore 50 .VIP 5) 5).finalTotal = 1404 / 100
      ∧ (exampleLoyaltyTotals (exampleStore 50 .VIP 5) 5).loyaltyPointsUsed = 5
      ∧ (exampleLoyaltyTotals (exampleStore 50 .VIP 5) 5).loyaltyPointsEarned = 2808 / 10000
      ∧ (((exampleLoyaltyTotals (exampleStore 50 .VIP 5) 5).finalizeTransaction
            (exampleStore 50 .VIP 5)).1.customers 0).totalSpent = 1404 / 100
      ∧ (((exampleLoyaltyTotals (exampleStore 50 .VIP 5) 5).finalizeTransaction
            (exampleStore 50 .VIP 5)).1.customers 0).transactionCount = 1
      ∧ (((exampleLoyaltyTotals (exampleStore 50 .VIP 5) 5).finalizeTransaction
            (exampleStore 50 .VIP 5)).1.customers 0).loyaltyPoints = 5616 / 10000 := by
  have hft : (exampleLoyaltyTotals (exampleStore 50 .VIP 5) 5).finalTotal = 1404 / 100 := by
    simp +decide [exampleLoyaltyTotals, exampleLoyaltyCart, exampleStore, exampleCart,
      Transaction.applyLoyaltyPoints, Transaction.calculateTotals, Transaction.addItem,
      Transaction.new, exampleHeap, exampleRegular, Transaction.belowBulkMinimum,
      TransactionItem.new, TransactionItem.calculateSubtotal, Transaction.totalsStep,
      Product.calculateSellingPrice, exampleCustomer, Customer.getDiscountRate]
    norm_num
  have hu : (exampleLoyaltyTotals (exampleStore 50 .VIP 5) 5).loyaltyPointsUsed = 5 := by
    simp +decide [exampleLoyaltyTotals, exampleLoyaltyCart, exampleStore, exampleCart,
      Transaction.applyLoyaltyPoints, Transaction.calculateTotals, Transaction.addItem,
      Transaction.new, exampleHeap, exampleRegular, Transaction.belowBulkMinimum,
      exampleCustomer]
  have he : (exampleLoyaltyTotals (exampleStore 50 .VIP 5) 5).loyaltyPointsEarned
      = 2808 / 10000 := by
    simp +decide [exampleLoyaltyTotals, exampleLoyaltyCart, exampleStore, exampleCart,
      Transaction.applyLoyaltyPoints, Transaction.calculateTotals, Transaction.addItem,
      Transaction.new, exampleHeap, exampleRegular, Transaction.belowBulkMinimum,
      TransactionItem.new, TransactionItem.calculateSubtotal, Transaction.totalsStep,
      Product.calculateSellingPrice, exampleCustomer, Customer.getDiscountRate]
    norm_num
  have hp : (exampleLoyaltyTotals (exampleStore 50 .VIP 5) 5).status = .PENDING := by
    simp +decide [exampleLoyaltyTotals, exampleLoyaltyCart, exampleStore, exampleCart,
      Transaction.applyLoyaltyPoints, Transaction.calculateTotals, Transaction.addItem,
      Transaction.new, exampleHeap, exampleRegular, Transaction.belowBulkMinimum,
      exampleCustomer]
  have hc : (exampleLoyaltyTotals (exampleStore 50 .VIP 5) 5).customer = some 0 := by
    simp +decide [exampleLoyaltyTotals, exampleLoyaltyCart, exampleStore, exampleCart,
      Transaction.applyLoyaltyPoints, Transaction.calculateTotals, Transaction.addItem,
      Transaction.new, exampleHeap, exampleRegular, Transaction.belowBulkMinimum,
      exampleCustomer]
  have key := C13_finalize_customer_effects (exampleStore 50 .VIP 5)
    (exampleLoyaltyTotals (exampleStore 50 .VIP 5) 5) 0 hp hc
    (by rw [hft]; norm_num) (by rw [hu]; norm_num)
    (by rw [hu]; simp [exampleStore, exampleHeap, exampleCustomer])
  refine ⟨hft, hu, he, ?_, ?_, ?_⟩
  · rw [key.1, hft]
    simp [exampleStore, exampleHeap, exampleCustomer]
  · rw [key.2.1]
    simp [exampleStore, exampleHeap, exampleCustomer]
  · rw [key.2.2, hft, hu, he]
    simp [exampleStore, exampleHeap, exampleCustomer, specTierMultiplier]
    norm_num

/-! ## C14 -/

theorem applyOp_heap_of_not_touchesHeap (s : Heap × Transaction) (op : TransactionOp)
    (hop : op.touchesHeap = false) : (applyOp s op).1 = s.1 := by
  cases op with
  | finalizeTransaction => simp [TransactionOp.touchesHeap] at hop
  | processRefund amount => simp [TransactionOp.touchesHeap] at hop
  | addItem product quantity discount notes => rfl
  | removeItem i => rfl
  | clearItems => rfl
  | calculateTotals t => rfl
  | applyLoyaltyPoints points => rfl
  | processPayment method amountPaid => rfl

theorem runOps_heap_of_not_touchesHeap (s : Heap × Transaction) (ops : List TransactionOp)
    (hops : ∀ op ∈ ops, op.touchesHeap = false) : (runOps s ops).1 = s.1 := by
  induction ops generalizing s with
  | nil => rfl
  | cons op ops ih =>
    rw [runOps_cons, ih _ (fun o ho => hops o (List.mem_cons_of_mem _ ho)),
      applyOp_heap_of_not_touchesHeap s op (hops op (List.mem_cons_self _ _))]

/-- C14: `addItem`, `removeItem`, `clearItems`, `calculateTotals`,
`applyLoyaltyPoints` and `processPayment`, whatever they return, leave the heap
as it is: every product's `currentStock` and every customer's `totalSpent`,
`transactionCount` and loyalty balance are unchanged, also over every sequence
of these six operations.  Worked example: `addItem` accepts 3 units of a
product with stock 50 and the stock is still 50. -/
theorem C14_only_finalize_and_refund_touch_heap :
    (∀ (s : Heap × Transaction) (op : TransactionOp), op.touchesHeap = false →
        (∀ a : Nat, (((applyOp s op).1).products a).currentStock
            = (s.1.products a).currentStock)
        ∧ (∀ c : Nat,
            (((applyOp s op).1).customers c).totalSpent = (s.1.customers c).totalSpent
            ∧ (((applyOp s op).1).customers c).transactionCount
                = (s.1.customers c).transactionCount
            ∧ (((applyOp s op).1).customers c).loyaltyPoints
                = (s.1.customers c).loyaltyPoints))
    ∧ (∀ (s : Heap × Transaction) (ops : List TransactionOp),
        (∀ op ∈ ops, op.touchesHeap = false) → (runOps s ops).1 = s.1)
    ∧ (∀ (product : Option Nat) (quantity discount : ℚ) (notes : String) (itemIndex : Int)
        (taxRate points amountPaid : ℚ) (method : PaymentMethod),
        (TransactionOp.addItem product quantity discount notes).touchesHeap = false
        ∧ (TransactionOp.removeItem itemIndex).touchesHeap = false
        ∧ TransactionOp.clearItems.touchesHeap = false
        ∧ (TransactionOp.calculateTotals taxRate).touchesHeap = false
        ∧ (TransactionOp.applyLoyaltyPoints points).touchesHeap = false
        ∧ (TransactionOp.processPayment method amountPaid).touchesHeap = false)
    ∧ ((Transaction.addItem (exampleStore 50 .REGULAR 0)
          (Transaction.new 10001 none "CASHIER01" 0) (some 0) 3 0 "").1 = true
        ∧ (((applyOp (exampleStore 50 .REGULAR 0, Transaction.new 10001 none "CASHIER01" 0)
              (.addItem (some 0) 3 0 "")).1).products 0).currentStock = 50) := by
  refine ⟨fun s op hop => ?_, runOps_heap_of_not_touchesHeap,
    fun _ _ _ _ _ _ _ _ _ => ⟨rfl, rfl, rfl, rfl, rfl, rfl⟩, ?_, ?_⟩
  · rw [applyOp_heap_of_not_touchesHeap s op hop]
    exact ⟨fun _ => rfl, fun _ => ⟨rfl, rfl, rfl⟩⟩
  · simp +decide [exampleStore, Transaction.addItem, Transaction.new, exampleHeap,
      exampleRegular, Transaction.belowBulkMinimum]
  · simp [applyOp, exampleStore, exampleHeap, exampleRegular]

/-! ## C15 -/

/-- C15: `applyLoyaltyPoints(points)` returns false and leaves the transaction
unchanged if no customer is attached or `points` exceeds the customer's loyalty
balance; otherwise it returns true and changes only `loyaltyPointsUsed`, which
becomes `points`.  Consequently, called after `calculateTotals`, it leaves the
computed `subtotal`, `tax`, `finalTotal` and `loyaltyPointsEarned` as they are. -/
theorem C15_applyLoyaltyPoints_result (h : Heap) (tx : Transaction) (points : ℚ) :
    (tx.customer = none → tx.applyLoyaltyPoints h points = (false, tx))
      ∧ (∀ c : Nat, tx.customer = some c → points > (h.customers c).loyaltyPoints →
          tx.applyLoyaltyPoints h points = (false, tx))
      ∧ (∀ c : Nat, tx.customer = some c → points ≤ (h.customers c).loyaltyPoints →
          tx.applyLoyaltyPoints h points = (true, { tx with loyaltyPointsUsed := points }))
      ∧ (∀ t : ℚ,
          ((tx.calculateTotals h t).applyLoyaltyPoints h points).2.subtotal
              = (tx.calculateTotals h t).subtotal
          ∧ ((tx.calculateTotals h t).applyLoyaltyPoints h points).2.tax
              = (tx.calculateTotals h t).tax
          ∧ ((tx.calculateTotals h t).applyLoyaltyPoints h points).2.finalTotal
              = (tx.calculateTotals h t).finalTotal
          ∧ ((tx.calculateTotals h t).applyLoyaltyPoints h points).2.loyaltyPointsEarned
              = (tx.calculateTotals h t).loyaltyPointsEarned) := by
  have hframe : ∀ tx0 : Transaction,
      (tx0.applyLoyaltyPoints h points).2.subtotal = tx0.subtotal
        ∧ (tx0.applyLoyaltyPoints h points).2.tax = tx0.tax
        ∧ (tx0.applyLoyaltyPoints h points).2.finalTotal = tx0.finalTotal
        ∧ (tx0.applyLoyaltyPoints h points).2.loyaltyPointsEarned
            = tx0.loyaltyPointsEarned := by
    intro tx0
    unfold Transaction.applyLoyaltyPoints
    cases tx0.customer with
    | none => exact ⟨rfl, rfl, rfl, rfl⟩
    | some c =>
      simp only []
      split_ifs <;> exact ⟨rfl, rfl, rfl, rfl⟩
  refine ⟨fun hc => ?_, fun c hc hgt => ?_, fun c hc hle => ?_, fun t => hframe _⟩
  · unfold Transaction.applyLoyaltyPoints
    simp [hc]
  · unfold Transaction.applyLoyaltyPoints
    have hlt : (h.customers c).loyaltyPoints < points := hgt
    simp [hc, hlt]
  · unfold Transaction.applyLoyaltyPoints
    have hlt : ¬ (h.customers c).loyaltyPoints < points := not_lt.mpr hle
    simp [hc, hlt]

/-! ## C16 -/

theorem calculateTotals_products_irrelevant (h : Heap) (ps : Nat → Product)
    (tx : Transaction) (t : ℚ) :
    (tx.calculateTotals { h with products := ps } t).subtotal = (tx.calculateTotals h t).subtotal
      ∧ (tx.calculateTotals { h with products := ps } t).tax = (tx.calculateTotals h t).tax
      ∧ (tx.calculateTotals { h with products := ps } t).finalTotal
          = (tx.calculateTotals h t).finalTotal := by
  have hsub : (tx.calculateTotals { h with products := ps } t).subtotal
      = (tx.calculateTotals h t).subtotal := by
    rw [calculateTotals_subtotal, calculateTotals_subtotal]
    rfl
  refine ⟨hsub, ?_, ?_⟩
  · rw [calculateTotals_tax, calculateTotals_tax, hsub]
  · rw [calculateTotals_finalTotal, calculateTotals_finalTotal, calculateTotals_tax,
      calculateTotals_tax, hsub]

/-- C16: a line's price is frozen at creation.  The transaction stores its
lines by value, so a later change of the product (by any of the price setters
for cost price, base price, markup, price per unit or near-expiry discount
rate, or any other change of the product) leaves the stored `unitPrice` and
`subtotal` as they are, and the `subtotal`, `tax` and `finalTotal` that a later
`calculateTotals` computes are the same as without the change.  Worked
example: 2 units added at price 10; after `setCostPrice(16)` the product sells
at 20, the line still has `unitPrice = 10` and `subtotal = 20`, and
`calculateTotals(0.08)` still gives 20 / 1.60 / 21.60. -/
theorem C16_line_price_frozen :
    (∀ (s : Heap × Transaction) (a : Nat) (f : Product → Product),
        (changeProduct s a f).2.items.map (fun l => (l.unitPrice, l.subtotal))
          = s.2.items.map (fun l => (l.unitPrice, l.subtotal)))
    ∧ (∀ (h : Heap) (a : Nat) (f : Product → Product) (tx : Transaction) (t : ℚ),
        (tx.calculateTotals (updateProduct h a f) t).subtotal
            = (tx.calculateTotals h t).subtotal
          ∧ (tx.calculateTotals (updateProduct h a f) t).tax = (tx.calculateTotals h t).tax
          ∧ (tx.calculateTotals (updateProduct h a f) t).finalTotal
              = (tx.calculateTotals h t).finalTotal)
    ∧ (∀ (h : Heap) (a : Nat) (x : ℚ) (tx : Transaction) (product : Option Nat)
        (quantity discount : ℚ) (notes : String) (t : ℚ),
        ∀ f ∈ priceSetters x,
          ((tx.addItem h product quantity discount notes).2.calculateTotals
              (updateProduct h a f) t).subtotal
            = ((tx.addItem h product quantity discount notes).2.calculateTotals h t).subtotal
          ∧ ((tx.addItem h product quantity discount notes).2.calculateTotals
              (updateProduct h a f) t).tax
            = ((tx.addItem h product quantity discount notes).2.calculateTotals h t).tax
          ∧ ((tx.addItem h product quantity discount notes).2.calculateTotals
              (updateProduct h a f) t).finalTotal
            = ((tx.addItem h product quantity discount notes).2.calculateTotals h
                t).finalTotal)
    ∧ (((exampleStore 50 .REGULAR 0).products 0).calculateSellingPrice = 10
        ∧ (examplePriceChanged.products 0).calculateSellingPrice = 20
        ∧ (exampleCart (exampleStore 50 .REGULAR 0) none 2).items.map
            (fun l => (l.unitPrice, l.subtotal)) = [(10, 20)]
        ∧ ((exampleCart (exampleStore 50 .REGULAR 0) none 2).calculateTotals
            examplePriceChanged (8 / 100)).subtotal = 20
        ∧ ((exampleCart (exampleStore 50 .REGULAR 0) none 2).calculateTotals
            examplePriceChanged (8 / 100)).tax = 160 / 100
        ∧ ((exampleCart (exampleStore 50 .REGULAR 0) none 2).calculateTotals
            examplePriceChanged (8 / 100)).finalTotal = 2160 / 100) := by
  refine ⟨fun s a f => rfl, fun h a f tx t => calculateTotals_products_irrelevant h _ tx t,
    fun h a x tx product quantity discount notes t f _ =>
      calculateTotals_products_irrelevant h _ _ t, ?_⟩
  simp +decide [examplePriceChanged, updateProduct, Product.setCostPrice, exampleStore,
    exampleCart, Transaction.calculateTotals, Transaction.addItem, Transaction.new,
    exampleHeap, exampleRegular, Transaction.belowBulkMinimum, TransactionItem.new,
    TransactionItem.calculateSubtotal, Transaction.totalsStep,
    Product.calculateSellingPrice]
  norm_num

/-! ## C17 -/

theorem addStock_currentStock (p : Product) (q : Int) (hq : 0 < q)
    (hlo : INT_MIN ≤ p.currentStock + q) (hhi : p.currentStock + q ≤ INT_MAX) :
    (p.addStock q).currentStock = min (p.currentStock + q) p.maxStockLevel
      ∧ (p.addStock q).maxStockLevel = p.maxStockLevel := by
  unfold Product.addStock
  rw [wrapInt_of_range _ hlo hhi]
  by_cases hgt : p.currentStock + q > p.maxStockLevel
  · simp only [hq, gt_iff_lt, if_true, hgt]
    exact ⟨(min_eq_right (le_of_lt hgt)).symm, trivial⟩
  · simp only [hq, gt_iff_lt, if_true, hgt, if_false]
    exact ⟨(min_eq_left (not_lt.mp hgt)).symm, trivial⟩

theorem committedQuantity_pos (items : List TransactionItem) (a : Nat)
    (hq : ∀ it ∈ items, it.product = some a → 0 < it.quantity)
    (href : ∃ it ∈ items, it.product = some a) :
    0 < committedQuantity items a := by
  induction items with
  | nil =>
    obtain ⟨it, hit, _⟩ := href
    simp at hit
  | cons x xs ih =>
    rw [committedQuantity_cons]
    have hnn := committedQuantity_nonneg xs a
      (fun it hit => hq it (List.mem_cons_of_mem _ hit))
    by_cases hx : x.product = some a
    · have h2 : 0 < Int.ceil x.quantity := Int.ceil_pos.mpr (hq x (List.mem_cons_self _ _) hx)
      simp only [hx, if_true]
      omega
    · obtain ⟨it, hit, hita⟩ := href
      have hmem : it ∈ xs := by
        rcases List.mem_cons.mp hit with e | e
        · exact absurd (e ▸ hita) hx
        · exact e
      have := ih (fun it hit => hq it (List.mem_cons_of_mem _ hit)) ⟨it, hmem, hita⟩
      simp only [hx, if_false]
      omega

/-- As long as no `int` is exceeded (stock and ceiling not negative, stock plus
the sum of `ceil(quantity)` over the lines of `a` at most `INT_MAX`), the
restocking loop raises the stock of `a` by that sum, capped at
`maxStockLevel`. -/
theorem foldl_restockAt_capped (items : List TransactionItem) (a : Nat) (p : Product)
    (hq : ∀ it ∈ items, it.product = some a → 0 < it.quantity)
    (h0 : 0 ≤ p.currentStock) (hm0 : 0 ≤ p.maxStockLevel)
    (hhi : p.currentStock + committedQuantity items a ≤ INT_MAX)
    (hs : 0 < committedQuantity items a ∨ p.currentStock ≤ p.maxStockLevel) :
    (items.foldl (restockAt a) p).currentStock
      = min (p.currentStock + committedQuantity items a) p.maxStockLevel := by
  induction items generalizing p with
  | nil =>
    rcases hs with hs | hs
    · simp [committedQuantity] at hs
    · simp [committedQuantity, hs]
  | cons x xs ih =>
    have hq1 : ∀ it ∈ xs, it.product = some a → 0 < it.quantity :=
      fun it hit => hq it (List.mem_cons_of_mem _ hit)
    have hnn := committedQuantity_nonneg xs a hq1
    rw [committedQuantity_cons] at hs hhi ⊢
    rw [List.foldl_cons]
    by_cases hx : x.product = some a
    · have h2 : 0 < Int.ceil x.quantity := Int.ceil_pos.mpr (hq x (List.mem_cons_self _ _) hx)
      simp only [hx, if_true] at hhi
      have hhi' : p.currentStock + (Int.ceil x.quantity + committedQuantity xs a)
          ≤ 2147483647 := hhi
      have hcast : ceilToInt x.quantity = Int.ceil x.quantity :=
        ceilToInt_of_range _ (by unfold INT_MIN; omega) (by unfold INT_MAX; omega)
      have hstep : restockAt a p x = p.addStock (Int.ceil x.quantity) := by
        unfold restockAt
        simp only [hx, if_true, hcast]
      have hadd := addStock_currentStock p (Int.ceil x.quantity) h2
        (by unfold INT_MIN; omega) (by unfold INT_MAX; omega)
      have hle : (p.addStock (Int.ceil x.quantity)).currentStock
          ≤ (p.addStock (Int.ceil x.quantity)).maxStockLevel := by
        rw [hadd.1, hadd.2]
        exact min_le_right _ _
      have hge : 0 ≤ (p.addStock (Int.ceil x.quantity)).currentStock := by
        rw [hadd.1]
        exact le_min (by omega) hm0
      have hup : (p.addStock (Int.ceil x.quantity)).currentStock + committedQuantity xs a
          ≤ INT_MAX := by
        rw [hadd.1]
        have := min_le_left (p.currentStock + Int.ceil x.quantity) p.maxStockLevel
        unfold INT_MAX
        omega
      rw [hstep, ih _ hq1 hge (by rw [hadd.2]; exact hm0) hup (Or.inr hle), hadd.1, hadd.2]
      simp only [hx, if_true]
      rcases le_total (p.currentStock + Int.ceil x.quantity) p.maxStockLevel with hc | hc
      · rw [min_eq_left hc, add_assoc]
      · rw [min_eq_right hc, min_eq_right (by omega), min_eq_right (by omega)]
    · have hstep : restockAt a p x = p := by
        unfold restockAt
        simp only [hx, if_false]
      simp only [hx, if_false, zero_add] at hs hhi ⊢
      rw [hstep, ih _ hq1 h0 hm0 hhi hs]

theorem processRefund_products (h : Heap) (tx : Transaction) (amount : ℚ) (a : Nat)
    (hok : (tx.processRefund h amount).1 = true) :
    (tx.processRefund h amount).2.1.products a
      = tx.items.foldl (restockAt a) (h.products a) := by
  unfold Transaction.processRefund at hok ⊢
  by_cases h1 : tx.status ≠ .COMPLETED
  · simp [h1] at hok
  · by_cases h2 : (if amount = -1 then tx.finalTotal else amount) > tx.finalTotal
    · simp [h1, h2] at hok
    · simp only [h1, if_false, h2]
      split_ifs <;> cases tx.customer <;> exact foldl_restockStep_products _ _ _

/-- The restocking done by a refund does not depend on the refunded amount:
any two amounts that `processRefund` accepts leave the same products. -/
theorem processRefund_products_independent (h : Heap) (tx : Transaction)
    (amount1 amount2 : ℚ) (h1 : (tx.processRefund h amount1).1 = true)
    (h2 : (tx.processRefund h amount2).1 = true) (a : Nat) :
    (tx.processRefund h amount1).2.1.products a
      = (tx.processRefund h amount2).2.1.products a := by
  rw [processRefund_products h tx amount1 a h1, processRefund_products h tx amount2 a h2]

/-- As long as no `int` is exceeded, an accepted refund leaves every referenced
product at its prior stock plus the sum of `ceil(quantity)` over its lines,
capped at `maxStockLevel`. -/
theorem processRefund_stock_of_range (h : Heap) (tx : Transaction) (amount : ℚ) (a : Nat)
    (hok : (tx.processRefund h amount).1 = true)
    (hq : ∀ it ∈ tx.items, it.product = some a → 0 < it.quantity)
    (href : ∃ it ∈ tx.items, it.product = some a)
    (h0 : 0 ≤ (h.products a).currentStock) (hm0 : 0 ≤ (h.products a).maxStockLevel)
    (hhi : (h.products a).currentStock + committedQuantity tx.items a ≤ INT_MAX) :
    ((tx.processRefund h amount).2.1.products a).currentStock
      = min ((h.products a).currentStock + committedQuantity tx.items a)
          (h.products a).maxStockLevel := by
  rw [processRefund_products h tx amount a hok]
  exact foldl_restockAt_capped tx.items a (h.products a) hq h0 hm0 hhi
    (Or.inl (committedQuantity_pos tx.items a hq href))

/-- C17 (the code at the failing input): a line of 2147483648 (2^31) units of a
product with stock 50 and ceiling 1000 is accepted by `addItem`, totals are
computed and the transaction is finalized, which leaves the stock at 50.  The
refund of 10 and the full refund are both accepted and leave the same stock,
but that stock is still 50: `static_cast<int>(std::ceil(quantity))` is
`INT_MIN`, so `addStock` adds nothing, where the prior stock plus
`ceil(quantity)`, capped at `maxStockLevel`, is 1000. -/
theorem C17_refund_of_huge_line_restocks_nothing :
    (Transaction.addItem (exampleStore 50 .REGULAR 0)
        (Transaction.new 10001 none "CASHIER01" 0) (some 0) exampleHugeQuantity 0 "").1 = true
      ∧ (exampleHugeCompleted (exampleStore 50 .REGULAR 0)).2.status = .COMPLETED
      ∧ (exampleHugeCompleted (exampleStore 50 .REGULAR 0)).2.items.map
          (fun l => (l.product, l.quantity)) = [(some 0, 2147483648)]
      ∧ ((exampleHugeCompleted (exampleStore 50 .REGULAR 0)).1.products 0).currentStock = 50
      ∧ ((exampleHugeCompleted (exampleStore 50 .REGULAR 0)).1.products 0).maxStockLevel = 1000
      ∧ ((exampleHugeCompleted (exampleStore 50 .REGULAR 0)).2.processRefund
          (exampleHugeCompleted (exampleStore 50 .REGULAR 0)).1 10).1 = true
      ∧ ((exampleHugeCompleted (exampleStore 50 .REGULAR 0)).2.processRefund
          (exampleHugeCompleted (exampleStore 50 .REGULAR 0)).1 (-1)).1 = true
      ∧ (((exampleHugeCompleted (exampleStore 50 .REGULAR 0)).2.processRefund
          (exampleHugeCompleted (exampleStore 50 .REGULAR 0)).1 10).2.1.products
            0).currentStock = 50
      ∧ (((exampleHugeCompleted (exampleStore 50 .REGULAR 0)).2.processRefund
          (exampleHugeCompleted (exampleStore 50 .REGULAR 0)).1 (-1)).2.1.products
            0).currentStock = 50
      ∧ min (((exampleHugeCompleted (exampleStore 50 .REGULAR 0)).1.products 0).currentStock
            + committedQuantity (exampleHugeCompleted (exampleStore 50 .REGULAR 0)).2.items 0)
          ((exampleHugeCompleted (exampleStore 50 .REGULAR 0)).1.products 0).maxStockLevel
          = 1000 := by
  have hceil : Int.ceil exampleHugeQuantity = 2147483648 := by
    unfold exampleHugeQuantity
    exact Int.ceil_ofNat _
  have hceil2 : Int.ceil (2147483648 : ℚ) = 2147483648 := Int.ceil_ofNat _
  have hcast : ceilToInt exampleHugeQuantity = INT_MIN := by
    apply ceilToInt_of_gt
    rw [hceil]
    decide
  have hcast2 : ceilToInt (2147483648 : ℚ) = INT_MIN := hcast
  have hadd : (Transaction.addItem (exampleStore 50 .REGULAR 0)
      (Transaction.new 10001 none "CASHIER01" 0) (some 0) exampleHugeQuantity 0 "").1
        = true := by
    simp +decide [Transaction.addItem, hcast, exampleStore, exampleHeap, exampleRegular,
      Transaction.belowBulkMinimum, INT_MIN]
  have hitems : (exampleHugeCompleted (exampleStore 50 .REGULAR 0)).2.items =
      [{ product := some 0, quantity := 2147483648, unitPrice := 10, discount := 0,
         subtotal := 21474836480, notes := "" }] := by
    simp +decide [exampleHugeCompleted, exampleHugeTotals, exampleCart,
      Transaction.calculateTotals, Transaction.addItem, hcast, exampleStore, exampleHeap,
      exampleRegular, Transaction.belowBulkMinimum, INT_MIN, TransactionItem.new,
      TransactionItem.calculateSubtotal, Product.calculateSellingPrice, Transaction.new,
      Transaction.finalizeTransaction]
    norm_num [exampleHugeQuantity]
  have hst : (exampleHugeCompleted (exampleStore 50 .REGULAR 0)).2.status = .COMPLETED := by
    simp +decide [exampleHugeCompleted, exampleHugeTotals, exampleCart,
      Transaction.calculateTotals, Transaction.addItem, Transaction.new,
      Transaction.finalizeTransaction]
  have hft : (exampleHugeCompleted (exampleStore 50 .REGULAR 0)).2.finalTotal
      = 23192823398 + 2 / 5 := by
    simp +decide [exampleHugeCompleted, exampleHugeTotals, exampleCart,
      Transaction.calculateTotals, Transaction.addItem, hcast, exampleStore, exampleHeap,
      exampleRegular, Transaction.belowBulkMinimum, INT_MIN, TransactionItem.new,
      TransactionItem.calculateSubtotal, Transaction.totalsStep,
      Product.calculateSellingPrice, Transaction.new, Transaction.finalizeTransaction]
    norm_num [exampleHugeQuantity]
  have hprod : (exampleHugeCompleted (exampleStore 50 .REGULAR 0)).1.products 0
      = exampleRegular 50 := by
    simp +decide [exampleHugeCompleted, exampleHugeTotals, exampleCart,
      Transaction.calculateTotals, Transaction.addItem, hcast, exampleStore, exampleHeap,
      exampleRegular, Transaction.belowBulkMinimum, INT_MIN, TransactionItem.new,
      TransactionItem.calculateSubtotal, Product.calculateSellingPrice, Transaction.new,
      Transaction.finalizeTransaction, Transaction.reduceStep, Product.reduceStock, hceil]
  generalize exampleHugeCompleted (exampleStore 50 .REGULAR 0) = f at hitems hst hft hprod ⊢
  have t10 : (f.2.processRefund f.1 10).1 = true := by
    unfold Transaction.processRefund
    norm_num [hst, hft]
  have tfull : (f.2.processRefund f.1 (-1)).1 = true := processRefund_full_fst _ _ hst
  have hrestock : (f.2.items.foldl (restockAt 0) (f.1.products 0)).currentStock = 50 := by
    rw [hitems, hprod]
    simp [restockAt, hcast2, INT_MIN, Product.addStock, exampleRegular]
  refine ⟨hadd, hst, by rw [hitems]; rfl, by rw [hprod]; rfl, by rw [hprod]; rfl, t10, tfull,
    ?_, ?_, ?_⟩
  · rw [processRefund_products _ _ _ 0 t10]
    exact hrestock
  · rw [processRefund_products _ _ _ 0 tfull]
    exact hrestock
  · rw [hitems, hprod]
    simp [committedQuantity, hceil2, exampleRegular]

/-! ## C18 -/

theorem redeemLoyaltyPoints_totalSpent (c : Customer) (points : ℚ) :
    (c.redeemLoyaltyPoints points).2.totalSpent = c.totalSpent := by
  unfold Customer.redeemLoyaltyPoints
  split_ifs <;> rfl

theorem addPurchase_totalSpent (c : Customer) (amount : ℚ) :
    (c.addPurchase amount).totalSpent = c.totalSpent + amount := rfl

theorem processRefund_customer (h : Heap) (tx : Transaction) (amount : ℚ) (c : Nat)
    (hc : tx.customer = some c) (hok : (tx.processRefund h amount).1 = true) :
    (tx.processRefund h amount).2.1.customers c
      = (if tx.loyaltyPointsEarned > 0 then
          (((h.customers c).addPurchase (-(specRefundAmount tx amount))).redeemLoyaltyPoints
            tx.loyaltyPointsEarned).2
        else (h.customers c).addPurchase (-(specRefundAmount tx amount))) := by
  unfold Transaction.processRefund specRefundAmount at *
  by_cases h1 : tx.status ≠ .COMPLETED
  · simp [h1] at hok
  · by_cases h2 : (if amount = -1 then tx.finalTotal else amount) > tx.finalTotal
    · simp [h1, h2] at hok
    · simp only [h1, if_false, h2, hc, foldl_restockStep_customers]
      split_ifs <;> simp only [Function.update_same]

theorem finalizeTransaction_totalSpent (h : Heap) (tx : Transaction) (c : Nat)
    (hp : tx.status = .PENDING) (hc : tx.customer = some c) :
    ((tx.finalizeTransaction h).1.customers c).totalSpent
      = (h.customers c).totalSpent + tx.finalTotal := by
  rw [finalizeTransaction_customer h tx c hp hc]
  unfold Customer.addLoyaltyPoints
  split_ifs
  · simp only [redeemLoyaltyPoints_totalSpent, addPurchase_totalSpent]
  · simp only [addPurchase_totalSpent]

/-- C18: a refund reverses cumulative spend.  For a transaction with an
attached customer, every `processRefund` that returns true lowers the
customer's `totalSpent` by exactly the refunded amount `a` (`finalTotal` for the
default request, the given amount otherwise); and on a PENDING transaction
`finalizeTransaction` followed by a full refund leaves `totalSpent` equal to its
value before `finalizeTransaction`. -/
theorem C18_refund_reverses_spend (h : Heap) (tx : Transaction) (c : Nat)
    (hc : tx.customer = some c) :
    (∀ amount : ℚ, (tx.processRefund h amount).1 = true →
        ((tx.processRefund h amount).2.1.customers c).totalSpent
          = (h.customers c).totalSpent - specRefundAmount tx amount)
      ∧ (tx.status = .PENDING →
          (((tx.finalizeTransaction h).2.processRefund
              (tx.finalizeTransaction h).1 (-1)).2.1.customers c).totalSpent
            = (h.customers c).totalSpent) := by
  have hrefund : ∀ (h0 : Heap) (tx0 : Transaction) (amount : ℚ), tx0.customer = some c →
      (tx0.processRefund h0 amount).1 = true →
      ((tx0.processRefund h0 amount).2.1.customers c).totalSpent
        = (h0.customers c).totalSpent - specRefundAmount tx0 amount := by
    intro h0 tx0 amount hc0 hok
    rw [processRefund_customer h0 tx0 amount c hc0 hok]
    split_ifs
    · rw [redeemLoyaltyPoints_totalSpent, addPurchase_totalSpent]
      ring
    · rw [addPurchase_totalSpent]
      ring
  refine ⟨fun amount hok => hrefund h tx amount hc hok, fun hp => ?_⟩
  have hst : (tx.finalizeTransaction h).2.status = .COMPLETED := by
    rw [finalizeTransaction_snd h tx hp]
  have hcust : (tx.finalizeTransaction h).2.customer = some c := by
    rw [finalizeTransaction_snd h tx hp]
    exact hc
  have hft : (tx.finalizeTransaction h).2.finalTotal = tx.finalTotal := by
    rw [finalizeTransaction_snd h tx hp]
  rw [hrefund _ _ (-1) hcust (processRefund_full_fst _ _ hst),
    finalizeTransaction_totalSpent h tx c hp hc]
  simp [specRefundAmount, hft]

/-- C18 (worked example): a VIP customer with `totalSpent = 0` buys 2 units at
price 10 (`finalTotal = 19.44`); `finalizeTransaction` raises `totalSpent` to
19.44 and the full refund brings it back to 0. -/
theorem C18_refund_reverses_spend_witness :
    ((exampleStore 50 .VIP 0).customers 0).totalSpent = 0
      ∧ (((exampleTotals (exampleStore 50 .VIP 0) (some 0)).finalizeTransaction
            (exampleStore 50 .VIP 0)).1.customers 0).totalSpent = 1944 / 100
      ∧ ((exampleRefunded (exampleStore 50 .VIP 0)
            (exampleTotals (exampleStore 50 .VIP 0) (some 0))).2.1.customers 0).totalSpent
          = 0 := by
  have hp : (exampleTotals (exampleStore 50 .VIP 0) (some 0)).status = .PENDING := by
    simp +decide [exampleTotals, exampleStore, exampleCart, Transaction.calculateTotals,
      Transaction.addItem, Transaction.new, exampleHeap, exampleRegular,
      Transaction.belowBulkMinimum, exampleCustomer]
  have hc : (exampleTotals (exampleStore 50 .VIP 0) (some 0)).customer = some 0 := by
    simp +decide [exampleTotals, exampleStore, exampleCart, Transaction.calculateTotals,
      Transaction.addItem, Transaction.new, exampleHeap, exampleRegular,
      Transaction.belowBulkMinimum, exampleCustomer]
  have hft : (exampleTotals (exampleStore 50 .VIP 0) (some 0)).finalTotal = 1944 / 100 := by
    simp +decide [exampleTotals, exampleStore, exampleCart, Transaction.calculateTotals,
      Transaction.addItem, Transaction.new, exampleHeap, exampleRegular,
      Transaction.belowBulkMinimum, TransactionItem.new, TransactionItem.calculateSubtotal,
      Transaction.totalsStep, Product.calculateSellingPrice, exampleCustomer,
      Customer.getDiscountRate]
    norm_num
  have h0 : ((exampleStore 50 .VIP 0).customers 0).totalSpent = 0 := rfl
  have key := C18_refund_reverses_spend (exampleStore 50 .VIP 0)
    (exampleTotals (exampleStore 50 .VIP 0) (some 0)) 0 hc
  refine ⟨h0, ?_, (key.2 hp).trans h0⟩
  rw [finalizeTransaction_totalSpent _ _ 0 hp hc, hft, h0]
  norm_num

/-! ## C19 -/

/-- C19 (the code at the failing input): a Regular-tier customer starts with
balance 0; the first purchase (2 units, `finalTotal = 21.60`) is finalized and
leaves the balance at 0.432; the second purchase (1 unit) redeems these 0.432
points, which `applyLoyaltyPoints` accepts, and is finalized, leaving 0.2066688;
the full refund of the first purchase returns true and, through
`addPurchase(-21.60)`, leaves the balance at -0.0093312, below zero. -/
theorem C19_refund_makes_balance_negative :
    ((exampleStore 50 .REGULAR 0).customers 0).loyaltyPoints = 0
      ∧ (exampleFirstSale.1.customers 0).loyaltyPoints = 432 / 1000
      ∧ ((exampleCart exampleFirstSale.1 (some 0) 1).applyLoyaltyPoints exampleFirstSale.1
          (432 / 1000)).1 = true
      ∧ exampleSecondSale.2.status = .COMPLETED
      ∧ (exampleSecondSale.1.customers 0).loyaltyPoints = 2066688 / 10000000
      ∧ exampleFirstRefund.1 = true
      ∧ (exampleFirstRefund.2.1.customers 0).loyaltyPoints = -(93312 / 10000000)
      ∧ (exampleFirstRefund.2.1.customers 0).loyaltyPoints < 0 := by
  have hfirst : exampleFirstSale.1.customers 0
      = { exampleCustomer .REGULAR 0 with
            totalSpent := 2160 / 100, transactionCount := 1, loyaltyPoints := 432 / 1000 } := by
    simp +decide [exampleFirstSale, exampleTotals, exampleStore, exampleCart,
      Transaction.calculateTotals, Transaction.addItem, Transaction.new, exampleHeap,
      exampleRegular, Transaction.belowBulkMinimum, TransactionItem.new,
      TransactionItem.calculateSubtotal, Transaction.totalsStep,
      Product.calculateSellingPrice, exampleCustomer, Customer.getDiscountRate,
      Transaction.finalizeTransaction, Transaction.reduceStep, Product.reduceStock,
      Customer.addPurchase, Customer.addLoyaltyPoints, Customer.pointsMultiplier,
      Customer.redeemLoyaltyPoints]
    norm_num
  have hprod1 : exampleFirstSale.1.products 0 = exampleRegular 48 := by
    simp +decide [exampleFirstSale, exampleTotals, exampleStore, exampleCart,
      Transaction.calculateTotals, Transaction.addItem, Transaction.new, exampleHeap,
      exampleRegular, Transaction.belowBulkMinimum, TransactionItem.new,
      TransactionItem.calculateSubtotal, Transaction.totalsStep,
      Product.calculateSellingPrice, Transaction.finalizeTransaction,
      Transaction.reduceStep, Product.reduceStock]
  have htx1 : exampleFirstSale.2.status = .COMPLETED
      ∧ exampleFirstSale.2.customer = some 0
      ∧ exampleFirstSale.2.finalTotal = 2160 / 100
      ∧ exampleFirstSale.2.loyaltyPointsEarned = 216 / 1000 := by
    simp +decide [exampleFirstSale, exampleTotals, exampleStore, exampleCart,
      Transaction.calculateTotals, Transaction.addItem, Transaction.new, exampleHeap,
      exampleRegular, Transaction.belowBulkMinimum, TransactionItem.new,
      TransactionItem.calculateSubtotal, Transaction.totalsStep,
      Product.calculateSellingPrice, exampleCustomer, Customer.getDiscountRate,
      Transaction.finalizeTransaction]
    norm_num
  have happly : ((exampleCart exampleFirstSale.1 (some 0) 1).applyLoyaltyPoints
      exampleFirstSale.1 (432 / 1000)).1 = true := by
    simp +decide [exampleCart, Transaction.applyLoyaltyPoints, Transaction.addItem,
      Transaction.new, hprod1, hfirst, exampleRegular, Transaction.belowBulkMinimum]
  have hsecond : exampleSecondSale.2.status = .COMPLETED
      ∧ (exampleSecondSale.1.customers 0).loyaltyPoints = 2066688 / 10000000
      ∧ (exampleSecondSale.1.customers 0).type = .REGULAR := by
    simp +decide [exampleSecondSale, exampleSecondCart, exampleCart,
      Transaction.applyLoyaltyPoints, Transaction.calculateTotals, Transaction.addItem,
      Transaction.new, hprod1, hfirst, exampleRegular, Transaction.belowBulkMinimum,
      TransactionItem.new, TransactionItem.calculateSubtotal, Transaction.totalsStep,
      Product.calculateSellingPrice, exampleCustomer, Customer.getDiscountRate,
      Transaction.finalizeTransaction, Transaction.reduceStep, Product.reduceStock,
      Customer.addPurchase, Customer.addLoyaltyPoints, Customer.pointsMultiplier,
      Customer.redeemLoyaltyPoints, foldl_reduceStep_customers]
    norm_num
  have hrefund : exampleFirstRefund.1 = true
      ∧ (exampleFirstRefund.2.1.customers 0).loyaltyPoints = -(93312 / 10000000) := by
    have hok : exampleFirstRefund.1 = true := processRefund_full_fst _ _ htx1.1
    refine ⟨hok, ?_⟩
    unfold exampleFirstRefund at hok ⊢
    rw [processRefund_customer _ _ _ 0 htx1.2.1 hok]
    simp only [specRefundAmount, htx1.2.2.1, htx1.2.2.2, Customer.addPurchase,
      Customer.addLoyaltyPoints, Customer.pointsMultiplier, Customer.redeemLoyaltyPoints,
      hsecond.2.1, hsecond.2.2]
    norm_num
  refine ⟨rfl, by rw [hfirst], happly, hsecond.1, hsecond.2.1, hrefund.1, hrefund.2, ?_⟩
  rw [hrefund.2]
  norm_num

/-! ## C20 -/

/-- One stock call keeps `0 <= currentStock <= maxStockLevel` as long as the
sum that `addStock` forms fits an `int`. -/
theorem applyStockCall_bounds (p : Product) (call : StockCall)
    (h0 : 0 ≤ p.currentStock) (h1 : p.currentStock ≤ p.maxStockLevel)
    (hr : ∀ q, call = .addStock q → p.maxStockLevel + q ≤ INT_MAX) :
    0 ≤ (applyStockCall p call).currentStock
      ∧ (applyStockCall p call).currentStock ≤ (applyStockCall p call).maxStockLevel
      ∧ (applyStockCall p call).maxStockLevel = p.maxStockLevel := by
  cases call with
  | addStock q =>
    have hq2 : p.maxStockLevel + q ≤ 2147483647 := hr q rfl
    simp only [applyStockCall]
    by_cases hq : q > 0
    · have hadd := addStock_currentStock p q hq (by unfold INT_MIN; omega)
        (by unfold INT_MAX; omega)
      rw [hadd.1, hadd.2]
      exact ⟨le_min (by omega) (le_trans h0 h1), min_le_right _ _, rfl⟩
    · unfold Product.addStock
      simp only [hq, if_false]
      exact ⟨h0, h1, trivial⟩
  | reduceStock q =>
    simp only [applyStockCall, Product.reduceStock]
    by_cases hq : p.currentStock ≥ q ∧ q > 0
    · simp only [hq, and_self, if_true]
      exact ⟨by omega, by omega, trivial⟩
    · simp only [hq, if_false]
      exact ⟨h0, h1, trivial⟩

/-- A sequence of stock calls keeps `0 <= currentStock <= maxStockLevel` as long
as `maxStockLevel + q` fits an `int` for every `addStock(q)` in it. -/
theorem runStockCalls_bounds (p : Product) (calls : List StockCall)
    (h0 : 0 ≤ p.currentStock) (h1 : p.currentStock ≤ p.maxStockLevel)
    (hr : ∀ q, StockCall.addStock q ∈ calls → p.maxStockLevel + q ≤ INT_MAX) :
    0 ≤ (runStockCalls p calls).currentStock
      ∧ (runStockCalls p calls).currentStock ≤ (runStockCalls p calls).maxStockLevel
      ∧ (runStockCalls p calls).maxStockLevel = p.maxStockLevel := by
  induction calls generalizing p with
  | nil => exact ⟨h0, h1, rfl⟩
  | cons call calls ih =>
    have hstep := applyStockCall_bounds p call h0 h1
      (fun q hq => hr q (hq ▸ List.mem_cons_self _ _))
    have := ih (applyStockCall p call) hstep.1 hstep.2.1
      (fun q hq => by rw [hstep.2.2]; exact hr q (List.mem_cons_of_mem _ hq))
    exact ⟨this.1, this.2.1, this.2.2.trans hstep.2.2⟩

/-- The bounds hold after every call of a sequence, that is, after every
initial part of it, as long as `maxStockLevel + q` fits an `int` for every
`addStock(q)` in it. -/
theorem runStockCalls_take_bounds (p : Product) (calls : List StockCall)
    (h0 : 0 ≤ p.currentStock) (h1 : p.currentStock ≤ p.maxStockLevel)
    (hr : ∀ q, StockCall.addStock q ∈ calls → p.maxStockLevel + q ≤ INT_MAX) (n : Nat) :
    0 ≤ (runStockCalls p (calls.take n)).currentStock
      ∧ (runStockCalls p (calls.take n)).currentStock ≤ p.maxStockLevel
      ∧ (runStockCalls p (calls.take n)).maxStockLevel = p.maxStockLevel := by
  have hb := runStockCalls_bounds p (calls.take n) h0 h1
    (fun q hq => hr q (List.mem_of_mem_take hq))
  exact ⟨hb.1, hb.2.2 ▸ hb.2.1, hb.2.2⟩

/-- The worked sequence `addStock(2000)`, `reduceStock(7)`, `reduceStock(5000)`,
`addStock(-3)` on stock 5 with ceiling 1000 gives 1000, 993, 993 and 993. -/
theorem runStockCalls_example :
    [1, 2, 3, 4].map (fun n =>
        (runStockCalls (exampleRegular 5) (exampleStockCalls.take n)).currentStock)
        = [1000, 993, 993, 993] := by
  simp +decide [runStockCalls, exampleStockCalls, applyStockCall, Product.addStock,
    Product.reduceStock, exampleRegular, wrapInt]

/-- C20 (the code at the failing input): a product with stock 50 and ceiling
1000 satisfies `0 <= currentStock <= maxStockLevel`; the single call
`addStock(2147483647)` forms `currentStock += quantity` in an `int` before it
compares with `maxStockLevel`, the sum wraps to -2147483599, the comparison
fails and the stock stays negative. -/
theorem C20_addStock_overflow_leaves_negative_stock :
    0 ≤ (exampleRegular 50).currentStock
      ∧ (exampleRegular 50).currentStock ≤ (exampleRegular 50).maxStockLevel
      ∧ (runStockCalls (exampleRegular 50) [.addStock 2147483647]).currentStock
          = -2147483599
      ∧ ¬ (0 ≤ (runStockCalls (exampleRegular 50) [.addStock 2147483647]).currentStock) := by
  simp +decide [runStockCalls, applyStockCall, Product.addStock, exampleRegular, wrapInt]

/-! ## Lines of reachable transactions -/

theorem calculateTotals_items (h : Heap) (tx : Transaction) (t : ℚ) :
    (tx.calculateTotals h t).items = tx.items := by
  unfold Transaction.calculateTotals
  cases hc : tx.customer with
  | none => simp only []
  | some c => simp only []; split_ifs <;> rfl

theorem applyLoyaltyPoints_items (h : Heap) (tx : Transaction) (points : ℚ) :
    (tx.applyLoyaltyPoints h points).2.items = tx.items := by
  unfold Transaction.applyLoyaltyPoints
  cases tx.customer with
  | none => rfl
  | some c =>
    simp only []
    split_ifs <;> rfl

theorem processPayment_items (tx : Transaction) (method : PaymentMethod) (amountPaid : ℚ) :
    (tx.processPayment method amountPaid).2.items = tx.items := by
  unfold Transaction.processPayment
  by_cases h1 : tx.finalTotal ≤ 0
  · simp [h1]
  · by_cases h2 : method = .CASH ∧ amountPaid < tx.finalTotal
    · simp [h1, h2]
    · simp [h1, h2]

theorem finalizeTransaction_items (h : Heap) (tx : Transaction) :
    (tx.finalizeTransaction h).2.items = tx.items := by
  by_cases hp : tx.status = .PENDING
  · rw [finalizeTransaction_snd h tx hp]
  · rw [finalizeTransaction_not_pending h tx hp]

theorem processRefund_items (h : Heap) (tx : Transaction) (amount : ℚ) :
    (tx.processRefund h amount).2.2.items = tx.items := by
  by_cases hc : tx.status = .COMPLETED
  · unfold Transaction.processRefund
    simp only [hc, ne_eq, not_true_eq_false, if_false]
    split_ifs <;> rfl
  · rw [processRefund_not_completed h tx amount hc]

theorem addItem_false_items (h : Heap) (tx : Transaction) (product : Option Nat)
    (quantity discount : ℚ) (notes : String)
    (hb : (tx.addItem h product quantity discount notes).1 = false) :
    (tx.addItem h product quantity discount notes).2.items = tx.items := by
  unfold Transaction.addItem at hb ⊢
  cases product with
  | none => rfl
  | some a =>
    simp only [] at hb ⊢
    split_ifs at hb ⊢ <;> rfl

/-- Every line that `addItem`, `removeItem` and the other operations leave in a
transaction has a positive quantity, if the lines before the call have. -/
theorem applyOp_items_positive (s : Heap × Transaction) (op : TransactionOp)
    (hinv : ∀ it ∈ s.2.items, 0 < it.quantity) :
    ∀ it ∈ (applyOp s op).2.items, 0 < it.quantity := by
  cases op with
  | addItem product quantity discount notes =>
    intro it hit
    simp only [applyOp] at hit
    cases hb : (s.2.addItem s.1 product quantity discount notes).1 with
    | false =>
      have hsame := addItem_false_items s.1 s.2 product quantity discount notes hb
      rw [hsame] at hit
      exact hinv it hit
    | true =>
      cases product with
      | none => simp [Transaction.addItem] at hb
      | some a =>
        have hq : 0 < quantity := by
          by_contra hneg
          have hle : quantity ≤ 0 := not_lt.mp hneg
          simp [Transaction.addItem, hle] at hb
        have hitems : (s.2.addItem s.1 (some a) quantity discount notes).2.items
            = s.2.items ++ [TransactionItem.new s.1 (some a) quantity discount notes] := by
          unfold Transaction.addItem at hb ⊢
          simp only [] at hb ⊢
          split_ifs at hb ⊢
          rfl
        rw [hitems, List.mem_append] at hit
        rcases hit with hit | hit
        · exact hinv it hit
        · rw [List.mem_singleton] at hit
          rw [hit, new_some]
          exact hq
  | removeItem i =>
    intro it hit
    simp only [applyOp, Transaction.removeItem] at hit
    split_ifs at hit
    · exact hinv it (List.mem_of_mem_eraseIdx hit)
    · exact hinv it hit
  | clearItems =>
    intro it hit
    simp [applyOp, Transaction.clearItems] at hit
  | calculateTotals t =>
    intro it hit
    simp only [applyOp, calculateTotals_items] at hit
    exact hinv it hit
  | applyLoyaltyPoints points =>
    intro it hit
    simp only [applyOp, applyLoyaltyPoints_items] at hit
    exact hinv it hit
  | processPayment method amountPaid =>
    intro it hit
    simp only [applyOp, processPayment_items] at hit
    exact hinv it hit
  | finalizeTransaction =>
    intro it hit
    simp only [applyOp, finalizeTransaction_items] at hit
    exact hinv it hit
  | processRefund amount =>
    intro it hit
    simp only [applyOp, processRefund_items] at hit
    exact hinv it hit

/-- In every transaction reached from a new one by a sequence of operations,
every line has a positive quantity. -/
theorem runOps_new_items_positive (h : Heap) (transactionId : Int) (customer : Option Nat)
    (cashierId : String) (timestamp : Int) (ops : List TransactionOp) :
    ∀ it ∈ (runOps (h, Transaction.new transactionId customer cashierId timestamp) ops).2.items,
      0 < it.quantity := by
  induction ops using List.reverseRecOn with
  | nil =>
    intro it hit
    simp [runOps, Transaction.new] at hit
  | append_singleton ops op ih =>
    rw [runOps_append_singleton]
    exact applyOp_items_positive _ op ih

/-! ## C21 -/

/-- C21: `reduceStock(q)` returns true exactly when `q > 0` and
`q <= currentStock`; when it returns true the new stock is `currentStock - q`
and nothing else changes; when it returns false (in particular whenever
`q > currentStock`) the product is unchanged. -/
theorem C21_reduceStock_result (p : Product) (q : Int) :
    ((p.reduceStock q).1 = true ↔ (q > 0 ∧ q ≤ p.currentStock))
      ∧ ((p.reduceStock q).1 = true →
          (p.reduceStock q).2 = { p with currentStock := p.currentStock - q })
      ∧ ((p.reduceStock q).1 = false → (p.reduceStock q).2 = p)
      ∧ (q > p.currentStock →
          (p.reduceStock q).1 = false
            ∧ ((p.reduceStock q).2).currentStock = p.currentStock) := by
  unfold Product.reduceStock
  by_cases hq : p.currentStock ≥ q ∧ q > 0
  · have h1 : q > 0 ∧ q ≤ p.currentStock := ⟨hq.2, hq.1⟩
    have h2 : ¬ (q > p.currentStock) := not_lt.mpr hq.1
    simp [hq, h1, h2]
  · have h1 : ¬ (q > 0 ∧ q ≤ p.currentStock) := fun h => hq ⟨h.2, h.1⟩
    simp [hq, h1]

/-- C21 (worked example): with stock 50, `reduceStock(3)` returns true and
leaves 47; `reduceStock(51)`, `reduceStock(0)` and `reduceStock(-2)` return
false and leave 50. -/
theorem C21_reduceStock_result_witness :
    ((exampleRegular 50).reduceStock 3).1 = true
      ∧ (((exampleRegular 50).reduceStock 3).2).currentStock = 47
      ∧ ((exampleRegular 50).reduceStock 51).1 = false
      ∧ (((exampleRegular 50).reduceStock 51).2).currentStock = 50
      ∧ ((exampleRegular 50).reduceStock 0).1 = false
      ∧ ((exampleRegular 50).reduceStock (-2)).1 = false := by
  have k3 := C21_reduceStock_result (exampleRegular 50) 3
  have k51 := C21_reduceStock_result (exampleRegular 50) 51
  have t3 : ((exampleRegular 50).reduceStock 3).1 = true :=
    k3.1.mpr ⟨by decide, by simp [exampleRegular]⟩
  have f51 := k51.2.2.2 (by simp [exampleRegular])
  refine ⟨t3, ?_, f51.1, ?_, ?_, ?_⟩
  · rw [k3.2.1 t3]
    simp [exampleRegular]
  · rw [f51.2]
    simp [exampleRegular]
  · simp [Product.reduceStock]
  · simp [Product.reduceStock]

/-! ## C22 -/

/-- Method `addStock(q)` with `q > 0` sets `currentStock` to
`min(currentStock + q, maxStockLevel)` and changes nothing else as long as
`currentStock + q` fits an `int`; with `q <= 0` it leaves the product
unchanged. -/
theorem addStock_result_of_range (p : Product) (q : Int) :
    (q > 0 → INT_MIN ≤ p.currentStock + q → p.currentStock + q ≤ INT_MAX →
        p.addStock q
          = { p with currentStock := min (p.currentStock + q) p.maxStockLevel })
      ∧ (q ≤ 0 → p.addStock q = p) := by
  unfold Product.addStock
  refine ⟨fun hq hlo hhi => ?_, fun hq => ?_⟩
  · rw [wrapInt_of_range _ hlo hhi]
    by_cases hgt : p.currentStock + q > p.maxStockLevel
    · simp only [hq, if_true, hgt, min_eq_right (le_of_lt hgt)]
    · simp only [hq, if_true, hgt, if_false, min_eq_left (not_lt.mp hgt)]
  · have hn : ¬ (q > 0) := not_lt.mpr hq
    simp only [hn, if_false]

/-- With stock 50 and ceiling 1000, `addStock(20)` gives 70, `addStock(2000)`
gives 1000, and `addStock(0)` and `addStock(-5)` leave 50. -/
theorem addStock_example :
    ((exampleRegular 50).addStock 20).currentStock = 70
      ∧ ((exampleRegular 50).addStock 2000).currentStock = 1000
      ∧ (exampleRegular 50).addStock 0 = exampleRegular 50
      ∧ (exampleRegular 50).addStock (-5) = exampleRegular 50 := by
  simp +decide [Product.addStock, exampleRegular, wrapInt]

/-- C22 (the code at the failing input): with stock 50 and ceiling 1000,
`addStock(2147483647)` has `q > 0` and `min(currentStock + q, maxStockLevel)` is
1000, but the `int` sum `currentStock += quantity` wraps to -2147483599 before
the comparison with `maxStockLevel`, and that is the stock the call leaves. -/
theorem C22_addStock_overflow_misses_the_cap :
    (2147483647 : Int) > 0
      ∧ min ((exampleRegular 50).currentStock + 2147483647)
          (exampleRegular 50).maxStockLevel = 1000
      ∧ ((exampleRegular 50).addStock 2147483647).currentStock = -2147483599
      ∧ ((exampleRegular 50).addStock 2147483647).currentStock
          ≠ min ((exampleRegular 50).currentStock + 2147483647)
              (exampleRegular 50).maxStockLevel := by
  simp +decide [Product.addStock, exampleRegular, wrapInt]

/-! ## C23 -/

/-- C23: for every Bulk product (price per unit and minimum quantity
arbitrary) and every quantity `q`,
`calculatePriceForQuantity(q) = pricePerUnit * max(q, minimumQuantity)`; in
particular for every `q < minimumQuantity` it equals
`calculatePriceForQuantity(minimumQuantity)`.  Worked example: at 4 per kg
with minimum 1/2, the quantities 3/10 and 1/2 both cost 2 and 3/4 costs 3. -/
theorem C23_bulk_price_clamps_quantity :
    (∀ pricePerUnit minimumQuantity q : ℚ,
        Product.calculatePriceForQuantity pricePerUnit minimumQuantity q
          = pricePerUnit * max q minimumQuantity)
      ∧ (∀ pricePerUnit minimumQuantity q : ℚ, q < minimumQuantity →
          Product.calculatePriceForQuantity pricePerUnit minimumQuantity q
            = Product.calculatePriceForQuantity pricePerUnit minimumQuantity minimumQuantity)
      ∧ (Product.calculatePriceForQuantity 4 (1 / 2) (3 / 10) = 2
          ∧ Product.calculatePriceForQuantity 4 (1 / 2) (1 / 2) = 2
          ∧ Product.calculatePriceForQuantity 4 (1 / 2) (3 / 4) = 3) := by
  refine ⟨fun ppu m q => ?_, fun ppu m q hq => ?_, ?_⟩
  · unfold Product.calculatePriceForQuantity
    by_cases hq : q < m
    · simp only [hq, if_true, max_eq_right (le_of_lt hq)]
    · simp only [hq, if_false, max_eq_left (not_lt.mp hq)]
  · unfold Product.calculatePriceForQuantity
    simp only [hq, if_true, lt_self_iff_false, if_false]
  · unfold Product.calculatePriceForQuantity
    norm_num

/-! ## C24 -/

/-- C24: for every customer and every amount (positive, zero or negative),
`addPurchase(amount)` adds `amount` to `totalSpent`, raises `transactionCount`
by exactly 1 and adds `amount * 0.01 * m` to the loyalty balance, where `m` is
1.0 for Regular, 1.5 for Premium, 2.0 for VIP and 3.0 for Employee; no other
field changes.  Worked example: a VIP customer with `addPurchase(100)` then
`addPurchase(-50)` has spent 50 in 2 transactions and holds 1 point. -/
theorem C24_addPurchase_effects :
    (∀ (c : Customer) (amount : ℚ),
        c.addPurchase amount
          = { c with
                totalSpent := c.totalSpent + amount,
                transactionCount := c.transactionCount + 1,
                loyaltyPoints :=
                  c.loyaltyPoints + amount * (1 / 100) * specTierMultiplier c.type })
      ∧ (((exampleCustomer .VIP 0).addPurchase 100).addPurchase (-50)).totalSpent = 50
      ∧ (((exampleCustomer .VIP 0).addPurchase 100).addPurchase (-50)).transactionCount = 2
      ∧ (((exampleCustomer .VIP 0).addPurchase 100).addPurchase (-50)).loyaltyPoints = 1 := by
  refine ⟨fun c amount => ?_, ?_, ?_, ?_⟩
  · simp only [Customer.addPurchase, Customer.addLoyaltyPoints, pointsMultiplier_eq_spec]
  · norm_num [Customer.addPurchase, Customer.addLoyaltyPoints, exampleCustomer]
  · norm_num [Customer.addPurchase, Customer.addLoyaltyPoints, exampleCustomer]
  · norm_num [Customer.addPurchase, Customer.addLoyaltyPoints, exampleCustomer,
      Customer.pointsMultiplier]

/-! ## C25 -/

/-- C25: `redeemLoyaltyPoints(p)` returns true exactly when the loyalty balance
is at least `p`; when it returns true the balance is lowered by `p` and nothing
else changes; when it returns false no field of the customer changes. -/
theorem C25_redeemLoyaltyPoints_result (c : Customer) (p : ℚ) :
    ((c.redeemLoyaltyPoints p).1 = true ↔ c.loyaltyPoints ≥ p)
      ∧ ((c.redeemLoyaltyPoints p).1 = true →
          (c.redeemLoyaltyPoints p).2 = { c with loyaltyPoints := c.loyaltyPoints - p })
      ∧ ((c.redeemLoyaltyPoints p).1 = false → (c.redeemLoyaltyPoints p).2 = c) := by
  unfold Customer.redeemLoyaltyPoints
  by_cases hp : c.loyaltyPoints ≥ p
  · simp [hp]
  · simp [hp]

/-- C25 (worked example): with balance 5, `redeemLoyaltyPoints(3)` returns true
and leaves 2, `redeemLoyaltyPoints(6)` returns false and leaves the customer
unchanged. -/
theorem C25_redeemLoyaltyPoints_result_witness :
    ((exampleCustomer .REGULAR 5).redeemLoyaltyPoints 3).1 = true
      ∧ (((exampleCustomer .REGULAR 5).redeemLoyaltyPoints 3).2).loyaltyPoints = 2
      ∧ ((exampleCustomer .REGULAR 5).redeemLoyaltyPoints 6).1 = false
      ∧ ((exampleCustomer .REGULAR 5).redeemLoyaltyPoints 6).2 = exampleCustomer .REGULAR 5 := by
  have k3 := C25_redeemLoyaltyPoints_result (exampleCustomer .REGULAR 5) 3
  have k6 := C25_redeemLoyaltyPoints_result (exampleCustomer .REGULAR 5) 6
  have t3 : ((exampleCustomer .REGULAR 5).redeemLoyaltyPoints 3).1 = true :=
    k3.1.mpr (by norm_num [exampleCustomer])
  have f6 : ((exampleCustomer .REGULAR 5).redeemLoyaltyPoints 6).1 = false := by
    cases hb : ((exampleCustomer .REGULAR 5).redeemLoyaltyPoints 6).1 with
    | false => rfl
    | true =>
      have hge := k6.1.mp hb
      norm_num [exampleCustomer] at hge
  refine ⟨t3, ?_, f6, k6.2.2 f6⟩
  rw [k3.2.1 t3]
  norm_num [exampleCustomer]

/-! ## C26 -/

/-- C26 (counterexample): the cart of one line of 2 units is finalized, so its
status is COMPLETED and it has one line; `clearItems()` then empties the line
list and `removeItem(0)` returns true and removes the line: the line list is
not left unchanged. -/
theorem C26_counterexample_completed_cart :
    (exampleCompleted (exampleStore 50 .REGULAR 0)).2.status = .COMPLETED
      ∧ (exampleCompleted (exampleStore 50 .REGULAR 0)).2.items.length = 1
      ∧ (exampleCompleted (exampleStore 50 .REGULAR 0)).2.clearItems.items = []
      ∧ (exampleCompleted (exampleStore 50 .REGULAR 0)).2.clearItems.items
          ≠ (exampleCompleted (exampleStore 50 .REGULAR 0)).2.items
      ∧ ((exampleCompleted (exampleStore 50 .REGULAR 0)).2.removeItem 0).1 = true
      ∧ ((exampleCompleted (exampleStore 50 .REGULAR 0)).2.removeItem 0).2.items = []
      ∧ ((exampleCompleted (exampleStore 50 .REGULAR 0)).2.removeItem 0).2.items
          ≠ (exampleCompleted (exampleStore 50 .REGULAR 0)).2.items := by
  simp +decide [exampleCompleted, exampleTotals, exampleStore, exampleCart,
    Transaction.calculateTotals, Transaction.addItem, Transaction.new, exampleHeap,
    exampleRegular, Transaction.belowBulkMinimum, Transaction.finalizeTransaction,
    Transaction.clearItems, Transaction.removeItem]

/-- C26 (amended): `removeItem` and `clearItems` do not look at the status.  On
every transaction, PENDING or not, `removeItem(i)` returns true and erases the
line at index `i` when `0 <= i < number of lines`, and returns false leaving
the transaction unchanged otherwise; `clearItems()` empties the line list;
neither changes the status.  So the line list is left unchanged by
`removeItem(i)` exactly when `i` is out of range and by `clearItems()` exactly
when there is no line. -/
theorem C26_remove_and_clear_ignore_status (tx : Transaction) (i : Int) :
    ((0 ≤ i ∧ i < (tx.items.length : Int)) →
        tx.removeItem i = (true, { tx with items := tx.items.eraseIdx i.toNat }))
      ∧ (¬ (0 ≤ i ∧ i < (tx.items.length : Int)) → tx.removeItem i = (false, tx))
      ∧ ((tx.removeItem i).2.items = tx.items ↔ ¬ (0 ≤ i ∧ i < (tx.items.length : Int)))
      ∧ tx.clearItems.items = []
      ∧ (tx.clearItems.items = tx.items ↔ tx.items = [])
      ∧ (tx.removeItem i).2.status = tx.status
      ∧ tx.clearItems.status = tx.status := by
  have hin : (0 ≤ i ∧ i < (tx.items.length : Int)) →
      tx.removeItem i = (true, { tx with items := tx.items.eraseIdx i.toNat }) := by
    intro hr
    unfold Transaction.removeItem
    have hr' : i ≥ 0 ∧ i < (tx.items.length : Int) := hr
    simp only [hr', and_self, if_true]
  have hout : ¬ (0 ≤ i ∧ i < (tx.items.length : Int)) → tx.removeItem i = (false, tx) := by
    intro hr
    unfold Transaction.removeItem
    have hr' : ¬ (i ≥ 0 ∧ i < (tx.items.length : Int)) := hr
    simp only [hr', if_false]
  refine ⟨hin, hout, ?_, rfl, ?_, removeItem_status tx i, rfl⟩
  · constructor
    · intro hsame hr
      rw [hin hr] at hsame
      have hlen := congrArg List.length hsame
      have hlt : i.toNat < tx.items.length := by omega
      simp only [List.length_eraseIdx_of_lt hlt] at hlen
      omega
    · intro hr
      rw [hout hr]
  · constructor
    · intro h
      exact h.symm
    · intro h
      rw [h]
      rfl

/-! ## C27 -/

/-- C27: for every Perishable product, `calculateSellingPrice` returns
`basePrice * (1 - discountRate)` when the value of `getDaysUntilExpiration` is
at most `0.2 * shelfLifeDays`, and `basePrice` otherwise; the stored expiration
date enters only through that value, so replacing the date by any other leaves
the price unchanged whenever `getDaysUntilExpiration` is unchanged (in the
source it always returns 5). -/
theorem C27_perishable_selling_price (p : Product) (expirationDate : String)
    (shelfLifeDays : Int) (discountRate : ℚ)
    (hk : p.kind = .perishable expirationDate shelfLifeDays discountRate) :
    p.calculateSellingPrice
        = (if (p.getDaysUntilExpiration : ℚ) ≤ (2 / 10) * (shelfLifeDays : ℚ) then
            p.basePrice * (1 - discountRate)
          else p.basePrice)
      ∧ (∀ otherDate : String,
          ({ p with kind := .perishable otherDate shelfLifeDays discountRate }
              : Product).getDaysUntilExpiration = p.getDaysUntilExpiration →
          ({ p with kind := .perishable otherDate shelfLifeDays discountRate }
              : Product).calculateSellingPrice = p.calculateSellingPrice)
      ∧ p.getDaysUntilExpiration = 5 := by
  refine ⟨?_, fun otherDate _ => ?_, rfl⟩
  · unfold Product.calculateSellingPrice Product.isNearExpiration
    simp only [hk, decide_eq_true_eq, mul_comm]
  · unfold Product.calculateSellingPrice Product.isNearExpiration
      Product.getDaysUntilExpiration
    simp only [hk]

/-- C27 (worked example): base price 5 and discount 20%; with a shelf life of
30 days (5 <= 6) the selling price is 4, with a shelf life of 10 days (5 > 2)
it is 5. -/
theorem C27_perishable_selling_price_witness :
    (examplePerishable 30).calculateSellingPrice = 4
      ∧ (examplePerishable 10).calculateSellingPrice = 5 := by
  constructor
  · rw [(C27_perishable_selling_price (examplePerishable 30) "2025-09-01" 30 (2 / 10) rfl).1]
    norm_num [examplePerishable, Product.getDaysUntilExpiration]
  · rw [(C27_perishable_selling_price (examplePerishable 10) "2025-09-01" 10 (2 / 10) rfl).1]
    norm_num [examplePerishable, Product.getDaysUntilExpiration]

/-! ## C28 -/

theorem processPayment_snd (tx : Transaction) (method : PaymentMethod) (amountPaid : ℚ) :
    (tx.processPayment method amountPaid).2 = tx
      ∨ (tx.processPayment method amountPaid).2 = { tx with paymentMethod := method } := by
  unfold Transaction.processPayment
  by_cases h1 : tx.finalTotal ≤ 0
  · simp [h1]
  · by_cases h2 : method = .CASH ∧ amountPaid < tx.finalTotal
    · simp [h1, h2]
    · simp [h1, h2]

theorem finalizeTransaction_paymentMethod (h : Heap) (tx : Transaction)
    (method : PaymentMethod) :
    (Transaction.finalizeTransaction h { tx with paymentMethod := method }).1
        = (tx.finalizeTransaction h).1
      ∧ (Transaction.finalizeTransaction h { tx with paymentMethod := method }).2.status
        = (tx.finalizeTransaction h).2.status := by
  unfold Transaction.finalizeTransaction
  by_cases hp : tx.status = .PENDING
  · simp [hp]
  · simp [hp]

/-- C28: completion does not depend on payment.  For every PENDING transaction,
with or without computed totals, `finalizeTransaction` sets the status to
COMPLETED, runs the stock reduction for every line and, when a customer is
attached, `addPurchase(finalTotal)`, the redemption of `loyaltyPointsUsed` and
`addLoyaltyPoints(loyaltyPointsEarned)`; and a `processPayment` call before it,
whether it returned true or false, changes neither these heap effects nor the
resulting status. -/
theorem C28_finalize_independent_of_payment (h : Heap) (tx : Transaction)
    (hp : tx.status = .PENDING) :
    (tx.finalizeTransaction h).2.status = .COMPLETED
      ∧ (∀ a : Nat, (tx.finalizeTransaction h).1.products a
          = tx.items.foldl (reduceAt a) (h.products a))
      ∧ (∀ c : Nat, tx.customer = some c →
          (tx.finalizeTransaction h).1.customers c
            = ((if tx.loyaltyPointsUsed > 0 then
                  (((h.customers c).addPurchase tx.finalTotal).redeemLoyaltyPoints
                    tx.loyaltyPointsUsed).2
                else (h.customers c).addPurchase tx.finalTotal).addLoyaltyPoints
                  tx.loyaltyPointsEarned))
      ∧ (∀ (method : PaymentMethod) (amountPaid : ℚ),
          ((tx.processPayment method amountPaid).2.finalizeTransaction h).1
              = (tx.finalizeTransaction h).1
            ∧ ((tx.processPayment method amountPaid).2.finalizeTransaction h).2.status
              = .COMPLETED)
      ∧ (∀ t : ℚ, ((tx.calculateTotals h t).finalizeTransaction h).2.status = .COMPLETED
            ∧ ∀ a : Nat, ((tx.calculateTotals h t).finalizeTransaction h).1.products a
                = (tx.finalizeTransaction h).1.products a) := by
  have hst : (tx.finalizeTransaction h).2.status = .COMPLETED := by
    rw [finalizeTransaction_snd h tx hp]
  refine ⟨hst, fun a => finalizeTransaction_products h tx a hp,
    fun c hc => finalizeTransaction_customer h tx c hp hc, fun method amountPaid => ?_,
    fun t => ?_⟩
  · rcases processPayment_snd tx method amountPaid with e | e
    · rw [e]
      exact ⟨rfl, hst⟩
    · rw [e]
      have k := finalizeTransaction_paymentMethod h tx method
      exact ⟨k.1, k.2.trans hst⟩
  · have hpt : (tx.calculateTotals h t).status = .PENDING := by
      rw [calculateTotals_status, hp]
    refine ⟨by rw [finalizeTransaction_snd h _ hpt], fun a => ?_⟩
    rw [finalizeTransaction_products h _ a hpt, finalizeTransaction_products h tx a hp,
      calculateTotals_items]

/-- C28 (worked example): a cart of 3 units on which `calculateTotals` was
never called has `finalTotal = 0`, so `processPayment(CASH, 100)` returns
false; `finalizeTransaction` still sets COMPLETED and lowers the stock from 50
to 47. -/
theorem C28_finalize_independent_of_payment_witness :
    (exampleCart (exampleStore 50 .REGULAR 0) none 3).status = .PENDING
      ∧ ((exampleCart (exampleStore 50 .REGULAR 0) none 3).processPayment .CASH 100).1 = false
      ∧ (((exampleCart (exampleStore 50 .REGULAR 0) none 3).processPayment
            .CASH 100).2.finalizeTransaction (exampleStore 50 .REGULAR 0)).2.status
          = .COMPLETED
      ∧ ((((exampleCart (exampleStore 50 .REGULAR 0) none 3).processPayment
            .CASH 100).2.finalizeTransaction
              (exampleStore 50 .REGULAR 0)).1.products 0).currentStock = 47 := by
  have hp : (exampleCart (exampleStore 50 .REGULAR 0) none 3).status = .PENDING := by
    simp +decide [exampleStore, exampleCart, Transaction.addItem, Transaction.new,
      exampleHeap, exampleRegular, Transaction.belowBulkMinimum]
  have hpay : ((exampleCart (exampleStore 50 .REGULAR 0) none 3).processPayment
      .CASH 100).1 = false := by
    simp +decide [exampleStore, exampleCart, Transaction.addItem, Transaction.new,
      exampleHeap, exampleRegular, Transaction.belowBulkMinimum,
      Transaction.processPayment]
  have key := C28_finalize_independent_of_payment (exampleStore 50 .REGULAR 0)
    (exampleCart (exampleStore 50 .REGULAR 0) none 3) hp
  refine ⟨hp, hpay, (key.2.2.2.1 .CASH 100).2, ?_⟩
  rw [(key.2.2.2.1 .CASH 100).1]
  simp +decide [exampleStore, exampleCart, Transaction.addItem, Transaction.new,
    exampleHeap, exampleRegular, Transaction.belowBulkMinimum, TransactionItem.new,
    TransactionItem.calculateSubtotal, Product.calculateSellingPrice,
    Transaction.finalizeTransaction, Transaction.reduceStep, Product.reduceStock]

/-! ## C29 -/

/-- C29: negative refund amounts are accepted.  For every COMPLETED transaction
with `finalTotal > 0` and every amount `a < 0` other than the sentinel `-1.0`,
`processRefund(a)` returns true, sets the status to PARTIALLY_REFUNDED, runs the
restocking loop over every line and, when a customer is attached, raises the
customer's `totalSpent` by `|a|`; and `processRefund(-1.0)` is, on every
transaction, the same as `processRefund(finalTotal)`. -/
theorem C29_negative_refund_accepted (h : Heap) (tx : Transaction) (a : ℚ)
    (hc : tx.status = .COMPLETED) (hft : 0 < tx.finalTotal) (ha : a < 0) (hne : a ≠ -1) :
    (tx.processRefund h a).1 = true
      ∧ (tx.processRefund h a).2.2.status = .PARTIALLY_REFUNDED
      ∧ (∀ p : Nat, (tx.processRefund h a).2.1.products p
          = tx.items.foldl (restockAt p) (h.products p))
      ∧ (∀ c : Nat, tx.customer = some c →
          ((tx.processRefund h a).2.1.customers c).totalSpent
            = (h.customers c).totalSpent + |a|)
      ∧ (∀ (h0 : Heap) (tx0 : Transaction),
          tx0.processRefund h0 (-1) = tx0.processRefund h0 tx0.finalTotal) := by
  have hle : ¬ (a > tx.finalTotal) := by
    intro hgt
    linarith
  have hnge : ¬ (a ≥ tx.finalTotal) := by
    intro hge
    linarith
  have hok : (tx.processRefund h a).1 = true := by
    unfold Transaction.processRefund
    simp [hc, hne, hle, hnge]
  have hamount : specRefundAmount tx a = a := by
    simp [specRefundAmount, hne]
  refine ⟨hok, ?_, fun p => processRefund_products h tx a p hok, fun c hcust => ?_,
    fun h0 tx0 => ?_⟩
  · unfold Transaction.processRefund
    simp [hc, hne, hle, hnge]
  · rw [processRefund_customer h tx a c hcust hok, hamount, abs_of_neg ha]
    split_ifs
    · rw [redeemLoyaltyPoints_totalSpent, addPurchase_totalSpent]
    · rw [addPurchase_totalSpent]
  · unfold Transaction.processRefund
    by_cases hm : tx0.finalTotal = -1
    · simp [hm]
    · simp [hm]

/-- C29 (worked example): a VIP customer's purchase of 2 units is completed
(`finalTotal = 19.44`, `totalSpent = 19.44`, stock 48); `processRefund(-5)`
returns true, sets PARTIALLY_REFUNDED, brings the stock back to 50 and raises
`totalSpent` to 24.44. -/
theorem C29_negative_refund_accepted_witness :
    (exampleCompletedFor (exampleStore 50 .VIP 0) (some 0)).2.status = .COMPLETED
      ∧ (exampleCompletedFor (exampleStore 50 .VIP 0) (some 0)).2.finalTotal = 1944 / 100
      ∧ ((exampleCompletedFor (exampleStore 50 .VIP 0) (some 0)).1.customers 0).totalSpent
          = 1944 / 100
      ∧ ((exampleCompletedFor (exampleStore 50 .VIP 0) (some 0)).2.processRefund
          (exampleCompletedFor (exampleStore 50 .VIP 0) (some 0)).1 (-5)).1 = true
      ∧ ((exampleCompletedFor (exampleStore 50 .VIP 0) (some 0)).2.processRefund
          (exampleCompletedFor (exampleStore 50 .VIP 0) (some 0)).1 (-5)).2.2.status
          = .PARTIALLY_REFUNDED
      ∧ (((exampleCompletedFor (exampleStore 50 .VIP 0) (some 0)).2.processRefund
          (exampleCompletedFor (exampleStore 50 .VIP 0) (some 0)).1
            (-5)).2.1.products 0).currentStock = 50
      ∧ (((exampleCompletedFor (exampleStore 50 .VIP 0) (some 0)).2.processRefund
          (exampleCompletedFor (exampleStore 50 .VIP 0) (some 0)).1
            (-5)).2.1.customers 0).totalSpent = 2444 / 100 := by
  have hst : (exampleCompletedFor (exampleStore 50 .VIP 0) (some 0)).2.status
      = .COMPLETED := by
    simp +decide [exampleCompletedFor, exampleTotals, exampleStore, exampleCart,
      Transaction.calculateTotals, Transaction.addItem, Transaction.new, exampleHeap,
      exampleCustomer, Transaction.finalizeTransaction]
  have hcust : (exampleCompletedFor (exampleStore 50 .VIP 0) (some 0)).2.customer
      = some 0 := by
    simp +decide [exampleCompletedFor, exampleTotals, exampleStore, exampleCart,
      Transaction.calculateTotals, Transaction.addItem, Transaction.new, exampleHeap,
      exampleCustomer, Transaction.finalizeTransaction]
  have hft : (exampleCompletedFor (exampleStore 50 .VIP 0) (some 0)).2.finalTotal
      = 1944 / 100 := by
    simp +decide [exampleCompletedFor, exampleTotals, exampleStore, exampleCart,
      Transaction.calculateTotals, Transaction.addItem, Transaction.new, exampleHeap,
      exampleRegular, Transaction.belowBulkMinimum, TransactionItem.new,
      TransactionItem.calculateSubtotal, Transaction.totalsStep,
      Product.calculateSellingPrice, exampleCustomer, Customer.getDiscountRate,
      Transaction.finalizeTransaction]
    norm_num
  have hitems : (exampleCompletedFor (exampleStore 50 .VIP 0) (some 0)).2.items =
      [{ product := some 0, quantity := 2, unitPrice := 10, discount := 0,
         subtotal := 20, notes := "" }] := by
    simp +decide [exampleCompletedFor, exampleTotals, exampleStore, exampleCart,
      Transaction.calculateTotals, Transaction.addItem, Transaction.new, exampleHeap,
      exampleRegular, Transaction.belowBulkMinimum, TransactionItem.new,
      TransactionItem.calculateSubtotal, Product.calculateSellingPrice, exampleCustomer,
      Transaction.finalizeTransaction]
    norm_num
  have hprod : (exampleCompletedFor (exampleStore 50 .VIP 0) (some 0)).1.products 0
      = exampleRegular 48 := by
    simp +decide [exampleCompletedFor, exampleTotals, exampleStore, exampleCart,
      Transaction.calculateTotals, Transaction.addItem, Transaction.new, exampleHeap,
      exampleRegular, Transaction.belowBulkMinimum, TransactionItem.new,
      TransactionItem.calculateSubtotal, Product.calculateSellingPrice, exampleCustomer,
      Transaction.finalizeTransaction, Transaction.reduceStep, Product.reduceStock]
  have hspent : ((exampleCompletedFor (exampleStore 50 .VIP 0) (some 0)).1.customers
      0).totalSpent = 1944 / 100 := by
    simp +decide [exampleCompletedFor, exampleTotals, exampleStore, exampleCart,
      Transaction.calculateTotals, Transaction.addItem, Transaction.new, exampleHeap,
      exampleRegular, Transaction.belowBulkMinimum, TransactionItem.new,
      TransactionItem.calculateSubtotal, Transaction.totalsStep,
      Product.calculateSellingPrice, exampleCustomer, Customer.getDiscountRate,
      Transaction.finalizeTransaction, reduceStep_customers, Customer.addPurchase,
      Customer.addLoyaltyPoints, Customer.redeemLoyaltyPoints]
    norm_num
  generalize exampleCompletedFor (exampleStore 50 .VIP 0) (some 0) = f
    at hst hcust hft hitems hprod hspent ⊢
  have key := C29_negative_refund_accepted f.1 f.2 (-5) hst (by rw [hft]; norm_num)
    (by norm_num) (by norm_num)
  refine ⟨hst, hft, hspent, key.1, key.2.1, ?_, ?_⟩
  · rw [key.2.2.1 0, hitems, hprod]
    simp [restockAt, Product.addStock, exampleRegular, ceilToInt, wrapInt, INT_MIN, INT_MAX]
  · rw [key.2.2.2.1 0 hcust, hspent]
    norm_num

/-! ## C30 -/

theorem calculateTotals_customer (h : Heap) (tx : Transaction) (t : ℚ) :
    (tx.calculateTotals h t).customer = tx.customer := by
  unfold Transaction.calculateTotals
  cases hc : tx.customer with
  | none => simp only []
  | some c => simp only []; split_ifs <;> rfl

theorem calculateTotals_loyaltyPointsUsed (h : Heap) (tx : Transaction) (t : ℚ) :
    (tx.calculateTotals h t).loyaltyPointsUsed = tx.loyaltyPointsUsed := by
  unfold Transaction.calculateTotals
  cases hc : tx.customer with
  | none => simp only []
  | some c => simp only []; split_ifs <;> rfl

theorem calculateTotals_loyaltyPointsEarned_nonneg (h : Heap) (tx : Transaction) (t : ℚ)
    (c : Nat) (hc : tx.customer = some c) (hft : 0 ≤ (tx.calculateTotals h t).finalTotal) :
    0 ≤ (tx.calculateTotals h t).loyaltyPointsEarned := by
  rw [calculateTotals_loyaltyPointsEarned h tx t c hc]
  apply mul_nonneg (mul_nonneg hft (by norm_num))
  split_ifs <;> norm_num

/-- The loyalty balance after `finalizeTransaction` followed by a full refund,
for any recorded `loyaltyPointsEarned >= 0`. -/
theorem finalize_refund_loyaltyPoints (h : Heap) (tx : Transaction) (c : Nat)
    (hp : tx.status = .PENDING) (hc : tx.customer = some c)
    (hft : 0 ≤ tx.finalTotal) (hu0 : 0 ≤ tx.loyaltyPointsUsed)
    (hub : tx.loyaltyPointsUsed ≤ (h.customers c).loyaltyPoints)
    (he : 0 ≤ tx.loyaltyPointsEarned) :
    (((tx.finalizeTransaction h).2.processRefund
        (tx.finalizeTransaction h).1 (-1)).2.1.customers c).loyaltyPoints
      = (h.customers c).loyaltyPoints - tx.loyaltyPointsUsed := by
  have hm : 0 ≤ specTierMultiplier (h.customers c).type := by
    unfold specTierMultiplier
    cases (h.customers c).type <;> norm_num
  have hacc : 0 ≤ tx.finalTotal * (1 / 100) * specTierMultiplier (h.customers c).type :=
    mul_nonneg (mul_nonneg hft (by norm_num)) hm
  have hcf : (tx.finalizeTransaction h).1.customers c
      = { h.customers c with
            totalSpent := (h.customers c).totalSpent + tx.finalTotal,
            transactionCount := (h.customers c).transactionCount + 1,
            loyaltyPoints := (h.customers c).loyaltyPoints
              + tx.finalTotal * (1 / 100) * specTierMultiplier (h.customers c).type
              - tx.loyaltyPointsUsed + tx.loyaltyPointsEarned } := by
    rw [finalizeTransaction_customer h tx c hp hc]
    by_cases hu : tx.loyaltyPointsUsed > 0
    · have hge : ((h.customers c).addPurchase tx.finalTotal).loyaltyPoints
          ≥ tx.loyaltyPointsUsed := by
        simp only [Customer.addPurchase, Customer.addLoyaltyPoints, pointsMultiplier_eq_spec]
        linarith
      simp only [hu, if_true, Customer.redeemLoyaltyPoints, hge]
      simp [Customer.addPurchase, Customer.addLoyaltyPoints, pointsMultiplier_eq_spec]
    · have hz : tx.loyaltyPointsUsed = 0 := le_antisymm (not_lt.mp hu) hu0
      simp only [hu, if_false]
      simp [Customer.addPurchase, Customer.addLoyaltyPoints, pointsMultiplier_eq_spec, hz]
  have hst : (tx.finalizeTransaction h).2.status = .COMPLETED := by
    rw [finalizeTransaction_snd h tx hp]
  have hcust : (tx.finalizeTransaction h).2.customer = some c := by
    rw [finalizeTransaction_snd h tx hp]
    exact hc
  have hft2 : (tx.finalizeTransaction h).2.finalTotal = tx.finalTotal := by
    rw [finalizeTransaction_snd h tx hp]
  have he2 : (tx.finalizeTransaction h).2.loyaltyPointsEarned = tx.loyaltyPointsEarned := by
    rw [finalizeTransaction_snd h tx hp]
  rw [processRefund_customer _ _ (-1) c hcust (processRefund_full_fst _ _ hst), hcf, he2]
  have hamount : specRefundAmount (tx.finalizeTransaction h).2 (-1) = tx.finalTotal := by
    simp [specRefundAmount, hft2]
  rw [hamount]
  by_cases hpos : tx.loyaltyPointsEarned > 0
  · rw [if_pos hpos]
    simp only [Customer.addPurchase, Customer.addLoyaltyPoints,
      pointsMultiplier_eq_spec, Customer.redeemLoyaltyPoints]
    have hge : (h.customers c).loyaltyPoints
        + tx.finalTotal * (1 / 100) * specTierMultiplier (h.customers c).type
        - tx.loyaltyPointsUsed + tx.loyaltyPointsEarned
        + -tx.finalTotal * (1 / 100) * specTierMultiplier (h.customers c).type
        ≥ tx.loyaltyPointsEarned := by
      linarith
    simp only [hge, if_true]
    ring
  · have hz : tx.loyaltyPointsEarned = 0 := le_antisymm (not_lt.mp hpos) he
    rw [if_neg hpos]
    simp only [Customer.addPurchase, Customer.addLoyaltyPoints, pointsMultiplier_eq_spec]
    linarith

/-- With exact arithmetic, points spent on a purchase are not returned by its
refund: for every PENDING transaction with an attached customer of balance `b`
on which `calculateTotals` has run, with `finalTotal > 0` and
`0 <= loyaltyPointsUsed <= b`, `finalizeTransaction` followed by a full
`processRefund()` leaves the customer's loyalty balance at
`b - loyaltyPointsUsed`. -/
theorem refund_keeps_points_spent_exact (h hTotals : Heap) (tx0 : Transaction) (t : ℚ)
    (c : Nat) (hp : tx0.status = .PENDING) (hc : tx0.customer = some c)
    (hft : 0 < (tx0.calculateTotals hTotals t).finalTotal)
    (hu0 : 0 ≤ tx0.loyaltyPointsUsed)
    (hub : tx0.loyaltyPointsUsed ≤ (h.customers c).loyaltyPoints) :
    ((((tx0.calculateTotals hTotals t).finalizeTransaction h).2.processRefund
        ((tx0.calculateTotals hTotals t).finalizeTransaction h).1 (-1)).2.1.customers
          c).loyaltyPoints
      = (h.customers c).loyaltyPoints - (tx0.calculateTotals hTotals t).loyaltyPointsUsed := by
  have hused := calculateTotals_loyaltyPointsUsed hTotals tx0 t
  exact finalize_refund_loyaltyPoints h (tx0.calculateTotals hTotals t) c
    (by rw [calculateTotals_status, hp]) (by rw [calculateTotals_customer, hc])
    (le_of_lt hft) (by rw [hused]; exact hu0) (by rw [hused]; exact hub)
    (calculateTotals_loyaltyPointsEarned_nonneg hTotals tx0 t c hc (le_of_lt hft))

/-! ## Lemmas on binary64 rounding -/

/-- A rational strictly within 1/2 of the integer `m` rounds to `m`. -/
theorem roundHalfEven_eq (x : ℚ) (m : Int) (h1 : (m : ℚ) - 1 / 2 < x)
    (h2 : x < (m : ℚ) + 1 / 2) : roundHalfEven x = m := by
  unfold roundHalfEven
  have hle : (Int.floor x : ℚ) ≤ x := Int.floor_le x
  have hlt : x < (Int.floor x : ℚ) + 1 := Int.lt_floor_add_one x
  have hf1 : Int.floor x ≤ m := by
    have h3 : ((Int.floor x : Int) : ℚ) < ((m + 1 : Int) : ℚ) := by
      push_cast
      linarith
    have : Int.floor x < m + 1 := by exact_mod_cast h3
    omega
  have hf2 : m - 1 ≤ Int.floor x := by
    have h4 : ((m - 1 : Int) : ℚ) < ((Int.floor x + 1 : Int) : ℚ) := by
      push_cast
      linarith
    have : m - 1 < Int.floor x + 1 := by exact_mod_cast h4
    omega
  rcases (by omega : Int.floor x = m ∨ Int.floor x = m - 1) with hf | hf
  · rw [hf] at hle hlt ⊢
    simp only []
    rw [if_pos (by linarith)]
  · rw [hf] at hle hlt ⊢
    push_cast at hle hlt ⊢
    rw [if_neg (by linarith), if_pos (by linarith)]
    ring

/-- A rational half-way between the odd integer `f` and `f + 1` rounds to the
even `f + 1`. -/
theorem roundHalfEven_tie_odd (x : ℚ) (f : Int) (hx : x = (f : ℚ) + 1 / 2)
    (hf : f % 2 = 1) : roundHalfEven x = f + 1 := by
  have hfl : Int.floor x = f := by
    rw [Int.floor_eq_iff, hx]
    constructor <;> linarith
  unfold roundHalfEven
  rw [hfl, hx]
  simp only []
  rw [if_neg (by norm_num), if_neg (by norm_num), if_neg (by omega)]

theorem roundDouble_zero : roundDouble 0 = 0 := by
  unfold roundDouble
  simp

theorem log2_abs_eq (x : ℚ) (e : Int) (hlo : (2 : ℚ) ^ e ≤ |x|)
    (hhi : |x| < (2 : ℚ) ^ (e + 1)) : x ≠ 0 ∧ Int.log 2 |x| = e := by
  have hpos : (0 : ℚ) < |x| := lt_of_lt_of_le (zpow_pos (by norm_num) e) hlo
  refine ⟨abs_pos.mp hpos, ?_⟩
  have h3 : e ≤ Int.log 2 |x| :=
    (Int.zpow_le_iff_le_log (by norm_num) hpos).mp (by exact_mod_cast hlo)
  have h4 : Int.log 2 |x| < e + 1 :=
    (Int.lt_zpow_iff_log_lt (by norm_num) hpos).mp (by exact_mod_cast hhi)
  omega

/-- The value of `roundDouble` on `x` in the binade `2 ^ e <= |x| < 2 ^ (e + 1)`
when `x` is strictly within half a unit of `m * 2 ^ (e - 52)`. -/
theorem roundDouble_eq (x r : ℚ) (e m : Int) (hlo : (2 : ℚ) ^ e ≤ |x|)
    (hhi : |x| < (2 : ℚ) ^ (e + 1))
    (h1 : ((m : ℚ) - 1 / 2) * 2 ^ (e - 52) < x)
    (h2 : x < ((m : ℚ) + 1 / 2) * 2 ^ (e - 52))
    (hr : r = (m : ℚ) * 2 ^ (e - 52)) :
    roundDouble x = r := by
  obtain ⟨hx, hlog⟩ := log2_abs_eq x e hlo hhi
  unfold roundDouble
  rw [if_neg hx]
  simp only [hlog]
  have hu : (0 : ℚ) < 2 ^ (e - 52) := zpow_pos (by norm_num) _
  rw [roundHalfEven_eq (x / 2 ^ (e - 52)) m
    (by rw [lt_div_iff₀ hu]; exact h1) (by rw [div_lt_iff₀ hu]; exact h2), hr]

/-- The value of `roundDouble` on `x` in the binade `2 ^ e <= |x| < 2 ^ (e + 1)`
when `x` is half-way between `f * 2 ^ (e - 52)` with `f` odd and the next
multiple. -/
theorem roundDouble_eq_tie (x r : ℚ) (e f : Int) (hlo : (2 : ℚ) ^ e ≤ |x|)
    (hhi : |x| < (2 : ℚ) ^ (e + 1))
    (hx : x = ((f : ℚ) + 1 / 2) * 2 ^ (e - 52)) (hf : f % 2 = 1)
    (hr : r = ((f : ℚ) + 1) * 2 ^ (e - 52)) :
    roundDouble x = r := by
  obtain ⟨hx0, hlog⟩ := log2_abs_eq x e hlo hhi
  unfold roundDouble
  rw [if_neg hx0]
  simp only [hlog]
  have hu : (0 : ℚ) < 2 ^ (e - 52) := zpow_pos (by norm_num) _
  rw [roundHalfEven_tie_odd (x / 2 ^ (e - 52)) f
    (by rw [div_eq_iff (ne_of_gt hu)]; exact hx) hf, hr]
  push_cast
  ring

/-! ### The failing input of C30 in `double` arithmetic -/

theorem roundDouble_literal_001 :
    roundDouble (1 / 100) = 5764607523034235 / 576460752303423488 := by
  apply roundDouble_eq _ _ (-7) 5764607523034235 <;> norm_num [abs_of_pos]

theorem roundDouble_literal_008 :
    roundDouble (8 / 100) = 5764607523034235 / 72057594037927936 := by
  apply roundDouble_eq _ _ (-4) 5764607523034235 <;> norm_num [abs_of_pos]

theorem roundDouble_20 : roundDouble 20 = 20 := by
  apply roundDouble_eq _ _ 4 (20 * 2 ^ 48) <;> norm_num

theorem roundDouble_15 : roundDouble 15 = 15 := by
  apply roundDouble_eq _ _ 3 (15 * 2 ^ 49) <;> norm_num

theorem roundDouble_tax :
    roundDouble (86469112845513525 / 72057594037927936)
      = 5404319552844595 / 4503599627370496 := by
  apply roundDouble_eq _ _ 0 5404319552844595 <;> norm_num [abs_of_pos]

theorem roundDouble_finalTotal :
    roundDouble (72958313963402035 / 4503599627370496)
      = 4559894622712627 / 281474976710656 := by
  apply roundDouble_eq _ _ 4 4559894622712627 <;> norm_num [abs_of_pos]

theorem roundDouble_finalTotal_again :
    roundDouble (4559894622712627 / 281474976710656)
      = 4559894622712627 / 281474976710656 := by
  apply roundDouble_eq _ _ 4 4559894622712627 <;> norm_num [abs_of_pos]

theorem roundDouble_earned :
    roundDouble (26286002846332564263701487785345 / 162259276829213363391578010288128)
      = 5836665117072163 / 36028797018963968 := by
  apply roundDouble_eq _ _ (-3) 5836665117072163 <;> norm_num [abs_of_pos]

theorem roundDouble_earned_again :
    roundDouble (5836665117072163 / 36028797018963968)
      = 5836665117072163 / 36028797018963968 := by
  apply roundDouble_eq _ _ (-3) 5836665117072163 <;> norm_num [abs_of_pos]

theorem roundDouble_balance_accrued :
    roundDouble (185980650211892003 / 36028797018963968)
      = 5811895319121625 / 1125899906842624 := by
  apply roundDouble_eq _ _ 2 5811895319121625 <;> norm_num [abs_of_pos]

theorem roundDouble_balance_redeemed :
    roundDouble (182395784908505 / 1125899906842624)
      = 182395784908505 / 1125899906842624 := by
  apply roundDouble_eq _ _ (-3) 5836665117072160 <;> norm_num [abs_of_pos]

theorem roundDouble_balance_earned :
    roundDouble (11673330234144323 / 36028797018963968)
      = 2918332558536081 / 9007199254740992 := by
  apply roundDouble_eq_tie _ _ (-2) 5836665117072161 <;> norm_num [abs_of_pos]

theorem roundDouble_neg_earned :
    roundDouble (-(26286002846332564263701487785345 / 162259276829213363391578010288128))
      = -(5836665117072163 / 36028797018963968) := by
  apply roundDouble_eq _ _ (-3) (-5836665117072163) <;> norm_num [abs_of_pos, abs_of_neg]

theorem roundDouble_neg_earned_again :
    roundDouble (-(5836665117072163 / 36028797018963968))
      = -(5836665117072163 / 36028797018963968) := by
  apply roundDouble_eq _ _ (-3) (-5836665117072163) <;> norm_num [abs_of_pos, abs_of_neg]

theorem roundDouble_balance_refunded :
    roundDouble (5836665117072161 / 36028797018963968)
      = 5836665117072161 / 36028797018963968 := by
  apply roundDouble_eq _ _ (-3) 5836665117072161 <;> norm_num [abs_of_pos]

theorem exampleLoyaltyCart_regular :
    exampleLoyaltyCart (exampleStore 50 .REGULAR 5) 5
      = { transactionId := 10001,
          items := [{ product := some 0, quantity := 2, unitPrice := 10, discount := 0,
                      subtotal := 20, notes := "" }],
          customer := some 0, subtotal := 0, tax := 0, totalDiscount := 0,
          loyaltyPointsUsed := 5, loyaltyPointsEarned := 0, finalTotal := 0,
          paymentMethod := .CASH, status := .PENDING, timestamp := 0,
          cashierId := "CASHIER01", notes := "" } := by
  simp +decide [exampleLoyaltyCart, exampleStore, exampleCart,
    Transaction.applyLoyaltyPoints, Transaction.addItem, Transaction.new, exampleHeap,
    exampleRegular, Transaction.belowBulkMinimum, exampleCustomer, TransactionItem.new,
    TransactionItem.calculateSubtotal, Product.calculateSellingPrice,
    ceilToInt, INT_MIN, INT_MAX]
  norm_num

theorem exampleDoubleTotals_eq :
    exampleDoubleTotals
      = { transactionId := 10001,
          items := [{ product := some 0, quantity := 2, unitPrice := 10, discount := 0,
                      subtotal := 20, notes := "" }],
          customer := some 0, subtotal := 15,
          tax := 5404319552844595 / 4503599627370496, totalDiscount := 0,
          loyaltyPointsUsed := 5,
          loyaltyPointsEarned := 5836665117072163 / 36028797018963968,
          finalTotal := 4559894622712627 / 281474976710656,
          paymentMethod := .CASH, status := .PENDING, timestamp := 0,
          cashierId := "CASHIER01", notes := "" } := by
  unfold exampleDoubleTotals
  rw [exampleLoyaltyCart_regular, roundDouble_literal_008]
  simp +decide [Binary64.calculateTotals, Binary64.totalsStep, Binary64.getDiscountRate,
    exampleStore, exampleHeap, exampleCustomer, roundDouble_zero, roundDouble_20,
    roundDouble_15, roundDouble_literal_001]
  norm_num [roundDouble_zero, roundDouble_20, roundDouble_15, roundDouble_literal_001,
    roundDouble_tax, roundDouble_finalTotal, roundDouble_finalTotal_again, roundDouble_earned,
    roundDouble_earned_again, roundDouble_balance_accrued, roundDouble_balance_redeemed,
    roundDouble_balance_earned, roundDouble_neg_earned, roundDouble_neg_earned_again,
    roundDouble_balance_refunded]

theorem exampleDoubleCompleted_customer :
    exampleDoubleCompleted.1.customers 0
      = { exampleCustomer .REGULAR 5 with
            totalSpent := 4559894622712627 / 281474976710656,
            transactionCount := 1,
            loyaltyPoints := 2918332558536081 / 9007199254740992 } := by
  unfold exampleDoubleCompleted
  rw [exampleDoubleTotals_eq]
  simp +decide [Binary64.finalizeTransaction, Binary64.addPurchase,
    Binary64.addLoyaltyPoints, Binary64.redeemLoyaltyPoints, Customer.pointsMultiplier,
    exampleStore, exampleHeap, exampleCustomer, reduceStep_customers,
    roundDouble_literal_001]
  norm_num [roundDouble_zero, roundDouble_20, roundDouble_15, roundDouble_literal_001,
    roundDouble_tax, roundDouble_finalTotal, roundDouble_finalTotal_again, roundDouble_earned,
    roundDouble_earned_again, roundDouble_balance_accrued, roundDouble_balance_redeemed,
    roundDouble_balance_earned, roundDouble_neg_earned, roundDouble_neg_earned_again,
    roundDouble_balance_refunded]

theorem exampleDoubleCompleted_snd :
    exampleDoubleCompleted.2 = { exampleDoubleTotals with status := .COMPLETED } := by
  unfold exampleDoubleCompleted
  rw [exampleDoubleTotals_eq]
  simp +decide [Binary64.finalizeTransaction]

theorem exampleDoubleRefunded_fst_status :
    exampleDoubleRefunded.1 = true ∧ exampleDoubleRefunded.2.2.status = .REFUNDED := by
  unfold exampleDoubleRefunded
  rw [exampleDoubleCompleted_snd, exampleDoubleTotals_eq]
  simp +decide [Binary64.processRefund]

theorem exampleDoubleRefunded_customer :
    (exampleDoubleRefunded.2.1.customers 0).loyaltyPoints
      = 5836665117072161 / 36028797018963968 := by
  have hc := exampleDoubleCompleted_customer
  unfold exampleDoubleRefunded
  rw [exampleDoubleCompleted_snd, exampleDoubleTotals_eq]
  simp +decide [Binary64.processRefund, restockStep_customers, hc, Binary64.addPurchase,
    Binary64.addLoyaltyPoints, Binary64.redeemLoyaltyPoints, Customer.pointsMultiplier,
    exampleCustomer, roundDouble_literal_001]
  norm_num [roundDouble_zero, roundDouble_20, roundDouble_15, roundDouble_literal_001,
    roundDouble_tax, roundDouble_finalTotal, roundDouble_finalTotal_again, roundDouble_earned,
    roundDouble_earned_again, roundDouble_balance_accrued, roundDouble_balance_redeemed,
    roundDouble_balance_earned, roundDouble_neg_earned, roundDouble_neg_earned_again,
    roundDouble_balance_refunded]

/-- C30 (the code at the failing input, in `double` arithmetic): a Regular-tier
customer with balance 5 buys 2 units at price 10 and applies all 5 points, which
`0 <= loyaltyPointsUsed <= b` admits.  After `calculateTotals(0.08)` the
transaction is PENDING with `finalTotal` about 16.20 and `loyaltyPointsEarned`
about 0.162.  `finalizeTransaction` adds the accrued 0.162 to the balance 5,
subtracts 5 and adds the earned 0.162; the first sum is rounded in the binade
of 5, so the balance is a little below 0.324.  In the full `processRefund()`
`addPurchase(-finalTotal)` takes the accrued points back, which leaves a balance
two units in the last place below `loyaltyPointsEarned`, and
`redeemLoyaltyPoints(loyaltyPointsEarned)` is refused: the refund returns true,
the status is REFUNDED, and the balance stays at about 0.162 instead of
`b - loyaltyPointsUsed = 0`. -/
theorem C30_refund_leaves_earned_points_in_double_arithmetic :
    ((exampleStore 50 .REGULAR 5).customers 0).loyaltyPoints = 5
      ∧ (exampleLoyaltyCart (exampleStore 50 .REGULAR 5) 5).status = .PENDING
      ∧ (exampleLoyaltyCart (exampleStore 50 .REGULAR 5) 5).customer = some 0
      ∧ (exampleLoyaltyCart (exampleStore 50 .REGULAR 5) 5).items.map
          (fun l => (l.unitPrice, l.quantity, l.discount, l.subtotal)) = [(10, 2, 0, 20)]
      ∧ exampleDoubleTotals.status = .PENDING
      ∧ exampleDoubleTotals.loyaltyPointsUsed = 5
      ∧ exampleDoubleTotals.finalTotal = 4559894622712627 / 281474976710656
      ∧ exampleDoubleTotals.loyaltyPointsEarned = 5836665117072163 / 36028797018963968
      ∧ (exampleDoubleCompleted.1.customers 0).loyaltyPoints
          = 2918332558536081 / 9007199254740992
      ∧ exampleDoubleRefunded.1 = true
      ∧ exampleDoubleRefunded.2.2.status = .REFUNDED
      ∧ (exampleDoubleRefunded.2.1.customers 0).loyaltyPoints
          = 5836665117072161 / 36028797018963968
      ∧ (exampleDoubleRefunded.2.1.customers 0).loyaltyPoints
          ≠ ((exampleStore 50 .REGULAR 5).customers 0).loyaltyPoints
              - exampleDoubleTotals.loyaltyPointsUsed := by
  have hb : ((exampleStore 50 .REGULAR 5).customers 0).loyaltyPoints = 5 := rfl
  refine ⟨hb, ?_, ?_, ?_, ?_, ?_, ?_, ?_, ?_, exampleDoubleRefunded_fst_status.1,
    exampleDoubleRefunded_fst_status.2, exampleDoubleRefunded_customer, ?_⟩
  · rw [exampleLoyaltyCart_regular]
  · rw [exampleLoyaltyCart_regular]
  · rw [exampleLoyaltyCart_regular]
    rfl
  · rw [exampleDoubleTotals_eq]
  · rw [exampleDoubleTotals_eq]
  · rw [exampleDoubleTotals_eq]
  · rw [exampleDoubleTotals_eq]
  · rw [exampleDoubleCompleted_customer]
  · rw [exampleDoubleRefunded_customer, hb, exampleDoubleTotals_eq]
    norm_num

end CSMS
